import Mathlib

/-!
# xFDTD: grid construction and update-coefficient derivation

A shallow embedding of `src/simulation/simulation_init.cpp`, `src/simulation/yee_cell.cpp`
and the accessors of `include/tfsf/tfsf.h`.

Conventions of the embedding

* `double` values are elements of an arbitrary linearly ordered field `α`; every definition is
  computable and can be evaluated over `ℚ`, and every theorem stated for all `α` holds in
  particular over `ℝ`.
* `SpatialIndex` values (cell counts, grid indices) are natural numbers, `int` values
  (the material index and its counter) are integers; what a negative double becomes when it is
  assigned to a `SpatialIndex` is a parameter about which nothing is assumed.
* `for` loops are left folds over `List.range n` or over the container they traverse.
* Three-dimensional arrays carry their extents and an entry function.
-/

namespace xfdtd

/-! ## Geometry -/

/-- Three doubles: `Eigen::Vector3d`, also named `PointVector` in the source. -/
structure Vector3d (α : Type) where
  x : α
  y : α
  z : α

/-- Modelled from the spec: `shape/cube.h` is not among the sources. An axis-aligned box built,
as in `Cube(point, size)`, from its lower corner and its per-axis extents. -/
structure Cube (α : Type) where
  point : Vector3d α
  size : Vector3d α

namespace Cube
variable {α : Type} [LinearOrderedField α]

def getSize (c : Cube α) : Vector3d α := c.size
def getXmin (c : Cube α) : α := c.point.x
def getYmin (c : Cube α) : α := c.point.y
def getZmin (c : Cube α) : α := c.point.z
def getXmax (c : Cube α) : α := c.point.x + c.size.x
def getYmax (c : Cube α) : α := c.point.y + c.size.y
def getZmax (c : Cube α) : α := c.point.z + c.size.z

end Cube

/-- The interface of an object that the initialisation consumes: the containment test of its
shape, its wrapped box (`none` when the `dynamic_pointer_cast<Cube>` yields `nullptr`) and its
electromagnetic properties `(eps, mu, sigma_e, sigma_m)`. -/
structure Object (α : Type) where
  isPointInside : Vector3d α → Bool
  getWrappedBox : Option (Cube α)
  getElectromagneticProperties : α × α × α × α

/-! ## Yee cells (`yee_cell.cpp`) -/

/-- The members that `YeeCell::YeeCell` initialises. -/
structure YeeCell (α : Type) where
  _shape : Cube α
  _material_index : Int
  _x : Nat
  _y : Nat
  _z : Nat

namespace YeeCell
variable {α : Type}

/-- The constructor `YeeCell::YeeCell(point, size, material_index, x, y, z)`. -/
def new (point size : Vector3d α) (material_index : Int) (x y z : Nat) : YeeCell α :=
  { _shape := ⟨point, size⟩, _material_index := material_index, _x := x, _y := y, _z := z }

/-- Modelled from the spec: `simulation/yee_cell.h` is not among the sources. The spec's data
model calls the first constructor argument the cell's center point. -/
def getCenter (c : YeeCell α) : Vector3d α := c._shape.point

/-- Modelled from the spec: the per-axis size attribute, the second constructor argument. -/
def getSize (c : YeeCell α) : Vector3d α := c._shape.size

def getMaterialIndex (c : YeeCell α) : Int := c._material_index

def setMaterialIndex (c : YeeCell α) (index : Int) : YeeCell α :=
  { c with _material_index := index }

end YeeCell

/-! ## Grid construction and material resolution (`gridSimualtionSpace`) -/

section Grid
variable {α : Type} [LinearOrderedField α]

/-- One pass of the loop over `_objects` (lines 287-294): the state is the cell and `counter`. -/
def materialStep (st : YeeCell α × Int) (e : Object α) : YeeCell α × Int :=
  if !e.isPointInside st.1.getCenter then
    (st.1, st.2 + 1)
  else
    (st.1.setMaterialIndex st.2, st.2 + 1)

/-- The body of the loop over `_grid_space` (lines 283-295) for one cell. -/
def setCellMaterial (objects : List (Object α)) (c : YeeCell α) : YeeCell α :=
  (objects.foldl materialStep (c.setMaterialIndex 0, 0)).1

/-- The cell that the one-dimensional branch appends for index `k` (lines 263-265). -/
def lineCell (min_x min_y min_z dz : α) (k : Nat) : YeeCell α :=
  YeeCell.new ⟨min_x, min_y, min_z + (k : α) * dz⟩ ⟨0, 0, dz⟩ (-1) 0 0 k

/-- The cell that the general branch appends for indices `i j k` (lines 272-275). -/
def gridCell (min_x min_y min_z dx dy dz : α) (i j k : Nat) : YeeCell α :=
  YeeCell.new ⟨min_x + (i : α) * dx, min_y + (j : α) * dy, min_z + (k : α) * dz⟩
    ⟨dx, dy, dz⟩ (-1) i j k

/-- The cell-creating part of `gridSimualtionSpace` (lines 255-279): the cells are appended to
the grid space the simulation already holds. -/
def appendCells (grid : List (YeeCell α)) (box : Cube α) (dx dy dz : α) (nx ny nz : Nat) :
    List (YeeCell α) :=
  let min_x := box.getXmin
  let min_y := box.getYmin
  let min_z := box.getZmin
  if nx = 1 ∧ ny = 1 then
    (List.range nz).foldl (fun g k => g ++ [lineCell min_x min_y min_z dz k]) grid
  else
    (List.range nx).foldl (fun g i =>
      (List.range ny).foldl (fun g j =>
        (List.range nz).foldl (fun g k =>
          g ++ [gridCell min_x min_y min_z dx dy dz i j k]) g) g) grid

end Grid

/-! ## Parameters that the sources do not contain -/

/-- The declarations of `util/constant.h` and `util/float_compare.h`, and `std::sqrt`: they are
not among the sources and are taken as parameters. The last field is the value that a
negative whole double takes when it is assigned to a `SpatialIndex` (lines 240-242): the type
is declared in `util/type_define.h`, which is not among the sources, the conversion of a
negative double to an unsigned integer is not defined by the language, and so nothing is
assumed about it. -/
structure Util (α : Type) where
  C_0 : α
  EPSILON_0 : α
  MU_0 : α
  TOLERABLE_EPSILON : α
  isLessOrEqual : α → α → α → Bool
  isGreaterOrEqual : α → α → α → Bool
  sqrt : α → α
  negativeToSpatialIndex : Int → Nat

/-- The comparisons of `util/float_compare.h` read as the exact `<=` and `>=`; a negative
double assigned to a `SpatialIndex` is taken to give `2 ^ 63` in this instance, one possible
outcome among others. -/
def exactCompare {α : Type} [LinearOrderedField α] (c0 eps0 mu0 : α) (sqrt : α → α) : Util α :=
  { C_0 := c0, EPSILON_0 := eps0, MU_0 := mu0, TOLERABLE_EPSILON := 0,
    isLessOrEqual := fun a b _ => decide (a ≤ b),
    isGreaterOrEqual := fun a b _ => decide (a ≥ b),
    sqrt := sqrt,
    negativeToSpatialIndex := fun _ => 2 ^ 63 }

section Limits
variable {α : Type} [LinearOrderedField α]

/-- The largest finite double, `std::numeric_limits<double>::max()`. -/
def numeric_limits_max : α := 2 ^ 1024 - 2 ^ 971

/-- The smallest positive normal double, `std::numeric_limits<double>::min()`. -/
def numeric_limits_min : α := 1 / 2 ^ 1022

/-- The machine epsilon of double, `std::numeric_limits<double>::epsilon()`. -/
def numeric_limits_epsilon : α := 1 / 2 ^ 52

/-- The local `min_sigma` of `allocateArray` and `caculateMaterialComponent`. -/
def min_sigma : α := numeric_limits_epsilon / 1000

end Limits

/-! ## Three-dimensional arrays -/

/-- A dense array of doubles with three extents. The array type itself is declared in
`util/type_define.h`, which is not among the sources; the model keeps the extents and the
entries. -/
structure Array3D (α : Type) where
  n1 : Nat
  n2 : Nat
  n3 : Nat
  data : Nat → Nat → Nat → α

namespace Array3D
variable {α : Type} [LinearOrderedField α]

/-- The array a default-constructed member holds. -/
def empty : Array3D α := ⟨0, 0, 0, fun _ _ _ => 0⟩

/-- The call `allocateDoubleArray3D(n1, n2, n3, default_value)`. -/
def allocateDoubleArray3D (n1 n2 n3 : Nat) (default_value : α) : Array3D α :=
  ⟨n1, n2, n3, fun _ _ _ => default_value⟩

/-- The call `a.resize(n1, n2, n3)`. -/
def resize (a : Array3D α) (n1 n2 n3 : Nat) : Array3D α :=
  { a with n1 := n1, n2 := n2, n3 := n3 }

/-- Whether `(i, j, k)` lies inside the extents. -/
def inExtent (a : Array3D α) (i j k : Nat) : Bool :=
  decide (i < a.n1) && decide (j < a.n2) && decide (k < a.n3)

/-- The write `a(i, j, k) = v`. -/
def set (a : Array3D α) (i j k : Nat) (v : α) : Array3D α :=
  { a with data := fun i' j' k' => if i' = i ∧ j' = j ∧ k' = k then v else a.data i' j' k' }

/-- The extents as a triple. -/
def extents (a : Array3D α) : Nat × Nat × Nat := (a.n1, a.n2, a.n3)

/-- Entrywise combination of two arrays; the result has the extents of the left operand. -/
def zipWith (f : α → α → α) (a b : Array3D α) : Array3D α :=
  { a with data := fun i j k => f (a.data i j k) (b.data i j k) }

/-- The expression `c * a` for a scalar `c`. -/
def smul (c : α) (a : Array3D α) : Array3D α :=
  { a with data := fun i j k => c * a.data i j k }

/-- The expression `c / a` for a scalar `c`. -/
def sdiv (c : α) (a : Array3D α) : Array3D α :=
  { a with data := fun i j k => c / a.data i j k }

def add (a b : Array3D α) : Array3D α := zipWith (fun x y => x + y) a b
def sub (a b : Array3D α) : Array3D α := zipWith (fun x y => x - y) a b
def div (a b : Array3D α) : Array3D α := zipWith (fun x y => x / y) a b

end Array3D

/-! ## Boundaries -/

/-- The faces a boundary can sit on (`boundary/boundary.h` is not among the sources; the six
values are the ones `simulation_init.cpp` compares with). -/
inductive Orientation where
  | XN | XP | YN | YP | ZN | ZP
deriving DecidableEq, Repr

/-- The interface of a boundary that the initialisation consumes; `isPML` tells whether the
`dynamic_pointer_cast<PML>` succeeds. -/
structure Boundary where
  getOrientation : Orientation
  getSize : Nat
  isPML : Bool

/-- The arguments of one `cpml->init(...)` call that do not refer to coefficient arrays. -/
structure PMLInit (α : Type) where
  orientation : Orientation
  pitch : α
  dt : α
  start : Int
  na : Nat
  nb : Nat

/-! ## The simulation state -/

/-- The ways in which the initialisation stops: `throw std::exception()` in
`initBondaryCondition`, `exit(-1)` in `caculateMaterialComponent`, and an access outside a
container, which the source does not guard. -/
inductive InitError where
  | notPML
  | materialIndexUnset
  | outOfRange
deriving DecidableEq, Repr

/-- The members of `Simulation` that `simulation_init.cpp` reads or writes. The field arrays
set up by `allocateEx` ... `allocateHz`, the sources, the TFSF and the monitors are left out. -/
structure Simulation (α : Type) where
  _dx : α
  _dy : α
  _dz : α
  _cfl : α
  _dt : α
  _time_steps : Nat
  _current_time_step : Nat
  _time_array : List α
  _objects : List (Object α)
  _boundaries : List Boundary
  _simulation_box : Cube α
  _nx : Nat
  _ny : Nat
  _nz : Nat
  _grid_space : List (YeeCell α)
  _pml : List (PMLInit α)
  _eps_x : Array3D α
  _eps_y : Array3D α
  _eps_z : Array3D α
  _mu_x : Array3D α
  _mu_y : Array3D α
  _mu_z : Array3D α
  _sigma_e_x : Array3D α
  _sigma_e_y : Array3D α
  _sigma_e_z : Array3D α
  _sigma_m_x : Array3D α
  _sigma_m_y : Array3D α
  _sigma_m_z : Array3D α
  _cexe : Array3D α
  _cexhy : Array3D α
  _cexhz : Array3D α
  _cexje : Array3D α
  _ceye : Array3D α
  _ceyhx : Array3D α
  _ceyhz : Array3D α
  _ceyje : Array3D α
  _ceze : Array3D α
  _cezhx : Array3D α
  _cezhy : Array3D α
  _cezje : Array3D α
  _chxh : Array3D α
  _chxey : Array3D α
  _chxez : Array3D α
  _chxjm : Array3D α
  _chyh : Array3D α
  _chyez : Array3D α
  _chyex : Array3D α
  _chyjm : Array3D α
  _chzh : Array3D α
  _chzex : Array3D α
  _chzey : Array3D α
  _chzjm : Array3D α

/-! ## Domain size (`caculateDomainSize`) -/

section Domain
variable {α : Type} [LinearOrderedField α] [FloorRing α]

/-- The six local bounds of `caculateDomainSize`. -/
structure Bounds (α : Type) where
  min_x : α
  max_x : α
  min_y : α
  max_y : α
  min_z : α
  max_z : α

/-- The initial values of the bounds (lines 162-167). -/
def initialBounds : Bounds α :=
  { min_x := numeric_limits_max, max_x := numeric_limits_min,
    min_y := numeric_limits_max, max_y := numeric_limits_min,
    min_z := numeric_limits_max, max_z := numeric_limits_min }

/-- One pass of the loop over `_objects` (lines 169-200). -/
def boundsStep (u : Util α) (b : Bounds α) (e : Object α) : Bounds α :=
  match e.getWrappedBox with
  | none => b
  | some box =>
    { min_x := if u.isLessOrEqual box.getXmin b.min_x u.TOLERABLE_EPSILON then box.getXmin
               else b.min_x,
      max_x := if u.isGreaterOrEqual box.getXmax b.max_x u.TOLERABLE_EPSILON then box.getXmax
               else b.max_x,
      min_y := if u.isLessOrEqual box.getYmin b.min_y u.TOLERABLE_EPSILON then box.getYmin
               else b.min_y,
      max_y := if u.isGreaterOrEqual box.getYmax b.max_y u.TOLERABLE_EPSILON then box.getYmax
               else b.max_y,
      min_z := if u.isLessOrEqual box.getZmin b.min_z u.TOLERABLE_EPSILON then box.getZmin
               else b.min_z,
      max_z := if u.isGreaterOrEqual box.getZmax b.max_z u.TOLERABLE_EPSILON then box.getZmax
               else b.max_z }

/-- The bounds `caculateDomainSize` holds after the loop over `_objects`, before snapping. -/
def objectBounds (u : Util α) (objects : List (Object α)) : Bounds α :=
  objects.foldl (boundsStep u) initialBounds

/-- The function `std::round`: the nearest integer, halfway cases away from zero. -/
def round (x : α) : Int :=
  if 0 ≤ x then ⌊x + 1 / 2⌋ else -⌊-x + 1 / 2⌋

/-- Snapping the maxima to a whole number of cells (lines 202-210). -/
def snapBounds (dx dy dz : α) (b : Bounds α) : Bounds α :=
  let nx : α := (round ((b.max_x - b.min_x) / dx) : Int)
  let ny : α := (round ((b.max_y - b.min_y) / dy) : Int)
  let nz : α := (round ((b.max_z - b.min_z) / dz) : Int)
  let size_x := nx * dx
  let size_y := ny * dy
  let size_z := nz * dz
  { b with max_x := b.min_x + size_x, max_y := b.min_y + size_y, max_z := b.min_z + size_z }

/-- One pass of the loop over `_boundaries` (lines 212-236). -/
def boundaryStep (dx dy dz : α) (b : Bounds α) (e : Boundary) : Bounds α :=
  let ori := e.getOrientation
  let len : α := (e.getSize : α)
  if ori = Orientation.XN then { b with min_x := b.min_x - dx * len }
  else if ori = Orientation.YN then { b with min_y := b.min_y - dy * len }
  else if ori = Orientation.ZN then { b with min_z := b.min_z - dz * len }
  else
    let b := if ori = Orientation.XP then { b with max_x := b.max_x + dx * len } else b
    let b := if ori = Orientation.YP then { b with max_y := b.max_y + dy * len } else b
    let b := if ori = Orientation.ZP then { b with max_z := b.max_z + dz * len } else b
    b

/-- The bounds from which `caculateDomainSize` builds `_simulation_box` (lines 162-236). -/
def domainBounds (u : Util α) (s : Simulation α) : Bounds α :=
  s._boundaries.foldl (boundaryStep s._dx s._dy s._dz)
    (snapBounds s._dx s._dy s._dz (objectBounds u s._objects))

/-- The assignment of a rounded double to a `SpatialIndex` (lines 240-242): a non-negative
value is kept, a negative one becomes whatever the platform makes of it. -/
def toSpatialIndex (u : Util α) (z : Int) : Nat :=
  if 0 ≤ z then z.toNat else u.negativeToSpatialIndex z

/-- The conversion of a rounded double to a cell count followed by the clamp
`if (n == 0) n = 1` (lines 240-251). -/
def cellCount (u : Util α) (extent pitch : α) : Nat :=
  let n := toSpatialIndex u (round (extent / pitch))
  if n = 0 then 1 else n

/-- The method `Simulation::caculateDomainSize`. The source has no failing path, so the result
is always `Except.ok`. -/
def caculateDomainSize (u : Util α) (s : Simulation α) : Except InitError (Simulation α) :=
  let b := domainBounds u s
  let box : Cube α :=
    ⟨⟨b.min_x, b.min_y, b.min_z⟩, ⟨b.max_x - b.min_x, b.max_y - b.min_y, b.max_z - b.min_z⟩⟩
  Except.ok { s with
    _simulation_box := box,
    _nx := cellCount u box.getSize.x s._dx,
    _ny := cellCount u box.getSize.y s._dy,
    _nz := cellCount u box.getSize.z s._dz }

end Domain

/-! ## Grid, material arrays and coefficients -/

section Init
variable {α : Type} [LinearOrderedField α]

/-- The method `Simulation::gridSimualtionSpace`. -/
def gridSimualtionSpace (s : Simulation α) : Simulation α :=
  let grid := appendCells s._grid_space s._simulation_box s._dx s._dy s._dz s._nx s._ny s._nz
  { s with _grid_space := grid.map (setCellMaterial s._objects) }

/-- The method `Simulation::allocateArray` (the material arrays, lines 307-323). -/
def allocateArray (u : Util α) (s : Simulation α) : Simulation α :=
  { s with
    _eps_x := Array3D.allocateDoubleArray3D s._nx (s._ny + 1) (s._nz + 1) u.EPSILON_0,
    _sigma_e_x := Array3D.allocateDoubleArray3D s._nx (s._ny + 1) (s._nz + 1) min_sigma,
    _mu_x := Array3D.allocateDoubleArray3D (s._nx + 1) s._ny s._nz u.MU_0,
    _sigma_m_x := Array3D.allocateDoubleArray3D (s._nx + 1) s._ny s._nz min_sigma,
    _eps_y := Array3D.allocateDoubleArray3D (s._nx + 1) s._ny (s._nz + 1) u.EPSILON_0,
    _sigma_e_y := Array3D.allocateDoubleArray3D (s._nx + 1) s._ny (s._nz + 1) min_sigma,
    _mu_y := Array3D.allocateDoubleArray3D s._nx (s._ny + 1) s._nz u.MU_0,
    _sigma_m_y := Array3D.allocateDoubleArray3D s._nx (s._ny + 1) s._nz min_sigma,
    _eps_z := Array3D.allocateDoubleArray3D (s._nx + 1) (s._ny + 1) s._nz u.EPSILON_0,
    _sigma_e_z := Array3D.allocateDoubleArray3D (s._nx + 1) (s._ny + 1) s._nz min_sigma,
    _mu_z := Array3D.allocateDoubleArray3D s._nx s._ny (s._nz + 1) u.MU_0,
    _sigma_m_z := Array3D.allocateDoubleArray3D s._nx s._ny (s._nz + 1) min_sigma }

/-- The element `_objects[material_index]` for an `int` index. -/
def objectAt (objects : List (Object α)) (material_index : Int) : Option (Object α) :=
  if material_index < 0 then none else objects[material_index.toNat]?

/-- The conductivity after the floor substitution (lines 343-348). -/
def floorSigma (u : Util α) (sigma : α) : α :=
  if u.isLessOrEqual sigma min_sigma u.TOLERABLE_EPSILON then min_sigma else sigma

/-- Whether the twelve material arrays can be written at `(i, j, k)`. -/
def writable (s : Simulation α) (i j k : Nat) : Bool :=
  s._eps_x.inExtent i j k && s._sigma_e_x.inExtent i j k && s._mu_x.inExtent i j k &&
  s._sigma_m_x.inExtent i j k && s._eps_y.inExtent i j k && s._mu_y.inExtent i j k &&
  s._sigma_e_y.inExtent i j k && s._sigma_m_y.inExtent i j k && s._eps_z.inExtent i j k &&
  s._mu_z.inExtent i j k && s._sigma_e_z.inExtent i j k && s._sigma_m_z.inExtent i j k

/-- The twelve writes of lines 349-360. -/
def writeMaterial (s : Simulation α) (i j k : Nat) (eps mu sigma_e sigma_m : α) :
    Simulation α :=
  { s with
    _eps_x := s._eps_x.set i j k eps,
    _sigma_e_x := s._sigma_e_x.set i j k sigma_e,
    _mu_x := s._mu_x.set i j k mu,
    _sigma_m_x := s._sigma_m_x.set i j k sigma_m,
    _eps_y := s._eps_y.set i j k eps,
    _mu_y := s._mu_y.set i j k mu,
    _sigma_e_y := s._sigma_e_y.set i j k sigma_e,
    _sigma_m_y := s._sigma_m_y.set i j k sigma_m,
    _eps_z := s._eps_z.set i j k eps,
    _mu_z := s._mu_z.set i j k mu,
    _sigma_e_z := s._sigma_e_z.set i j k sigma_e,
    _sigma_m_z := s._sigma_m_z.set i j k sigma_m }

/-- The body of the innermost loop of `caculateMaterialComponent` (lines 332-360). Reading
`_grid_space` or `_objects`, or writing a material array, outside its range stops with
`outOfRange`. -/
def materialCell (u : Util α) (i j k : Nat) (s : Simulation α) :
    Except InitError (Simulation α) :=
  match s._grid_space[i * s._ny * s._nz + j * s._nz + k]? with
  | none => Except.error InitError.outOfRange
  | some c =>
    let material_index := c.getMaterialIndex
    if material_index = -1 then Except.error InitError.materialIndexUnset
    else
      match objectAt s._objects material_index with
      | none => Except.error InitError.outOfRange
      | some e =>
        let eps := e.getElectromagneticProperties.1
        let mu := e.getElectromagneticProperties.2.1
        let sigma_e := floorSigma u e.getElectromagneticProperties.2.2.1
        let sigma_m := floorSigma u e.getElectromagneticProperties.2.2.2
        if writable s i j k then Except.ok (writeMaterial s i j k eps mu sigma_e sigma_m)
        else Except.error InitError.outOfRange

/-- The method `Simulation::caculateMaterialComponent`. -/
def caculateMaterialComponent (u : Util α) (s : Simulation α) :
    Except InitError (Simulation α) :=
  (List.range s._nx).foldlM (fun s i =>
    (List.range s._ny).foldlM (fun s j =>
      (List.range s._nz).foldlM (fun s k => materialCell u i j k s) s) s) s

/-- The `resize` calls of `initUpdateCoefficient` (lines 61-79). -/
def resizeCoefficients (s : Simulation α) : Simulation α :=
  { s with
    _cexe := s._cexe.resize s._nx (s._ny + 1) (s._nz + 1),
    _cexhy := s._cexhy.resize s._nx (s._ny + 1) (s._nz + 1),
    _cexhz := s._cexhz.resize s._nx (s._ny + 1) (s._nz + 1),
    _ceye := s._ceye.resize (s._nx + 1) s._ny (s._nz + 1),
    _ceyhx := s._ceyhx.resize (s._nx + 1) s._ny (s._nz + 1),
    _ceyhz := s._ceyhz.resize (s._nx + 1) s._ny (s._nz + 1),
    _ceze := s._ceze.resize (s._nx + 1) (s._ny + 1) s._nz,
    _cezhx := s._cezhx.resize (s._nx + 1) (s._ny + 1) s._nz,
    _cezhy := s._cezhy.resize (s._nx + 1) (s._ny + 1) s._nz,
    _chxh := s._chxh.resize s._nx (s._ny + 1) s._nz,
    _chxey := s._chxey.resize s._nx (s._ny + 1) s._nz,
    _chxez := s._chxez.resize s._nx (s._ny + 1) s._nz,
    _chyh := s._chyh.resize (s._nx + 1) s._ny s._nz,
    _chyez := s._chyez.resize (s._nx + 1) s._ny s._nz,
    _chyex := s._chyex.resize (s._nx + 1) s._ny s._nz,
    _chzh := s._chzh.resize s._nx s._ny s._nz,
    _chzex := s._chzex.resize s._nx s._ny (s._nz + 1),
    _chzey := s._chzey.resize s._nx s._ny (s._nz + 1) }

/-- The denominator `2 * m + _dt * sigma` shared by the four coefficients of one component. -/
def denominator (dt : α) (m sigma : Array3D α) : Array3D α :=
  Array3D.add (Array3D.smul 2 m) (Array3D.smul dt sigma)

/-- The self-coefficient expression `(2 * m - _dt * sigma) / (2 * m + _dt * sigma)`. -/
def selfCoefficient (dt : α) (m sigma : Array3D α) : Array3D α :=
  Array3D.div (Array3D.sub (Array3D.smul 2 m) (Array3D.smul dt sigma)) (denominator dt m sigma)

/-- The whole-array assignments of `initUpdateCoefficient` (lines 81-113): each target becomes
the value of the entrywise expression on its right. -/
def assignCoefficients (s : Simulation α) : Simulation α :=
  { s with
    _cexe := selfCoefficient s._dt s._eps_x s._sigma_e_x,
    _cexhz := Array3D.sdiv (2 * s._dt / s._dy) (denominator s._dt s._eps_x s._sigma_e_x),
    _cexhy := Array3D.sdiv (-(2 * s._dt / s._dz)) (denominator s._dt s._eps_x s._sigma_e_x),
    _cexje := Array3D.sdiv (-(2 * s._dt)) (denominator s._dt s._eps_x s._sigma_e_x),
    _ceye := selfCoefficient s._dt s._eps_y s._sigma_e_y,
    _ceyhx := Array3D.sdiv (2 * s._dt / s._dz) (denominator s._dt s._eps_y s._sigma_e_y),
    _ceyhz := Array3D.sdiv (-(2 * s._dt / s._dx)) (denominator s._dt s._eps_y s._sigma_e_y),
    _ceyje := Array3D.sdiv (-(2 * s._dt)) (denominator s._dt s._eps_y s._sigma_e_y),
    _ceze := selfCoefficient s._dt s._eps_z s._sigma_e_z,
    _cezhx := Array3D.sdiv (-(2 * s._dt / s._dy)) (denominator s._dt s._eps_z s._sigma_e_z),
    _cezhy := Array3D.sdiv (2 * s._dt / s._dx) (denominator s._dt s._eps_z s._sigma_e_z),
    _cezje := Array3D.sdiv (-(2 * s._dt)) (denominator s._dt s._eps_z s._sigma_e_z),
    _chxh := selfCoefficient s._dt s._mu_x s._sigma_m_x,
    _chxey := Array3D.sdiv (2 * s._dt / s._dz) (denominator s._dt s._mu_x s._sigma_m_x),
    _chxez := Array3D.sdiv (-(2 * s._dt / s._dy)) (denominator s._dt s._mu_x s._sigma_m_x),
    _chxjm := Array3D.sdiv (-(2 * s._dt)) (denominator s._dt s._mu_x s._sigma_m_x),
    _chyh := selfCoefficient s._dt s._mu_y s._sigma_m_y,
    _chyez := Array3D.sdiv (2 * s._dt / s._dx) (denominator s._dt s._mu_y s._sigma_m_y),
    _chyex := Array3D.sdiv (-(2 * s._dt / s._dz)) (denominator s._dt s._mu_y s._sigma_m_y),
    _chyjm := Array3D.sdiv (-(2 * s._dt)) (denominator s._dt s._mu_y s._sigma_m_y),
    _chzh := selfCoefficient s._dt s._mu_z s._sigma_m_z,
    _chzex := Array3D.sdiv (2 * s._dt / s._dy) (denominator s._dt s._mu_z s._sigma_m_z),
    _chzey := Array3D.sdiv (-(2 * s._dt / s._dx)) (denominator s._dt s._mu_z s._sigma_m_z),
    _chzjm := Array3D.sdiv (-(2 * s._dt)) (denominator s._dt s._mu_z s._sigma_m_z) }

/-- The method `Simulation::initUpdateCoefficient`. -/
def initUpdateCoefficient (s : Simulation α) : Simulation α :=
  assignCoefficients (resizeCoefficients s)

/-- The time step and the time array that `init` sets before the phases (lines 21-28). -/
def initTime (u : Util α) (s : Simulation α) : Simulation α :=
  let dt := s._cfl /
    (u.C_0 * u.sqrt (1 / (s._dx * s._dx) + 1 / (s._dy * s._dy) + 1 / (s._dz * s._dz)))
  { s with
    _dt := dt,
    _current_time_step := 0,
    _time_array :=
      (List.range s._time_steps).foldl (fun t i => t ++ [((i : α) + 1 / 2) * dt])
        s._time_array }

/-- The grid and material part of the initialisation that follows `caculateDomainSize` in
`initMaterialGrid`, and `initUpdateCoefficient` after it. -/
def materialAndCoefficients (u : Util α) (s : Simulation α) :
    Except InitError (Simulation α) :=
  (caculateMaterialComponent u (allocateArray u (gridSimualtionSpace s))).map
    initUpdateCoefficient

end Init

section Phases
variable {α : Type} [LinearOrderedField α] [FloorRing α]

/-- The method `Simulation::initMaterialGrid`. -/
def initMaterialGrid (u : Util α) (s : Simulation α) : Except InitError (Simulation α) :=
  (caculateDomainSize u s).bind fun s =>
    caculateMaterialComponent u (allocateArray u (gridSimualtionSpace s))

/-- One pass of the loop of `initBondaryCondition` (lines 117-145): a boundary that is not a
PML stops the initialisation; otherwise the call `cpml->init(...)` is recorded with its pitch,
time step, start index along the normal axis and the two transverse cell counts. -/
def boundaryInitStep (s : Simulation α) (e : Boundary) : Except InitError (Simulation α) :=
  if !e.isPML then Except.error InitError.notPML
  else
    let ori := e.getOrientation
    if ori = Orientation.XN then
      Except.ok { s with _pml := s._pml ++ [⟨ori, s._dx, s._dt, 0, s._ny, s._nz⟩] }
    else
      let s := if ori = Orientation.YN then
        { s with _pml := s._pml ++ [⟨ori, s._dy, s._dt, 0, s._nz, s._nx⟩] } else s
      let s := if ori = Orientation.ZN then
        { s with _pml := s._pml ++ [⟨ori, s._dz, s._dt, 0, s._nx, s._ny⟩] } else s
      let s := if ori = Orientation.XP then
        { s with _pml := s._pml ++
            [⟨ori, s._dx, s._dt, (s._nx : Int) - (e.getSize : Int), s._ny, s._nz⟩] } else s
      let s := if ori = Orientation.YP then
        { s with _pml := s._pml ++
            [⟨ori, s._dy, s._dt, (s._ny : Int) - (e.getSize : Int), s._nz, s._nx⟩] } else s
      let s := if ori = Orientation.ZP then
        { s with _pml := s._pml ++
            [⟨ori, s._dz, s._dt, (s._nz : Int) - (e.getSize : Int), s._nx, s._ny⟩] } else s
      Except.ok s

/-- The method `Simulation::initBondaryCondition`. -/
def initBondaryCondition (s : Simulation α) : Except InitError (Simulation α) :=
  s._boundaries.foldlM boundaryInitStep s

/-- The method `Simulation::init`, without `initSource`, `initTFSF` and `initMonitor`, whose
collaborators are not among the sources. -/
def init (u : Util α) (s : Simulation α) : Except InitError (Simulation α) :=
  (initMaterialGrid u (initTime u s)).bind fun s =>
    initBondaryCondition (initUpdateCoefficient s)

end Phases

/-! ## The TFSF boundary index (`tfsf.h`) -/

namespace TFSF

/-- The record `TFSF::TFSFBoundaryIndex`. -/
structure TFSFBoundaryIndex where
  start_x : Nat
  start_y : Nat
  start_z : Nat
  nx : Nat
  ny : Nat
  nz : Nat

def getNx (b : TFSFBoundaryIndex) : Nat := b.nx
def getNy (b : TFSFBoundaryIndex) : Nat := b.ny
def getNz (b : TFSFBoundaryIndex) : Nat := b.nz
def getStartIndexX (b : TFSFBoundaryIndex) : Nat := b.start_x
def getStartIndexY (b : TFSFBoundaryIndex) : Nat := b.start_y
def getStartIndexZ (b : TFSFBoundaryIndex) : Nat := b.start_z
def getEndIndexX (b : TFSFBoundaryIndex) : Nat := getStartIndexX b + getNx b
def getEndIndexY (b : TFSFBoundaryIndex) : Nat := getStartIndexX b + getNx b
def getEndIndexZ (b : TFSFBoundaryIndex) : Nat := getStartIndexZ b + getNz b

end TFSF

/-- The cell `gridSimualtionSpace` creates for `(i, j, k)`: the one-dimensional branch is taken
when `nx = 1` and `ny = 1` (line 260). -/
def builtCell {α : Type} [LinearOrderedField α] (box : Cube α) (dx dy dz : α) (nx ny : Nat)
    (i j k : Nat) : YeeCell α :=
  if nx = 1 ∧ ny = 1 then lineCell box.getXmin box.getYmin box.getZmin dz k
  else gridCell box.getXmin box.getYmin box.getZmin dx dy dz i j k

/-! ## Reading the material arrays -/

section Entries
variable {α : Type} [LinearOrderedField α]

/-- The entries of the twelve material arrays at `(i, j, k)`, in the order in which
`caculateMaterialComponent` writes them (lines 349-360). -/
def materialEntries (s : Simulation α) (i j k : Nat) : List α :=
  [s._eps_x.data i j k, s._sigma_e_x.data i j k, s._mu_x.data i j k, s._sigma_m_x.data i j k,
   s._eps_y.data i j k, s._mu_y.data i j k, s._sigma_e_y.data i j k, s._sigma_m_y.data i j k,
   s._eps_z.data i j k, s._mu_z.data i j k, s._sigma_e_z.data i j k, s._sigma_m_z.data i j k]

/-- The twelve values that lines 349-360 write for an object, in the same order. -/
def resolvedEntries (u : Util α) (e : Object α) : List α :=
  let eps := e.getElectromagneticProperties.1
  let mu := e.getElectromagneticProperties.2.1
  let sigma_e := floorSigma u e.getElectromagneticProperties.2.2.1
  let sigma_m := floorSigma u e.getElectromagneticProperties.2.2.2
  [eps, sigma_e, mu, sigma_m, eps, mu, sigma_e, sigma_m, eps, mu, sigma_e, sigma_m]

/-- The extents of the twelve material arrays, in the order of `materialEntries`. -/
def materialExtents (s : Simulation α) : List (Nat × Nat × Nat) :=
  [s._eps_x.extents, s._sigma_e_x.extents, s._mu_x.extents, s._sigma_m_x.extents,
   s._eps_y.extents, s._mu_y.extents, s._sigma_e_y.extents, s._sigma_m_y.extents,
   s._eps_z.extents, s._mu_z.extents, s._sigma_e_z.extents, s._sigma_m_z.extents]

/-- What `caculateMaterialComponent` leaves untouched: everything but the entries of the
material arrays. -/
def SameFrame (s s' : Simulation α) : Prop :=
  s'._grid_space = s._grid_space ∧ s'._objects = s._objects ∧
  s'._nx = s._nx ∧ s'._ny = s._ny ∧ s'._nz = s._nz ∧
  s'._dt = s._dt ∧ s'._dx = s._dx ∧ s'._dy = s._dy ∧ s'._dz = s._dz ∧
  materialExtents s' = materialExtents s

/-- The state `s` arises from `s0` by the writes of `caculateMaterialComponent` at exactly
the index triples in `P`. -/
def Written (u : Util α) (s0 s : Simulation α) (P : Nat → Nat → Nat → Prop) : Prop :=
  SameFrame s0 s ∧
  (∀ a b c, P a b c → ∃ cell e,
    s0._grid_space[a * s0._ny * s0._nz + b * s0._nz + c]? = some cell ∧
    objectAt s0._objects cell.getMaterialIndex = some e ∧
    materialEntries s a b c = resolvedEntries u e) ∧
  (∀ a b c, ¬ P a b c → materialEntries s a b c = materialEntries s0 a b c)

/-- Every pass of `caculateMaterialComponent` finds its cell, a set material index, its object
and room in the material arrays. -/
def Ready (s : Simulation α) : Prop :=
  ∀ i j k, i < s._nx → j < s._ny → k < s._nz → ∃ cell e,
    s._grid_space[i * s._ny * s._nz + j * s._nz + k]? = some cell ∧
    cell.getMaterialIndex ≠ -1 ∧
    objectAt s._objects cell.getMaterialIndex = some e ∧
    writable s i j k = true

end Entries

/-! ## Concrete configurations -/

section Examples
variable (α : Type) [LinearOrderedField α]

/-- A simulation with unit pitches and time step, a box at the origin, no cells yet and empty
arrays, for the given objects, boundaries and cell counts. -/
def exampleSimulation (objects : List (Object α)) (boundaries : List Boundary)
    (nx ny nz : Nat) : Simulation α :=
  { _dx := 1, _dy := 1, _dz := 1, _cfl := 1 / 2, _dt := 1, _time_steps := 0,
    _current_time_step := 0, _time_array := [], _objects := objects,
    _boundaries := boundaries, _simulation_box := ⟨⟨0, 0, 0⟩, ⟨nx, ny, nz⟩⟩,
    _nx := nx, _ny := ny, _nz := nz, _grid_space := [], _pml := [],
    _eps_x := Array3D.empty, _eps_y := Array3D.empty, _eps_z := Array3D.empty,
    _mu_x := Array3D.empty, _mu_y := Array3D.empty, _mu_z := Array3D.empty,
    _sigma_e_x := Array3D.empty, _sigma_e_y := Array3D.empty, _sigma_e_z := Array3D.empty,
    _sigma_m_x := Array3D.empty, _sigma_m_y := Array3D.empty, _sigma_m_z := Array3D.empty,
    _cexe := Array3D.empty, _cexhy := Array3D.empty, _cexhz := Array3D.empty,
    _cexje := Array3D.empty, _ceye := Array3D.empty, _ceyhx := Array3D.empty,
    _ceyhz := Array3D.empty, _ceyje := Array3D.empty, _ceze := Array3D.empty,
    _cezhx := Array3D.empty, _cezhy := Array3D.empty, _cezje := Array3D.empty,
    _chxh := Array3D.empty, _chxey := Array3D.empty, _chxez := Array3D.empty,
    _chxjm := Array3D.empty, _chyh := Array3D.empty, _chyez := Array3D.empty,
    _chyex := Array3D.empty, _chyjm := Array3D.empty, _chzh := Array3D.empty,
    _chzex := Array3D.empty, _chzey := Array3D.empty, _chzjm := Array3D.empty }

/-- An object whose shape contains every point, with the given wrapped box and properties. -/
def everywhere (box : Option (Cube α)) (props : α × α × α × α) : Object α :=
  { isPointInside := fun _ => true, getWrappedBox := box,
    getElectromagneticProperties := props }

/-- The parameters used with the concrete configurations: unit constants, exact comparisons
and the given square root. -/
def exampleUtil (sqrt : α → α) : Util α := exactCompare 1 1 1 sqrt

end Examples

/-! ## What the boundary loops pass on -/

section BoundaryArguments
variable {α : Type} [LinearOrderedField α]

/-- The arguments of the call `cpml->init(...)` that `initBondaryCondition` makes for the
boundary `e` (lines 123-144). -/
def pmlArguments (s : Simulation α) (e : Boundary) : PMLInit α :=
  match e.getOrientation with
  | Orientation.XN => ⟨Orientation.XN, s._dx, s._dt, 0, s._ny, s._nz⟩
  | Orientation.YN => ⟨Orientation.YN, s._dy, s._dt, 0, s._nz, s._nx⟩
  | Orientation.ZN => ⟨Orientation.ZN, s._dz, s._dt, 0, s._nx, s._ny⟩
  | Orientation.XP =>
    ⟨Orientation.XP, s._dx, s._dt, (s._nx : Int) - (e.getSize : Int), s._ny, s._nz⟩
  | Orientation.YP =>
    ⟨Orientation.YP, s._dy, s._dt, (s._ny : Int) - (e.getSize : Int), s._nz, s._nx⟩
  | Orientation.ZP =>
    ⟨Orientation.ZP, s._dz, s._dt, (s._nz : Int) - (e.getSize : Int), s._nx, s._ny⟩

end BoundaryArguments

/-- The number of cells by which the boundaries of a list move the face `o`: the sum of the
sizes of the boundaries with that orientation. -/
def faceThickness (boundaries : List Boundary) (o : Orientation) : Nat :=
  ((boundaries.filter (fun e => decide (e.getOrientation = o))).map Boundary.getSize).sum

/-- The bounds are ordered on every axis. -/
def Bounds.Ordered {α : Type} [LinearOrderedField α] (b : Bounds α) : Prop :=
  b.min_x ≤ b.max_x ∧ b.min_y ≤ b.max_y ∧ b.min_z ≤ b.max_z

/-! ## Material resolution: the loop over the objects -/

section MaterialProofs
variable {α : Type}

/-- What the loop over `_objects` leaves in the cell and in `counter`. -/
theorem foldl_materialStep_spec (objects : List (Object α)) (c : YeeCell α) :
    (objects.foldl materialStep (c, 0)).2 = objects.length ∧
    (objects.foldl materialStep (c, 0)).1._shape = c._shape ∧
    (objects.foldl materialStep (c, 0)).1._x = c._x ∧
    (objects.foldl materialStep (c, 0)).1._y = c._y ∧
    (objects.foldl materialStep (c, 0)).1._z = c._z ∧
    (∀ (m : Nat) (e : Object α), objects[m]? = some e → e.isPointInside c.getCenter = true →
      (∀ (m' : Nat) (e' : Object α), m < m' → objects[m']? = some e' →
        e'.isPointInside c.getCenter = false) →
      (objects.foldl materialStep (c, 0)).1._material_index = m) ∧
    ((∀ e ∈ objects, e.isPointInside c.getCenter = false) →
      (objects.foldl materialStep (c, 0)).1._material_index = c._material_index) ∧
    (c._material_index = 0 → objects ≠ [] →
      0 ≤ (objects.foldl materialStep (c, 0)).1._material_index ∧
      (objects.foldl materialStep (c, 0)).1._material_index < objects.length) := by
  induction objects using List.reverseRecOn with
  | nil => simp
  | append_singleton l e ih =>
    obtain ⟨h2, hs, hx, hy, hz, hlast, hnone, hrange⟩ := ih
    have hcenter : (l.foldl materialStep (c, 0)).1.getCenter = c.getCenter := by
      simp [YeeCell.getCenter, hs]
    rw [List.foldl_append, List.foldl_cons, List.foldl_nil]
    by_cases he : e.isPointInside c.getCenter = true
    · have hstep : materialStep (l.foldl materialStep (c, 0)) e =
          ((l.foldl materialStep (c, 0)).1.setMaterialIndex (l.length : Int),
            (l.length : Int) + 1) := by
        simp [materialStep, hcenter, he, h2]
      rw [hstep]
      refine ⟨by simp, by simpa [YeeCell.setMaterialIndex] using hs,
        by simpa [YeeCell.setMaterialIndex] using hx,
        by simpa [YeeCell.setMaterialIndex] using hy,
        by simpa [YeeCell.setMaterialIndex] using hz, ?_, ?_, ?_⟩
      · intro m e1 hm hin hlater
        simp only [YeeCell.setMaterialIndex]
        rcases Nat.lt_trichotomy m l.length with hlt | heq | hgt
        · have := hlater l.length e hlt (by simp)
          rw [he] at this
          exact absurd this (by simp)
        · simp [heq]
        · have : (l ++ [e])[m]? = none := by
            apply List.getElem?_eq_none
            simp
            omega
          rw [this] at hm
          exact absurd hm (by simp)
      · intro hall
        have := hall e (by simp)
        rw [he] at this
        exact absurd this (by simp)
      · intro _ _
        simp [YeeCell.setMaterialIndex]
    · have he' : e.isPointInside c.getCenter = false := by simpa using he
      have hstep : materialStep (l.foldl materialStep (c, 0)) e =
          ((l.foldl materialStep (c, 0)).1, (l.length : Int) + 1) := by
        simp [materialStep, hcenter, he', h2]
      rw [hstep]
      refine ⟨by simp, hs, hx, hy, hz, ?_, ?_, ?_⟩
      · intro m e1 hm hin hlater
        rcases Nat.lt_trichotomy m l.length with hlt | heq | hgt
        · apply hlast m e1 _ hin
          · intro m' e' hmm' hm'
            apply hlater m' e' hmm'
            have hm'l : m' < l.length := by
              by_contra hcon
              rw [List.getElem?_eq_none (by omega)] at hm'
              exact absurd hm' (by simp)
            rw [List.getElem?_append_left hm'l]
            exact hm'
          · rw [List.getElem?_append_left hlt] at hm
            exact hm
        · subst heq
          simp at hm
          subst hm
          rw [he'] at hin
          exact absurd hin (by simp)
        · have : (l ++ [e])[m]? = none := by
            apply List.getElem?_eq_none
            simp
            omega
          rw [this] at hm
          exact absurd hm (by simp)
      · intro hall
        apply hnone
        intro e1 he1
        exact hall e1 (by simp [he1])
      · intro h0 _
        by_cases hl : l = []
        · subst hl
          simp [h0]
        · have := hrange h0 hl
          simp
          omega
end MaterialProofs

/-! ## Grid construction: loops that append blocks of cells -/

section GridProofs

/-- A loop over `0 .. n-1` whose pass `a` keeps what is there and appends `L` entries, the
`b`-th of them being `c a b`. -/
theorem foldl_range_blocks {β : Type} (F : List β → Nat → List β) (c : Nat → Nat → β) (L : Nat)
    (hF : ∀ (g : List β) (a : Nat), (F g a).length = g.length + L ∧
      (∀ p, p < g.length → (F g a)[p]? = g[p]?) ∧
      (∀ b, b < L → (F g a)[g.length + b]? = some (c a b)))
    (n : Nat) (g : List β) :
    ((List.range n).foldl F g).length = g.length + n * L ∧
    (∀ p, p < g.length → ((List.range n).foldl F g)[p]? = g[p]?) ∧
    (∀ a b, a < n → b < L →
      ((List.range n).foldl F g)[g.length + a * L + b]? = some (c a b)) := by
  induction n with
  | zero => simp
  | succ n ih =>
    obtain ⟨hlen, hpre, hent⟩ := ih
    obtain ⟨flen, fpre, fent⟩ := hF ((List.range n).foldl F g) n
    rw [List.range_succ, List.foldl_append, List.foldl_cons, List.foldl_nil]
    refine ⟨?_, ?_, ?_⟩
    · rw [flen, hlen, Nat.succ_mul, Nat.add_assoc]
    · intro p hp
      rw [fpre p (by omega), hpre p hp]
    · intro a b ha hb
      rcases Nat.lt_succ_iff_lt_or_eq.mp ha with hlt | heq
      · have hbound : a * L + b < n * L := by
          calc a * L + b < a * L + L := by omega
            _ = (a + 1) * L := by rw [Nat.succ_mul]
            _ ≤ n * L := Nat.mul_le_mul_right L hlt
        rw [fpre _ (by omega), hent a b hlt hb]
      · subst heq
        have := fent b hb
        rw [hlen] at this
        exact this

/-- The innermost loop of either branch (lines 261-266 and 270-276). -/
theorem gridLoopK_spec {β : Type} (c : Nat → β) (nz : Nat) (g : List β) :
    ((List.range nz).foldl (fun g k => g ++ [c k]) g).length = g.length + nz ∧
    (∀ p, p < g.length → ((List.range nz).foldl (fun g k => g ++ [c k]) g)[p]? = g[p]?) ∧
    (∀ k, k < nz →
      ((List.range nz).foldl (fun g k => g ++ [c k]) g)[g.length + k]? = some (c k)) := by
  have h := foldl_range_blocks (fun g k => g ++ [c k]) (fun k _ => c k) 1
    (by
      intro g a
      refine ⟨by simp, ?_, ?_⟩
      · intro p hp
        exact List.getElem?_append_left hp
      · intro b hb
        have : b = 0 := by omega
        subst this
        simp) nz g
  obtain ⟨h1, h2, h3⟩ := h
  refine ⟨by simpa using h1, h2, ?_⟩
  intro k hk
  simpa using h3 k 0 hk (by omega)

/-- The two inner loops of the general branch (lines 269-277). -/
theorem gridLoopJK_spec {β : Type} (c : Nat → Nat → β) (ny nz : Nat) (g : List β) :
    ((List.range ny).foldl (fun g j =>
        (List.range nz).foldl (fun g k => g ++ [c j k]) g) g).length = g.length + ny * nz ∧
    (∀ p, p < g.length →
      ((List.range ny).foldl (fun g j =>
        (List.range nz).foldl (fun g k => g ++ [c j k]) g) g)[p]? = g[p]?) ∧
    (∀ j k, j < ny → k < nz →
      ((List.range ny).foldl (fun g j =>
        (List.range nz).foldl (fun g k => g ++ [c j k]) g) g)[g.length + j * nz + k]?
        = some (c j k)) :=
  foldl_range_blocks (fun g j => (List.range nz).foldl (fun g k => g ++ [c j k]) g) c nz
    (fun g a => gridLoopK_spec (c a) nz g) ny g

/-- The three loops of the general branch (lines 268-278): `nx * ny * nz` cells are appended,
cell `(i, j, k)` at offset `i * ny * nz + j * nz + k`. -/
theorem gridLoopIJK_spec {β : Type} (c : Nat → Nat → Nat → β) (nx ny nz : Nat)
    (g : List β) :
    ((List.range nx).foldl (fun g i => (List.range ny).foldl (fun g j =>
        (List.range nz).foldl (fun g k => g ++ [c i j k]) g) g) g).length
      = g.length + nx * ny * nz ∧
    (∀ p, p < g.length →
      ((List.range nx).foldl (fun g i => (List.range ny).foldl (fun g j =>
        (List.range nz).foldl (fun g k => g ++ [c i j k]) g) g) g)[p]? = g[p]?) ∧
    (∀ i j k, i < nx → j < ny → k < nz →
      ((List.range nx).foldl (fun g i => (List.range ny).foldl (fun g j =>
        (List.range nz).foldl (fun g k => g ++ [c i j k]) g) g) g)[
          g.length + (i * ny * nz + j * nz + k)]? = some (c i j k)) := by
  have h := foldl_range_blocks
    (fun g i => (List.range ny).foldl (fun g j =>
        (List.range nz).foldl (fun g k => g ++ [c i j k]) g) g)
    (fun i b => c i (b / nz) (b % nz)) (ny * nz)
    (by
      intro g a
      obtain ⟨h1, h2, h3⟩ := gridLoopJK_spec (c a) ny nz g
      refine ⟨h1, h2, ?_⟩
      intro b hb
      have hnz : 0 < nz := by
        rcases Nat.eq_zero_or_pos nz with h0 | hpos
        · subst h0
          simp at hb
        · exact hpos
      have hj : b / nz < ny := by
        rw [Nat.div_lt_iff_lt_mul hnz]
        exact hb
      have := h3 (b / nz) (b % nz) hj (Nat.mod_lt _ hnz)
      rw [Nat.add_assoc, Nat.div_add_mod' b nz] at this
      exact this) nx g
  obtain ⟨h1, h2, h3⟩ := h
  refine ⟨by rw [h1, Nat.mul_assoc], h2, ?_⟩
  intro i j k hi hj hk
  have hb : j * nz + k < ny * nz := by
    calc j * nz + k < j * nz + nz := by omega
      _ = (j + 1) * nz := by rw [Nat.succ_mul]
      _ ≤ ny * nz := Nat.mul_le_mul_right nz hj
  have := h3 i (j * nz + k) hi hb
  have hdiv : (j * nz + k) / nz = j := by
    rw [Nat.add_comm, Nat.add_mul_div_right _ _ (by omega), Nat.div_eq_of_lt hk, Nat.zero_add]
  have hmod : (j * nz + k) % nz = k := by
    rw [Nat.add_comm, Nat.add_mul_mod_self_right, Nat.mod_eq_of_lt hk]
  simp only [hdiv, hmod] at this
  rw [← this]
  congr 1
  rw [Nat.mul_assoc]
  omega


variable {α : Type} [LinearOrderedField α]

/-- The cell-creating part appends `nx * ny * nz` cells to the grid space and puts the cell
built for `(i, j, k)` at offset `i * ny * nz + j * nz + k`. -/
theorem appendCells_spec (g : List (YeeCell α)) (box : Cube α) (dx dy dz : α) (nx ny nz : Nat) :
    (appendCells g box dx dy dz nx ny nz).length = g.length + nx * ny * nz ∧
    (∀ p, p < g.length → (appendCells g box dx dy dz nx ny nz)[p]? = g[p]?) ∧
    (∀ i j k, i < nx → j < ny → k < nz →
      (appendCells g box dx dy dz nx ny nz)[g.length + (i * ny * nz + j * nz + k)]?
        = some (builtCell box dx dy dz nx ny i j k)) := by
  by_cases h1d : nx = 1 ∧ ny = 1
  · obtain ⟨hx, hy⟩ := h1d
    subst hx
    subst hy
    obtain ⟨h1, h2, h3⟩ :=
      gridLoopK_spec (fun k => lineCell box.getXmin box.getYmin box.getZmin dz k) nz g
    simp only [appendCells, builtCell, and_self, if_true]
    refine ⟨by rw [h1]; simp, h2, ?_⟩
    intro i j k hi hj hk
    have hi0 : i = 0 := by omega
    have hj0 : j = 0 := by omega
    subst hi0
    subst hj0
    have := h3 k hk
    simpa using this
  · obtain ⟨h1, h2, h3⟩ := gridLoopIJK_spec
      (fun i j k => gridCell box.getXmin box.getYmin box.getZmin dx dy dz i j k) nx ny nz g
    simp only [appendCells, builtCell, h1d, if_false]
    exact ⟨h1, h2, h3⟩

/-- The cell list after `gridSimualtionSpace`: every cell built for `(i, j, k)` sits, with its
material resolved, at offset `i * ny * nz + j * nz + k` behind the cells held before. -/
theorem gridSimualtionSpace_spec (s : Simulation α) :
    (gridSimualtionSpace s)._grid_space.length
      = s._grid_space.length + s._nx * s._ny * s._nz ∧
    (∀ i j k, i < s._nx → j < s._ny → k < s._nz →
      (gridSimualtionSpace s)._grid_space[
          s._grid_space.length + (i * s._ny * s._nz + j * s._nz + k)]?
        = some (setCellMaterial s._objects
            (builtCell s._simulation_box s._dx s._dy s._dz s._nx s._ny i j k))) := by
  obtain ⟨h1, _, h3⟩ :=
    appendCells_spec s._grid_space s._simulation_box s._dx s._dy s._dz s._nx s._ny s._nz
  refine ⟨by simp [gridSimualtionSpace, h1], ?_⟩
  intro i j k hi hj hk
  simp [gridSimualtionSpace, List.getElem?_map, h3 i j k hi hj hk]

/-- Resolving the material leaves the shape and the grid indices of a cell as they are. -/
theorem setCellMaterial_frame {β : Type} (objects : List (Object β)) (c : YeeCell β) :
    (setCellMaterial objects c)._shape = c._shape ∧ (setCellMaterial objects c)._x = c._x ∧
    (setCellMaterial objects c)._y = c._y ∧ (setCellMaterial objects c)._z = c._z := by
  obtain ⟨_, hs, hx, hy, hz, _⟩ := foldl_materialStep_spec objects (c.setMaterialIndex 0)
  exact ⟨hs, hx, hy, hz⟩

end GridProofs

/-! ## Claims on the grid and the material index -/

section GridClaims
variable {α : Type} [LinearOrderedField α]

/-- C1: after `gridSimualtionSpace` the material index of every cell is the position of the
last object of the sequence whose `isPointInside` holds for the cell's center, and it is 0
when no object contains the center; with two objects a cell inside both gets 1 and a cell
inside object 0 only gets 0. -/
theorem C1_material_index_of_last_containing_object (s : Simulation α) (c : YeeCell α)
    (hc : c ∈ (gridSimualtionSpace s)._grid_space) :
    (∀ (m : Nat) (e : Object α), s._objects[m]? = some e →
      e.isPointInside c.getCenter = true →
      (∀ (m' : Nat) (e' : Object α), m < m' → s._objects[m']? = some e' →
        e'.isPointInside c.getCenter = false) →
      c.getMaterialIndex = m) ∧
    ((∀ e ∈ s._objects, e.isPointInside c.getCenter = false) → c.getMaterialIndex = 0) ∧
    (∀ a b : Object α, s._objects = [a, b] →
      (a.isPointInside c.getCenter = true → b.isPointInside c.getCenter = true →
        c.getMaterialIndex = 1) ∧
      (a.isPointInside c.getCenter = true → b.isPointInside c.getCenter = false →
        c.getMaterialIndex = 0)) := by
  simp only [gridSimualtionSpace, List.mem_map] at hc
  obtain ⟨c0, _, rfl⟩ := hc
  obtain ⟨_, hs, _, _, _, hlast, hnone, _⟩ :=
    foldl_materialStep_spec s._objects (c0.setMaterialIndex 0)
  have hcenter : (setCellMaterial s._objects c0).getCenter
      = (c0.setMaterialIndex 0).getCenter := by
    simp only [YeeCell.getCenter, setCellMaterial, hs]
  have hfirst : ∀ (m : Nat) (e : Object α), s._objects[m]? = some e →
      e.isPointInside (setCellMaterial s._objects c0).getCenter = true →
      (∀ (m' : Nat) (e' : Object α), m < m' → s._objects[m']? = some e' →
        e'.isPointInside (setCellMaterial s._objects c0).getCenter = false) →
      (setCellMaterial s._objects c0).getMaterialIndex = m := by
    intro m e hm hin hlater
    rw [hcenter] at hin hlater
    exact hlast m e hm hin hlater
  refine ⟨hfirst, ?_, ?_⟩
  · intro hall
    rw [hcenter] at hall
    exact hnone hall
  · intro a b hab
    constructor
    · intro _ hb
      have := hfirst 1 b (by simp [hab]) hb (by
        intro m' e' hm' hget
        rw [hab, List.getElem?_eq_none (by simp; omega)] at hget
        exact absurd hget (by simp))
      simpa using this
    · intro ha hb
      have := hfirst 0 a (by simp [hab]) ha (by
        intro m' e' hm' hget
        have h1 : m' = 1 := by
          by_contra hne
          rw [hab, List.getElem?_eq_none (by simp; omega)] at hget
          exact absurd hget (by simp)
        subst h1
        simp [hab] at hget
        subst hget
        exact hb)
      simpa using this

/-- C1 at a concrete input: one cell, two objects that both contain its center. -/
theorem C1_material_index_of_last_containing_object_witness :
    setCellMaterial [everywhere ℚ none (1, 1, 0, 0), everywhere ℚ none (2, 2, 0, 0)]
        (builtCell (⟨⟨0, 0, 0⟩, ⟨1, 1, 1⟩⟩ : Cube ℚ) 1 1 1 1 1 0 0 0)
      ∈ (gridSimualtionSpace (exampleSimulation ℚ
          [everywhere ℚ none (1, 1, 0, 0), everywhere ℚ none (2, 2, 0, 0)] [] 1 1 1))._grid_space ∧
    (setCellMaterial [everywhere ℚ none (1, 1, 0, 0), everywhere ℚ none (2, 2, 0, 0)]
        (builtCell (⟨⟨0, 0, 0⟩, ⟨1, 1, 1⟩⟩ : Cube ℚ) 1 1 1 1 1 0 0 0)).getMaterialIndex = 1 :=
  have hmem : setCellMaterial [everywhere ℚ none (1, 1, 0, 0), everywhere ℚ none (2, 2, 0, 0)]
        (builtCell (⟨⟨0, 0, 0⟩, ⟨1, 1, 1⟩⟩ : Cube ℚ) 1 1 1 1 1 0 0 0)
      ∈ (gridSimualtionSpace (exampleSimulation ℚ
          [everywhere ℚ none (1, 1, 0, 0), everywhere ℚ none (2, 2, 0, 0)] [] 1 1 1))._grid_space :=
    List.getElem?_mem ((gridSimualtionSpace_spec (exampleSimulation ℚ
      [everywhere ℚ none (1, 1, 0, 0), everywhere ℚ none (2, 2, 0, 0)] [] 1 1 1)).2 0 0 0
        (by decide) (by decide) (by decide))
  ⟨hmem, ((C1_material_index_of_last_containing_object _ _ hmem).2.2 _ _ rfl).1 rfl rfl⟩

/-- C2: outside the one-dimensional case `gridSimualtionSpace` appends exactly `nx * ny * nz`
cells in row-major order: the cell at position `i * ny * nz + j * nz + k` behind the cells held
before has grid indices `(i, j, k)`, center `(min_x + i*dx, min_y + j*dy, min_z + k*dz)` and
size `(dx, dy, dz)`. -/
theorem C2_general_branch_row_major (s : Simulation α) (h3d : ¬(s._nx = 1 ∧ s._ny = 1)) :
    (gridSimualtionSpace s)._grid_space.length
      = s._grid_space.length + s._nx * s._ny * s._nz ∧
    ∀ i j k, i < s._nx → j < s._ny → k < s._nz →
      ∃ c, (gridSimualtionSpace s)._grid_space[
          s._grid_space.length + (i * s._ny * s._nz + j * s._nz + k)]? = some c ∧
        c._x = i ∧ c._y = j ∧ c._z = k ∧
        c.getCenter.x = s._simulation_box.getXmin + (i : α) * s._dx ∧
        c.getCenter.y = s._simulation_box.getYmin + (j : α) * s._dy ∧
        c.getCenter.z = s._simulation_box.getZmin + (k : α) * s._dz ∧
        c.getSize.x = s._dx ∧ c.getSize.y = s._dy ∧ c.getSize.z = s._dz := by
  obtain ⟨hlen, hget⟩ := gridSimualtionSpace_spec s
  refine ⟨hlen, ?_⟩
  intro i j k hi hj hk
  refine ⟨_, hget i j k hi hj hk, ?_⟩
  obtain ⟨hs, hx, hy, hz⟩ := setCellMaterial_frame s._objects
    (builtCell s._simulation_box s._dx s._dy s._dz s._nx s._ny i j k)
  simp only [YeeCell.getCenter, YeeCell.getSize, hs, hx, hy, hz]
  simp [builtCell, h3d, gridCell, YeeCell.new]

/-- C2 at a concrete input: a grid of 2 x 2 x 2 cells and the cell with indices (1, 0, 1). -/
theorem C2_general_branch_row_major_witness :
    (gridSimualtionSpace (exampleSimulation ℚ [] [] 2 2 2))._grid_space.length = 0 + 2 * 2 * 2 ∧
    ∃ c, (gridSimualtionSpace (exampleSimulation ℚ [] [] 2 2 2))._grid_space[
        0 + (1 * 2 * 2 + 0 * 2 + 1)]? = some c ∧
      c._x = 1 ∧ c._y = 0 ∧ c._z = 1 ∧
      c.getCenter.x = (0 : ℚ) + ((1 : Nat) : ℚ) * 1 ∧
      c.getCenter.y = (0 : ℚ) + ((0 : Nat) : ℚ) * 1 ∧
      c.getCenter.z = (0 : ℚ) + ((1 : Nat) : ℚ) * 1 ∧
      c.getSize.x = 1 ∧ c.getSize.y = 1 ∧ c.getSize.z = 1 :=
  ⟨(C2_general_branch_row_major (exampleSimulation ℚ [] [] 2 2 2) (by decide)).1,
   (C2_general_branch_row_major (exampleSimulation ℚ [] [] 2 2 2) (by decide)).2 1 0 1
     (by decide) (by decide) (by decide)⟩

/-- C8: for `nx = ny = 1` `gridSimualtionSpace` appends exactly `nz` cells; the cell at
position `k` behind the cells held before has grid indices `(0, 0, k)`, center
`(min_x, min_y, min_z + k*dz)` and size `(0, 0, dz)`, and the centers of consecutive cells lie
exactly `dz` apart along z. -/
theorem C8_line_branch_cells (s : Simulation α) (hx : s._nx = 1) (hy : s._ny = 1) :
    (gridSimualtionSpace s)._grid_space.length = s._grid_space.length + s._nz ∧
    (∀ k, k < s._nz →
      ∃ c, (gridSimualtionSpace s)._grid_space[s._grid_space.length + k]? = some c ∧
        c._x = 0 ∧ c._y = 0 ∧ c._z = k ∧
        c.getCenter.x = s._simulation_box.getXmin ∧
        c.getCenter.y = s._simulation_box.getYmin ∧
        c.getCenter.z = s._simulation_box.getZmin + (k : α) * s._dz ∧
        c.getSize.x = 0 ∧ c.getSize.y = 0 ∧ c.getSize.z = s._dz) ∧
    (∀ k c c', k + 1 < s._nz →
      (gridSimualtionSpace s)._grid_space[s._grid_space.length + k]? = some c →
      (gridSimualtionSpace s)._grid_space[s._grid_space.length + (k + 1)]? = some c' →
      c'.getCenter.x = c.getCenter.x ∧ c'.getCenter.y = c.getCenter.y ∧
      c'.getCenter.z - c.getCenter.z = s._dz) := by
  obtain ⟨hlen, hget⟩ := gridSimualtionSpace_spec s
  have hcell : ∀ k, k < s._nz →
      (gridSimualtionSpace s)._grid_space[s._grid_space.length + k]?
        = some (setCellMaterial s._objects
            (lineCell s._simulation_box.getXmin s._simulation_box.getYmin
              s._simulation_box.getZmin s._dz k)) := by
    intro k hk
    have := hget 0 0 k (by omega) (by omega) hk
    simpa [builtCell, hx, hy] using this
  have hshape : ∀ k, (setCellMaterial s._objects
      (lineCell s._simulation_box.getXmin s._simulation_box.getYmin
        s._simulation_box.getZmin s._dz k))._shape
      = ⟨⟨s._simulation_box.getXmin, s._simulation_box.getYmin,
          s._simulation_box.getZmin + (k : α) * s._dz⟩, ⟨0, 0, s._dz⟩⟩ := by
    intro k
    rw [(setCellMaterial_frame s._objects _).1]
    rfl
  refine ⟨by rw [hlen, hx, hy]; simp, ?_, ?_⟩
  · intro k hk
    refine ⟨_, hcell k hk, ?_⟩
    obtain ⟨_, h1, h2, h3⟩ := setCellMaterial_frame s._objects
      (lineCell s._simulation_box.getXmin s._simulation_box.getYmin
        s._simulation_box.getZmin s._dz k)
    simp only [YeeCell.getCenter, YeeCell.getSize, hshape, h1, h2, h3]
    simp [lineCell, YeeCell.new]
  · intro k c c' hk hc hc'
    rw [hcell k (by omega)] at hc
    rw [hcell (k + 1) hk] at hc'
    simp only [Option.some.injEq] at hc hc'
    subst hc
    subst hc'
    simp only [YeeCell.getCenter, hshape]
    refine ⟨trivial, trivial, ?_⟩
    push_cast
    ring

/-- C8 at a concrete input: a line of three cells. -/
theorem C8_line_branch_cells_witness :
    (gridSimualtionSpace (exampleSimulation ℚ [] [] 1 1 3))._grid_space.length = 0 + 3 ∧
    (∃ c, (gridSimualtionSpace (exampleSimulation ℚ [] [] 1 1 3))._grid_space[0 + 2]? = some c ∧
      c._x = 0 ∧ c._y = 0 ∧ c._z = 2 ∧
      c.getCenter.x = 0 ∧ c.getCenter.y = 0 ∧
      c.getCenter.z = (0 : ℚ) + ((2 : Nat) : ℚ) * 1 ∧
      c.getSize.x = 0 ∧ c.getSize.y = 0 ∧ c.getSize.z = 1) :=
  ⟨(C8_line_branch_cells (exampleSimulation ℚ [] [] 1 1 3) rfl rfl).1,
   (C8_line_branch_cells (exampleSimulation ℚ [] [] 1 1 3) rfl rfl).2.1 2 (by decide)⟩

end GridClaims

/-! ## The loops of `caculateMaterialComponent` -/

section MaterialLoop

/-- A loop over `0 .. n-1` in which every pass succeeds and carries the invariant from `k` to
`k + 1` succeeds as a whole and ends in the invariant at `n`. -/
theorem foldlM_range_invariant {σ ε : Type} (f : σ → Nat → Except ε σ) (I : Nat → σ → Prop)
    (n : Nat) (s0 : σ) (h0 : I 0 s0)
    (hstep : ∀ k s, k < n → I k s → ∃ s', f s k = Except.ok s' ∧ I (k + 1) s') :
    ∃ s', (List.range n).foldlM f s0 = Except.ok s' ∧ I n s' := by
  induction n with
  | zero => exact ⟨s0, rfl, h0⟩
  | succ n ih =>
    obtain ⟨r, hr, hI⟩ := ih (fun k s hk => hstep k s (by omega))
    obtain ⟨s', hs', hI'⟩ := hstep n r (by omega) hI
    refine ⟨s', ?_, hI'⟩
    rw [List.range_succ, List.foldlM_append, hr]
    simp only [List.foldlM_cons, List.foldlM_nil]
    show (f r n >>= fun x => pure x) = Except.ok s'
    rw [hs']
    rfl

variable {α : Type} [LinearOrderedField α]

/-- The set of written triples may be replaced by an equivalent one. -/
theorem Written.congr {u : Util α} {s0 s : Simulation α} {P Q : Nat → Nat → Nat → Prop}
    (h : Written u s0 s P) (hPQ : ∀ a b c, P a b c ↔ Q a b c) : Written u s0 s Q := by
  obtain ⟨hf, hw, hn⟩ := h
  refine ⟨hf, ?_, ?_⟩
  · intro a b c hq
    exact hw a b c ((hPQ a b c).mpr hq)
  · intro a b c hq
    exact hn a b c (fun hp => hq ((hPQ a b c).mp hp))

/-- Before the first pass nothing is written. -/
theorem Written.refl (u : Util α) (s0 : Simulation α) :
    Written u s0 s0 (fun _ _ _ => False) := by
  refine ⟨⟨rfl, rfl, rfl, rfl, rfl, rfl, rfl, rfl, rfl, rfl⟩, ?_, ?_⟩
  · intro a b c h
    exact absurd h id
  · intro a b c _
    rfl

/-- Equal extents give equal answers of `writable`. -/
theorem writable_eq_of_extents {β : Type} {s s' : Simulation β}
    (h : materialExtents s' = materialExtents s) (i j k : Nat) :
    writable s' i j k = writable s i j k := by
  simp only [materialExtents, Array3D.extents, List.cons.injEq, Prod.mk.injEq, and_true] at h
  obtain ⟨⟨h1, h2, h3⟩, ⟨h4, h5, h6⟩, ⟨h7, h8, h9⟩, ⟨h10, h11, h12⟩, ⟨h13, h14, h15⟩,
    ⟨h16, h17, h18⟩, ⟨h19, h20, h21⟩, ⟨h22, h23, h24⟩, ⟨h25, h26, h27⟩, ⟨h28, h29, h30⟩,
    ⟨h31, h32, h33⟩, ⟨h34, h35, h36⟩⟩ := h
  simp only [writable, Array3D.inExtent, h1, h2, h3, h4, h5, h6, h7, h8, h9, h10, h11, h12,
    h13, h14, h15, h16, h17, h18, h19, h20, h21, h22, h23, h24, h25, h26, h27, h28, h29, h30,
    h31, h32, h33, h34, h35, h36]

/-- The twelve writes change the entries at `(i, j, k)` and nothing else. -/
theorem writeMaterial_entries {β : Type} (s : Simulation β) (i j k : Nat)
    (eps mu sigma_e sigma_m : β)
    (a b c : Nat) :
    materialEntries (writeMaterial s i j k eps mu sigma_e sigma_m) a b c =
      if a = i ∧ b = j ∧ c = k then
        [eps, sigma_e, mu, sigma_m, eps, mu, sigma_e, sigma_m, eps, mu, sigma_e, sigma_m]
      else materialEntries s a b c := by
  by_cases h : a = i ∧ b = j ∧ c = k
  · simp [materialEntries, writeMaterial, Array3D.set, h]
  · simp [materialEntries, writeMaterial, Array3D.set, h]

/-- The twelve writes keep the frame. -/
theorem writeMaterial_frame {β : Type} (s : Simulation β) (i j k : Nat)
    (eps mu sigma_e sigma_m : β) :
    SameFrame s (writeMaterial s i j k eps mu sigma_e sigma_m) :=
  ⟨rfl, rfl, rfl, rfl, rfl, rfl, rfl, rfl, rfl, rfl⟩

/-- Keeping the frame is transitive. -/
theorem SameFrame.trans {β : Type} {s1 s2 s3 : Simulation β} (h12 : SameFrame s1 s2)
    (h23 : SameFrame s2 s3) : SameFrame s1 s3 := by
  obtain ⟨a1, a2, a3, a4, a5, a6, a7, a8, a9, a10⟩ := h12
  obtain ⟨b1, b2, b3, b4, b5, b6, b7, b8, b9, b10⟩ := h23
  exact ⟨b1.trans a1, b2.trans a2, b3.trans a3, b4.trans a4, b5.trans a5, b6.trans a6,
    b7.trans a7, b8.trans a8, b9.trans a9, b10.trans a10⟩

/-- One pass of the innermost loop. -/
theorem materialCell_spec (u : Util α) (s0 s : Simulation α) (P : Nat → Nat → Nat → Prop)
    (hready : Ready s0) (h : Written u s0 s P) (i j k : Nat)
    (hi : i < s0._nx) (hj : j < s0._ny) (hk : k < s0._nz) :
    ∃ s', materialCell u i j k s = Except.ok s' ∧
      Written u s0 s' (fun a b c => P a b c ∨ (a = i ∧ b = j ∧ c = k)) := by
  obtain ⟨hf, hw, hn⟩ := h
  obtain ⟨cell, e, hcell, hne, hobj, hwr⟩ := hready i j k hi hj hk
  have hf' := hf
  obtain ⟨f1, f2, f3, f4, f5, f6, f7, f8, f9, f10⟩ := hf'
  have hwr' : writable s i j k = true := by
    rw [writable_eq_of_extents f10]
    exact hwr
  refine ⟨writeMaterial s i j k e.getElectromagneticProperties.1
      e.getElectromagneticProperties.2.1 (floorSigma u e.getElectromagneticProperties.2.2.1)
      (floorSigma u e.getElectromagneticProperties.2.2.2), ?_, ?_, ?_, ?_⟩
  · simp only [materialCell, f1, f2, f4, f5, hcell, hne, hobj, hwr', if_true, if_false]
  · exact hf.trans (writeMaterial_frame _ _ _ _ _ _ _ _)
  · intro a b c hp
    rw [writeMaterial_entries]
    by_cases habc : a = i ∧ b = j ∧ c = k
    · obtain ⟨rfl, rfl, rfl⟩ := habc
      exact ⟨cell, e, hcell, hobj, by simp [resolvedEntries]⟩
    · rw [if_neg habc]
      rcases hp with hp | hp
      · exact hw a b c hp
      · exact absurd hp habc
  · intro a b c hp
    rw [writeMaterial_entries]
    have habc : ¬(a = i ∧ b = j ∧ c = k) := fun h => hp (Or.inr h)
    rw [if_neg habc]
    exact hn a b c (fun h => hp (Or.inl h))

/-- The loop over `k` for fixed `i` and `j`. -/
theorem materialLoopK_spec (u : Util α) (s0 s : Simulation α) (P : Nat → Nat → Nat → Prop)
    (hready : Ready s0) (h : Written u s0 s P) (i j : Nat)
    (hi : i < s0._nx) (hj : j < s0._ny) :
    ∃ s', (List.range s._nz).foldlM (fun s k => materialCell u i j k s) s = Except.ok s' ∧
      Written u s0 s' (fun a b c => P a b c ∨ (a = i ∧ b = j ∧ c < s0._nz)) := by
  have hnz : s._nz = s0._nz := h.1.2.2.2.2.1
  rw [hnz]
  apply foldlM_range_invariant (fun s k => materialCell u i j k s)
    (fun n s => Written u s0 s (fun a b c => P a b c ∨ (a = i ∧ b = j ∧ c < n)))
  · apply h.congr
    intro a b c
    constructor
    · intro hp
      exact Or.inl hp
    · rintro (hp | ⟨_, _, hc⟩)
      · exact hp
      · omega
  · intro k s1 hk h1
    obtain ⟨s', hs', hw'⟩ := materialCell_spec u s0 s1 _ hready h1 i j k hi hj hk
    refine ⟨s', hs', hw'.congr ?_⟩
    intro a b c
    constructor
    · rintro ((hp | ⟨ha, hb, hc⟩) | ⟨ha, hb, hc⟩)
      · exact Or.inl hp
      · exact Or.inr ⟨ha, hb, by omega⟩
      · exact Or.inr ⟨ha, hb, by omega⟩
    · rintro (hp | ⟨ha, hb, hc⟩)
      · exact Or.inl (Or.inl hp)
      · rcases Nat.lt_succ_iff_lt_or_eq.mp hc with hlt | heq
        · exact Or.inl (Or.inr ⟨ha, hb, hlt⟩)
        · exact Or.inr ⟨ha, hb, heq⟩

/-- The loops over `j` and `k` for fixed `i`. -/
theorem materialLoopJK_spec (u : Util α) (s0 s : Simulation α) (P : Nat → Nat → Nat → Prop)
    (hready : Ready s0) (h : Written u s0 s P) (i : Nat) (hi : i < s0._nx) :
    ∃ s', (List.range s._ny).foldlM (fun s j =>
        (List.range s._nz).foldlM (fun s k => materialCell u i j k s) s) s = Except.ok s' ∧
      Written u s0 s' (fun a b c => P a b c ∨ (a = i ∧ b < s0._ny ∧ c < s0._nz)) := by
  have hny : s._ny = s0._ny := h.1.2.2.2.1
  rw [hny]
  apply foldlM_range_invariant
    (fun s j => (List.range s._nz).foldlM (fun s k => materialCell u i j k s) s)
    (fun n s => Written u s0 s (fun a b c => P a b c ∨ (a = i ∧ b < n ∧ c < s0._nz)))
  · apply h.congr
    intro a b c
    constructor
    · intro hp
      exact Or.inl hp
    · rintro (hp | ⟨_, hb, _⟩)
      · exact hp
      · omega
  · intro j s1 hj h1
    obtain ⟨s', hs', hw'⟩ := materialLoopK_spec u s0 s1 _ hready h1 i j hi hj
    refine ⟨s', hs', hw'.congr ?_⟩
    intro a b c
    constructor
    · rintro ((hp | ⟨ha, hb, hc⟩) | ⟨ha, hb, hc⟩)
      · exact Or.inl hp
      · exact Or.inr ⟨ha, by omega, hc⟩
      · exact Or.inr ⟨ha, by omega, hc⟩
    · rintro (hp | ⟨ha, hb, hc⟩)
      · exact Or.inl (Or.inl hp)
      · rcases Nat.lt_succ_iff_lt_or_eq.mp hb with hlt | heq
        · exact Or.inl (Or.inr ⟨ha, hlt, hc⟩)
        · exact Or.inr ⟨ha, heq, hc⟩

/-- The method `caculateMaterialComponent` returns when every pass finds what it reads, and
it then has written the entries at exactly the triples `i < nx`, `j < ny`, `k < nz`. -/
theorem caculateMaterialComponent_spec (u : Util α) (s0 : Simulation α) (hready : Ready s0) :
    ∃ s', caculateMaterialComponent u s0 = Except.ok s' ∧
      Written u s0 s' (fun a b c => a < s0._nx ∧ b < s0._ny ∧ c < s0._nz) := by
  unfold caculateMaterialComponent
  apply foldlM_range_invariant
    (fun s i => (List.range s._ny).foldlM (fun s j =>
        (List.range s._nz).foldlM (fun s k => materialCell u i j k s) s) s)
    (fun n s => Written u s0 s (fun a b c => a < n ∧ b < s0._ny ∧ c < s0._nz))
  · apply (Written.refl u s0).congr
    intro a b c
    constructor
    · intro hp
      exact absurd hp id
    · rintro ⟨ha, _, _⟩
      omega
  · intro i s1 hi h1
    obtain ⟨s', hs', hw'⟩ := materialLoopJK_spec u s0 s1 _ hready h1 i hi
    refine ⟨s', hs', hw'.congr ?_⟩
    intro a b c
    constructor
    · rintro (⟨ha, hb, hc⟩ | ⟨ha, hb, hc⟩)
      · exact ⟨by omega, hb, hc⟩
      · exact ⟨by omega, hb, hc⟩
    · rintro ⟨ha, hb, hc⟩
      rcases Nat.lt_succ_iff_lt_or_eq.mp ha with hlt | heq
      · exact Or.inl ⟨hlt, hb, hc⟩
      · exact Or.inr ⟨heq, hb, hc⟩

end MaterialLoop

/-! ## From the grid to the coefficients -/

section Pipeline
variable {α : Type} [LinearOrderedField α]

/-- After `gridSimualtionSpace` on a non-empty object list every material index is a position
of the object list. -/
theorem setCellMaterial_index_range {β : Type} (objects : List (Object β)) (c : YeeCell β)
    (hne : objects ≠ []) :
    0 ≤ (setCellMaterial objects c).getMaterialIndex ∧
    (setCellMaterial objects c).getMaterialIndex < objects.length := by
  obtain ⟨_, _, _, _, _, _, _, hrange⟩ :=
    foldl_materialStep_spec objects (c.setMaterialIndex 0)
  exact hrange rfl hne

/-- With a fresh grid space and at least one object, `caculateMaterialComponent` finds in every
pass what it reads. -/
theorem ready_after_allocate (u : Util α) (s : Simulation α) (hgrid : s._grid_space = [])
    (hne : s._objects ≠ []) : Ready (allocateArray u (gridSimualtionSpace s)) := by
  intro i j k hi hj hk
  have hi' : i < s._nx := hi
  have hj' : j < s._ny := hj
  have hk' : k < s._nz := hk
  have hget := (gridSimualtionSpace_spec s).2 i j k hi' hj' hk'
  rw [hgrid] at hget
  simp only [List.length_nil, Nat.zero_add] at hget
  obtain ⟨h0, hlt⟩ := setCellMaterial_index_range s._objects
    (builtCell s._simulation_box s._dx s._dy s._dz s._nx s._ny i j k) hne
  have hidx : (setCellMaterial s._objects
      (builtCell s._simulation_box s._dx s._dy s._dz s._nx s._ny i j k)).getMaterialIndex.toNat
      < s._objects.length := by omega
  refine ⟨_, s._objects[(setCellMaterial s._objects (builtCell s._simulation_box s._dx s._dy
      s._dz s._nx s._ny i j k)).getMaterialIndex.toNat], hget, by omega, ?_, ?_⟩
  · show objectAt s._objects _ = _
    simp only [objectAt, not_lt.mpr h0, if_false]
    exact List.getElem?_eq_getElem hidx
  · clear hi hj hk
    simp only [writable, allocateArray, Array3D.inExtent, Array3D.allocateDoubleArray3D,
      gridSimualtionSpace, Bool.and_eq_true, decide_eq_true_eq]
    omega

/-- With a fresh grid space and at least one object the chain `gridSimualtionSpace`,
`allocateArray`, `caculateMaterialComponent`, `initUpdateCoefficient` returns; the material
arrays hold the resolved values at the triples `i < nx`, `j < ny`, `k < nz` and the values of
`allocateArray` elsewhere. -/
theorem materialAndCoefficients_spec (u : Util α) (s : Simulation α)
    (hgrid : s._grid_space = []) (hne : s._objects ≠ []) :
    ∃ s1, materialAndCoefficients u s = Except.ok (initUpdateCoefficient s1) ∧
      Written u (allocateArray u (gridSimualtionSpace s)) s1
        (fun a b c => a < s._nx ∧ b < s._ny ∧ c < s._nz) := by
  obtain ⟨s1, h1, hw⟩ := caculateMaterialComponent_spec u _ (ready_after_allocate u s hgrid hne)
  refine ⟨s1, ?_, hw⟩
  simp only [materialAndCoefficients, h1]
  rfl

/-- The entries of the material arrays that `allocateArray` sets. -/
theorem allocateArray_entries (u : Util α) (s : Simulation α) (a b c : Nat) :
    materialEntries (allocateArray u s) a b c =
      [u.EPSILON_0, min_sigma, u.MU_0, min_sigma, u.EPSILON_0, u.MU_0, min_sigma, min_sigma,
       u.EPSILON_0, u.MU_0, min_sigma, min_sigma] := rfl

/-- The floor is positive. -/
theorem min_sigma_pos : (0 : α) < min_sigma := by
  unfold min_sigma numeric_limits_epsilon
  positivity

/-- A self-coefficient with positive material value, conductivity and time step is below 1. -/
theorem self_coefficient_lt_one (dt m sigma : α) (hdt : 0 < dt) (hm : 0 < m)
    (hsigma : 0 < sigma) :
    2 * m + dt * sigma ≠ 0 ∧ (2 * m - dt * sigma) / (2 * m + dt * sigma) < 1 := by
  have hprod : 0 < dt * sigma := mul_pos hdt hsigma
  have hden : 0 < 2 * m + dt * sigma := by positivity
  refine ⟨ne_of_gt hden, ?_⟩
  rw [div_lt_one hden]
  linarith

end Pipeline

/-! ## Claims on the coefficient arrays -/

section CoefficientClaims
variable {α : Type} [LinearOrderedField α]

/-- The Ex self-coefficient after the chain for a single object: the object's value at the
triples `i < nx`, `j < ny`, `k < nz` and the value of the allocation defaults elsewhere. -/
theorem cexe_single_object (u : Util α) (s : Simulation α) (hgrid : s._grid_space = [])
    (e : Object α) (hobj : s._objects = [e]) :
    ∃ s', materialAndCoefficients u s = Except.ok s' ∧
      s'._cexe.extents = (s._nx, s._ny + 1, s._nz + 1) ∧
      (∀ i j k, i < s._nx → j < s._ny → k < s._nz →
        s'._cexe.data i j k =
          (2 * e.getElectromagneticProperties.1
              - s._dt * floorSigma u e.getElectromagneticProperties.2.2.1) /
          (2 * e.getElectromagneticProperties.1
              + s._dt * floorSigma u e.getElectromagneticProperties.2.2.1)) ∧
      (∀ i j k, ¬(i < s._nx ∧ j < s._ny ∧ k < s._nz) →
        s'._cexe.data i j k =
          (2 * u.EPSILON_0 - s._dt * min_sigma) / (2 * u.EPSILON_0 + s._dt * min_sigma)) := by
  obtain ⟨s1, hok, hf, hw, hn⟩ :=
    materialAndCoefficients_spec u s hgrid (by rw [hobj]; simp)
  obtain ⟨_, _, _, _, _, hdt, _, _, _, hext⟩ := hf
  have hdt' : s1._dt = s._dt := hdt
  refine ⟨_, hok, ?_, ?_, ?_⟩
  · simp only [materialExtents, List.cons.injEq] at hext
    have h1 := hext.1
    show s1._eps_x.extents = _
    rw [h1]
    rfl
  · intro i j k hi hj hk
    obtain ⟨cell, e', _, he', hent⟩ := hw i j k ⟨hi, hj, hk⟩
    have hee : e' = e := by
      have h2 : objectAt [e] cell.getMaterialIndex = some e' := by
        rw [← hobj]
        exact he'
      unfold objectAt at h2
      split at h2
      · exact absurd h2 (by simp)
      · cases hidx : cell.getMaterialIndex.toNat with
        | zero =>
          rw [hidx] at h2
          simpa using h2.symm
        | succ n =>
          rw [hidx] at h2
          simp at h2
    subst hee
    simp only [materialEntries, resolvedEntries, List.cons.injEq] at hent
    obtain ⟨h1, h2, _⟩ := hent
    show (2 * s1._eps_x.data i j k - s1._dt * s1._sigma_e_x.data i j k) /
      (2 * s1._eps_x.data i j k + s1._dt * s1._sigma_e_x.data i j k) = _
    rw [h1, h2, hdt']
  · intro i j k hout
    have hent := hn i j k hout
    rw [allocateArray_entries] at hent
    simp only [materialEntries, List.cons.injEq] at hent
    obtain ⟨h1, h2, _⟩ := hent
    show (2 * s1._eps_x.data i j k - s1._dt * s1._sigma_e_x.data i j k) /
      (2 * s1._eps_x.data i j k + s1._dt * s1._sigma_e_x.data i j k) = _
    rw [h1, h2, hdt']

/-- C4: for one object with permittivity 2 and conductivity 1 that contains every point, on a
grid of one cell with `dt = 1` and `EPSILON_0 = 1`, the chain returns, `_cexe` is
`1 x 2 x 2`, its entry `(0, 0, 0)` is `(2*2 - 1*1)/(2*2 + 1*1) = 3/5`, and its entries at
`j = ny` and at `k = nz` are not: they hold the value of the allocation defaults. -/
theorem C4_cexe_border_entries_keep_defaults :
    ∃ s', materialAndCoefficients (exampleUtil ℚ (fun x => x))
        (exampleSimulation ℚ [everywhere ℚ none (2, 1, 1, 0)] [] 1 1 1) = Except.ok s' ∧
      s'._cexe.extents = (1, 2, 2) ∧
      s'._cexe.data 0 0 0 = 3 / 5 ∧
      s'._cexe.data 0 1 0 = (2 * 1 - 1 * min_sigma) / (2 * 1 + 1 * min_sigma) ∧
      s'._cexe.data 0 1 0 ≠ 3 / 5 ∧
      s'._cexe.data 0 0 1 ≠ 3 / 5 ∧
      s'._cexe.data 0 1 1 ≠ 3 / 5 := by
  obtain ⟨s', hok, hext, hin, hout⟩ := cexe_single_object (exampleUtil ℚ (fun x => x))
    (exampleSimulation ℚ [everywhere ℚ none (2, 1, 1, 0)] [] 1 1 1) rfl
    (everywhere ℚ none (2, 1, 1, 0)) rfl
  have hfloor : floorSigma (exampleUtil ℚ (fun x => x)) (1 : ℚ) = 1 := by
    simp only [floorSigma, exampleUtil, exactCompare, min_sigma, numeric_limits_epsilon]
    norm_num
  have h000 := hin 0 0 0 (by decide) (by decide) (by decide)
  have h010 := hout 0 1 0 (by decide)
  have h001 := hout 0 0 1 (by decide)
  have h011 := hout 0 1 1 (by decide)
  simp only [everywhere, exampleSimulation, hfloor] at h000
  simp only [exampleSimulation, exampleUtil, exactCompare] at h010 h001 h011
  refine ⟨s', hok, hext, ?_, h010, ?_, ?_, ?_⟩
  · rw [h000]
    norm_num
  · rw [h010]
    simp only [min_sigma, numeric_limits_epsilon]
    norm_num
  · rw [h001]
    simp only [min_sigma, numeric_limits_epsilon]
    norm_num
  · rw [h011]
    simp only [min_sigma, numeric_limits_epsilon]
    norm_num

end CoefficientClaims

/-! ## Claim on the time step -/

section TimeStep

/-- C9: over the reals and for positive pitches `init` sets
`dt = CFL / (c0 * sqrt(1/dx^2 + 1/dy^2 + 1/dz^2))`, and the `dt` computed with `CFL / 2` is
half of the `dt` computed with `CFL`. -/
theorem C9_time_step_formula_and_halving (u : Util ℝ) (hsqrt : u.sqrt = Real.sqrt)
    (s : Simulation ℝ) (_hdx : 0 < s._dx) (_hdy : 0 < s._dy) (_hdz : 0 < s._dz) :
    (initTime u s)._dt =
      s._cfl / (u.C_0 * Real.sqrt (1 / s._dx ^ 2 + 1 / s._dy ^ 2 + 1 / s._dz ^ 2)) ∧
    (initTime u { s with _cfl := s._cfl / 2 })._dt = (initTime u s)._dt / 2 := by
  constructor
  · simp only [initTime, hsqrt, sq]
  · simp only [initTime]
    ring

/-- C9 at a concrete input: unit pitches, `CFL = 1/2` and `c0 = 1`. -/
theorem C9_time_step_formula_and_halving_witness :
    (initTime (exampleUtil ℝ Real.sqrt) (exampleSimulation ℝ [] [] 1 1 1))._dt =
      (1 / 2) / (1 * Real.sqrt (1 / (1 : ℝ) ^ 2 + 1 / (1 : ℝ) ^ 2 + 1 / (1 : ℝ) ^ 2)) ∧
    (initTime (exampleUtil ℝ Real.sqrt)
        { exampleSimulation ℝ [] [] 1 1 1 with _cfl := (1 / 2 : ℝ) / 2 })._dt =
      (initTime (exampleUtil ℝ Real.sqrt) (exampleSimulation ℝ [] [] 1 1 1))._dt / 2 :=
  C9_time_step_formula_and_halving (exampleUtil ℝ Real.sqrt) rfl
    (exampleSimulation ℝ [] [] 1 1 1) (by norm_num [exampleSimulation])
    (by norm_num [exampleSimulation]) (by norm_num [exampleSimulation])

end TimeStep

/-! ## The domain size -/

section BoundsProofs
variable {α : Type} [LinearOrderedField α]

/-- Lowering `min_x` by `t` cells. -/
theorem boundaryStep_XN (dx dy dz : α) (b : Bounds α) (t : Nat) (pml : Bool) :
    boundaryStep dx dy dz b ⟨Orientation.XN, t, pml⟩ = { b with min_x := b.min_x - dx * t } := by
  simp [boundaryStep]

/-- A pass of the boundary loop commutes with lowering `min_x`. -/
theorem boundaryStep_lower_min_x (dx dy dz c : α) (b : Bounds α) (e : Boundary) :
    boundaryStep dx dy dz { b with min_x := b.min_x - c } e =
      { boundaryStep dx dy dz b e with min_x := (boundaryStep dx dy dz b e).min_x - c } := by
  obtain ⟨ori, len, pml⟩ := e
  cases ori <;> simp [boundaryStep]
  ring

/-- The boundary loop commutes with lowering `min_x`. -/
theorem foldl_boundaryStep_lower_min_x (dx dy dz c : α) (bs : List Boundary) (b : Bounds α) :
    bs.foldl (boundaryStep dx dy dz) { b with min_x := b.min_x - c } =
      { bs.foldl (boundaryStep dx dy dz) b with
        min_x := (bs.foldl (boundaryStep dx dy dz) b).min_x - c } := by
  induction bs generalizing b with
  | nil => rfl
  | cons e l ih =>
    rw [List.foldl_cons, List.foldl_cons, boundaryStep_lower_min_x, ih]

/-- An extra XN boundary of `t` cells anywhere in the boundary list lowers the final `min_x`
by `t * dx` and changes no other bound. -/
theorem foldl_boundaryStep_insert_XN (dx dy dz : α) (bs1 bs2 : List Boundary) (t : Nat)
    (pml : Bool) (b : Bounds α) :
    (bs1 ++ ⟨Orientation.XN, t, pml⟩ :: bs2).foldl (boundaryStep dx dy dz) b =
      { (bs1 ++ bs2).foldl (boundaryStep dx dy dz) b with
        min_x := ((bs1 ++ bs2).foldl (boundaryStep dx dy dz) b).min_x - dx * t } := by
  rw [List.foldl_append, List.foldl_cons, boundaryStep_XN, foldl_boundaryStep_lower_min_x,
    List.foldl_append]

end BoundsProofs

section DomainProofs
variable {α : Type} [LinearOrderedField α] [FloorRing α]

/-- Rounding a negative number gives no positive count. -/
theorem round_nonpos_of_neg (x : α) (hx : x < 0) : round x ≤ 0 := by
  unfold round
  rw [if_neg (not_le.mpr hx)]
  have : (0 : Int) ≤ ⌊-x + 1 / 2⌋ := by
    apply Int.floor_nonneg.mpr
    linarith
  omega

/-- Rounding an integer gives the integer. -/
theorem round_intCast (z : Int) : round (z : α) = z := by
  unfold round
  split
  · rw [Int.floor_eq_iff]
    constructor <;> linarith
  · have h : ⌊-(z : α) + 1 / 2⌋ = -z := by
      rw [Int.floor_eq_iff]
      push_cast
      constructor <;> linarith
    rw [h]
    omega

/-- Rounding a number below one half and not below zero gives zero. -/
theorem round_eq_zero (x : α) (h0 : 0 ≤ x) (h1 : x < 1 / 2) : round x = 0 := by
  unfold round
  rw [if_pos h0, Int.floor_eq_iff]
  push_cast
  constructor <;> linarith

/-- Adding whole cells to an extent that rounds to at least one cell adds them to the count. -/
theorem round_add_natCast (x : α) (t : Nat) (h : 1 ≤ round x) :
    round (x + (t : α)) = round x + t := by
  have hx : 0 ≤ x := by
    by_contra hneg
    have := round_nonpos_of_neg x (not_le.mp hneg)
    omega
  have hxt : 0 ≤ x + (t : α) := by
    have : (0 : α) ≤ (t : α) := Nat.cast_nonneg t
    linarith
  unfold round
  rw [if_pos hx, if_pos hxt]
  have : x + (t : α) + 1 / 2 = x + 1 / 2 + (t : α) := by ring
  rw [this, Int.floor_add_nat]

/-- What `caculateDomainSize` returns, read off the bounds it reaches after the boundary
loop: the method returns, the box spans the bounds and the counts are the clamped rounded
extents. -/
theorem caculateDomainSize_spec (u : Util α) (s : Simulation α) :
    ∃ r, caculateDomainSize u s = Except.ok r ∧
      r._nx = cellCount u ((domainBounds u s).max_x - (domainBounds u s).min_x) s._dx ∧
      r._ny = cellCount u ((domainBounds u s).max_y - (domainBounds u s).min_y) s._dy ∧
      r._nz = cellCount u ((domainBounds u s).max_z - (domainBounds u s).min_z) s._dz ∧
      r._simulation_box.getXmin = (domainBounds u s).min_x ∧
      r._simulation_box.getYmin = (domainBounds u s).min_y ∧
      r._simulation_box.getZmin = (domainBounds u s).min_z ∧
      r._simulation_box.getXmax = (domainBounds u s).max_x ∧
      r._simulation_box.getYmax = (domainBounds u s).max_y ∧
      r._simulation_box.getZmax = (domainBounds u s).max_z := by
  refine ⟨_, rfl, rfl, rfl, rfl, rfl, rfl, rfl, ?_, ?_, ?_⟩
  · simp [Cube.getXmax]
  · simp [Cube.getYmax]
  · simp [Cube.getZmax]

end DomainProofs

/-! ## Claims on the domain size -/

section DomainClaims
variable {α : Type} [LinearOrderedField α] [FloorRing α]

/-- C5: for one object whose box spans `[-3, -1]` on every axis, with exact comparisons, the
minima found before snapping are the box minima `-3`, but the maxima are not the box maxima
`-1`: they stay at the initial value `std::numeric_limits<double>::min()`, which is
positive. -/
theorem C5_negative_boxes_keep_initial_maxima :
    (objectBounds (exampleUtil ℚ (fun x => x))
      [everywhere ℚ (some ⟨⟨-3, -3, -3⟩, ⟨2, 2, 2⟩⟩) (1, 1, 0, 0)]).min_x = -3 ∧
    (objectBounds (exampleUtil ℚ (fun x => x))
      [everywhere ℚ (some ⟨⟨-3, -3, -3⟩, ⟨2, 2, 2⟩⟩) (1, 1, 0, 0)]).max_x
        = numeric_limits_min ∧
    (objectBounds (exampleUtil ℚ (fun x => x))
      [everywhere ℚ (some ⟨⟨-3, -3, -3⟩, ⟨2, 2, 2⟩⟩) (1, 1, 0, 0)]).max_x ≠ -1 ∧
    (objectBounds (exampleUtil ℚ (fun x => x))
      [everywhere ℚ (some ⟨⟨-3, -3, -3⟩, ⟨2, 2, 2⟩⟩) (1, 1, 0, 0)]).max_y ≠ -1 ∧
    (objectBounds (exampleUtil ℚ (fun x => x))
      [everywhere ℚ (some ⟨⟨-3, -3, -3⟩, ⟨2, 2, 2⟩⟩) (1, 1, 0, 0)]).max_z ≠ -1 ∧
    (0 : ℚ) < (objectBounds (exampleUtil ℚ (fun x => x))
      [everywhere ℚ (some ⟨⟨-3, -3, -3⟩, ⟨2, 2, 2⟩⟩) (1, 1, 0, 0)]).max_x := by
  simp only [objectBounds, List.foldl_cons, List.foldl_nil, boundsStep, everywhere,
    exampleUtil, exactCompare, initialBounds, Cube.getXmin, Cube.getXmax, Cube.getYmin,
    Cube.getYmax, Cube.getZmin, Cube.getZmax, numeric_limits_max, numeric_limits_min]
  norm_num

/-- C6 fails for a plate of zero thickness along x: without a boundary the zero count is
clamped to `nx = 1`, with an XN boundary of 8 cells `nx = 8`, which is 7 more, not 8. -/
theorem C6_clamped_count_grows_by_less :
    ∃ r r', caculateDomainSize (exampleUtil ℚ (fun x => x))
        (exampleSimulation ℚ [everywhere ℚ (some ⟨⟨0, 0, 0⟩, ⟨0, 1, 1⟩⟩) (1, 1, 0, 0)] []
          0 0 0) = Except.ok r ∧
      caculateDomainSize (exampleUtil ℚ (fun x => x))
        (exampleSimulation ℚ [everywhere ℚ (some ⟨⟨0, 0, 0⟩, ⟨0, 1, 1⟩⟩) (1, 1, 0, 0)]
          [⟨Orientation.XN, 8, true⟩] 0 0 0) = Except.ok r' ∧
      r._nx = 1 ∧ r'._nx = 8 ∧ r'._nx ≠ r._nx + 8 := by
  obtain ⟨r, hr, hnx, _⟩ := caculateDomainSize_spec (exampleUtil ℚ (fun x => x))
    (exampleSimulation ℚ [everywhere ℚ (some ⟨⟨0, 0, 0⟩, ⟨0, 1, 1⟩⟩) (1, 1, 0, 0)] [] 0 0 0)
  obtain ⟨r', hr', hnx', _⟩ := caculateDomainSize_spec (exampleUtil ℚ (fun x => x))
    (exampleSimulation ℚ [everywhere ℚ (some ⟨⟨0, 0, 0⟩, ⟨0, 1, 1⟩⟩) (1, 1, 0, 0)]
      [⟨Orientation.XN, 8, true⟩] 0 0 0)
  have h1 : r._nx = 1 := by
    rw [hnx]
    simp only [domainBounds, objectBounds, List.foldl_cons, List.foldl_nil, boundsStep,
      everywhere, exampleUtil, exactCompare, initialBounds, Cube.getXmin, Cube.getXmax,
      Cube.getYmin, Cube.getYmax, Cube.getZmin, Cube.getZmax, numeric_limits_max,
      numeric_limits_min, exampleSimulation, snapBounds, cellCount, toSpatialIndex, round]
    norm_num
  have h2 : r'._nx = 8 := by
    rw [hnx']
    simp only [domainBounds, objectBounds, List.foldl_cons, List.foldl_nil, boundsStep,
      everywhere, exampleUtil, exactCompare, initialBounds, Cube.getXmin, Cube.getXmax,
      Cube.getYmin, Cube.getYmax, Cube.getZmin, Cube.getZmax, numeric_limits_max,
      numeric_limits_min, exampleSimulation, snapBounds, cellCount, toSpatialIndex, round,
      boundaryStep]
    norm_num
    rfl
  refine ⟨r, r', hr, hr', h1, h2, ?_⟩
  rw [h1, h2]
  decide

/-- C6 as amended: when the domain without the extra boundary rounds to at least one cell
along x, an extra XN boundary of `t` cells lowers `min_x` of the simulation box by exactly
`t * dx` and raises `nx` by exactly `t`, while `min_y`, `min_z`, `max_x`, `ny` and `nz` stay
as they are. -/
theorem C6_XN_boundary_expands_domain (u : Util α) (s : Simulation α)
    (bs1 bs2 : List Boundary) (t : Nat) (pml : Bool) (hb : s._boundaries = bs1 ++ bs2)
    (hcount : 1 ≤ round (((domainBounds u s).max_x - (domainBounds u s).min_x) / s._dx)) :
    ∃ r r', caculateDomainSize u s = Except.ok r ∧
      caculateDomainSize u { s with _boundaries := bs1 ++ ⟨Orientation.XN, t, pml⟩ :: bs2 }
        = Except.ok r' ∧
      r'._simulation_box.getXmin = r._simulation_box.getXmin - (t : α) * s._dx ∧
      r'._nx = r._nx + t ∧
      r'._simulation_box.getYmin = r._simulation_box.getYmin ∧
      r'._simulation_box.getZmin = r._simulation_box.getZmin ∧
      r'._simulation_box.getXmax = r._simulation_box.getXmax ∧
      r'._ny = r._ny ∧ r'._nz = r._nz := by
  obtain ⟨r, hr, hnx, hny, hnz, hxmin, hymin, hzmin, hxmax, _, _⟩ :=
    caculateDomainSize_spec u s
  obtain ⟨r', hr', hnx', hny', hnz', hxmin', hymin', hzmin', hxmax', _, _⟩ :=
    caculateDomainSize_spec u { s with _boundaries := bs1 ++ ⟨Orientation.XN, t, pml⟩ :: bs2 }
  have hB : domainBounds u { s with _boundaries := bs1 ++ ⟨Orientation.XN, t, pml⟩ :: bs2 } =
      { domainBounds u s with min_x := (domainBounds u s).min_x - s._dx * t } := by
    simp only [domainBounds, hb]
    exact foldl_boundaryStep_insert_XN _ _ _ _ _ _ _ _
  rw [hB] at hnx' hny' hnz' hxmin' hymin' hzmin' hxmax'
  have hdx : s._dx ≠ 0 := by
    intro h0
    rw [h0, div_zero] at hcount
    have : round (0 : α) = 0 := by
      have := round_intCast (α := α) 0
      simpa using this
    omega
  have hext : ((domainBounds u s).max_x - ((domainBounds u s).min_x - s._dx * t)) / s._dx =
      ((domainBounds u s).max_x - (domainBounds u s).min_x) / s._dx + (t : α) := by
    field_simp
    ring
  refine ⟨r, r', hr, hr', ?_, ?_, ?_, ?_, ?_, ?_, ?_⟩
  · rw [hxmin', hxmin]
    ring
  · rw [hnx', hnx]
    show cellCount u ((domainBounds u s).max_x - ((domainBounds u s).min_x - s._dx * t))
        s._dx
      = cellCount u ((domainBounds u s).max_x - (domainBounds u s).min_x) s._dx + t
    simp only [cellCount, toSpatialIndex, hext, round_add_natCast _ t hcount]
    split_ifs <;> omega
  · rw [hymin', hymin]
  · rw [hzmin', hzmin]
  · rw [hxmax', hxmax]
  · rw [hny', hny]
  · rw [hnz', hnz]

/-- C6 at a concrete input: a unit cube, unit pitches and an XN boundary of 8 cells. -/
theorem C6_XN_boundary_expands_domain_witness :
    ∃ r r', caculateDomainSize (exampleUtil ℚ (fun x => x))
        (exampleSimulation ℚ [everywhere ℚ (some ⟨⟨0, 0, 0⟩, ⟨1, 1, 1⟩⟩) (1, 1, 0, 0)] []
          0 0 0) = Except.ok r ∧
      caculateDomainSize (exampleUtil ℚ (fun x => x))
        { exampleSimulation ℚ [everywhere ℚ (some ⟨⟨0, 0, 0⟩, ⟨1, 1, 1⟩⟩) (1, 1, 0, 0)] []
            0 0 0 with _boundaries := [] ++ ⟨Orientation.XN, 8, true⟩ :: [] }
        = Except.ok r' ∧
      r'._simulation_box.getXmin = r._simulation_box.getXmin - ((8 : Nat) : ℚ) * 1 ∧
      r'._nx = r._nx + 8 ∧
      r'._simulation_box.getYmin = r._simulation_box.getYmin ∧
      r'._simulation_box.getZmin = r._simulation_box.getZmin ∧
      r'._simulation_box.getXmax = r._simulation_box.getXmax ∧
      r'._ny = r._ny ∧ r'._nz = r._nz :=
  C6_XN_boundary_expands_domain (exampleUtil ℚ (fun x => x))
    (exampleSimulation ℚ [everywhere ℚ (some ⟨⟨0, 0, 0⟩, ⟨1, 1, 1⟩⟩) (1, 1, 0, 0)] [] 0 0 0)
    [] [] 8 true rfl (by
      simp only [domainBounds, objectBounds, List.foldl_cons, List.foldl_nil, boundsStep,
        everywhere, exampleUtil, exactCompare, initialBounds, Cube.getXmin, Cube.getXmax,
        Cube.getYmin, Cube.getYmax, Cube.getZmin, Cube.getZmax, numeric_limits_max,
        numeric_limits_min, exampleSimulation, snapBounds, round]
      norm_num)

end DomainClaims

/-! ## Properties that every pass of `caculateMaterialComponent` keeps -/

section MaterialInvariants

/-- A loop whose passes keep a property of the state, and never stop with an error of a given
kind, keeps the property when it returns and never stops with such an error. -/
theorem foldlM_keeps {σ ε β : Type} (f : σ → β → Except ε σ) (J : σ → Prop) (bad : ε → Prop)
    (hstep : ∀ s b, J s →
      (∀ s', f s b = Except.ok s' → J s') ∧ (∀ e, f s b = Except.error e → ¬ bad e))
    (l : List β) (s0 : σ) (h0 : J s0) :
    (∀ s', l.foldlM f s0 = Except.ok s' → J s') ∧
    (∀ e, l.foldlM f s0 = Except.error e → ¬ bad e) := by
  induction l generalizing s0 with
  | nil =>
    constructor
    · intro s' hs'
      have : s0 = s' := by
        simpa [List.foldlM_nil, pure, Except.pure] using hs'
      rw [← this]
      exact h0
    · intro e he
      simp [List.foldlM_nil, pure, Except.pure] at he
  | cons b l ih =>
    obtain ⟨hok, herr⟩ := hstep s0 b h0
    rw [List.foldlM_cons]
    cases hf : f s0 b with
    | error e =>
      constructor
      · intro s' hs'
        simp [bind, Except.bind] at hs'
      · intro e' he'
        have : e = e' := by
          simpa [bind, Except.bind] using he'
        rw [← this]
        exact herr e hf
    | ok s1 =>
      exact ih s1 (hok s1 hf)

variable {α : Type} [LinearOrderedField α]

/-- A pass that returns has found its cell and its object and has made the twelve writes. -/
theorem materialCell_ok (u : Util α) (i j k : Nat) (s s' : Simulation α)
    (h : materialCell u i j k s = Except.ok s') :
    ∃ c e, s._grid_space[i * s._ny * s._nz + j * s._nz + k]? = some c ∧
      objectAt s._objects c.getMaterialIndex = some e ∧
      s' = writeMaterial s i j k e.getElectromagneticProperties.1
        e.getElectromagneticProperties.2.1
        (floorSigma u e.getElectromagneticProperties.2.2.1)
        (floorSigma u e.getElectromagneticProperties.2.2.2) := by
  unfold materialCell at h
  split at h
  · exact absurd h (by simp)
  · rename_i c hc
    simp only at h
    split at h
    · exact absurd h (by simp)
    · split at h
      · exact absurd h (by simp)
      · rename_i e he
        split at h
        · exact ⟨c, e, hc, he, (Except.ok.inj h).symm⟩
        · exact absurd h (by simp)

/-- A pass that stops on the unset material index has read a cell whose index is -1. -/
theorem materialCell_unset (u : Util α) (i j k : Nat) (s : Simulation α)
    (h : materialCell u i j k s = Except.error InitError.materialIndexUnset) :
    ∃ c, s._grid_space[i * s._ny * s._nz + j * s._nz + k]? = some c ∧
      c.getMaterialIndex = -1 := by
  unfold materialCell at h
  split at h
  · exact absurd h (by simp)
  · rename_i c hc
    simp only at h
    split at h
    · rename_i hidx
      exact ⟨c, hc, hidx⟩
    · split at h
      · exact absurd h (by simp)
      · split at h
        · exact absurd h (by simp)
        · exact absurd h (by simp)

/-- What every pass keeps, the whole of `caculateMaterialComponent` keeps. -/
theorem caculateMaterialComponent_keeps (u : Util α) (J : Simulation α → Prop)
    (bad : InitError → Prop)
    (hstep : ∀ i j k s, J s →
      (∀ s', materialCell u i j k s = Except.ok s' → J s') ∧
      (∀ e, materialCell u i j k s = Except.error e → ¬ bad e))
    (s0 : Simulation α) (h0 : J s0) :
    (∀ s', caculateMaterialComponent u s0 = Except.ok s' → J s') ∧
    (∀ e, caculateMaterialComponent u s0 = Except.error e → ¬ bad e) := by
  unfold caculateMaterialComponent
  apply foldlM_keeps _ J bad _ _ s0 h0
  intro s1 i h1
  apply foldlM_keeps _ J bad _ _ s1 h1
  intro s2 j h2
  apply foldlM_keeps _ J bad _ _ s2 h2
  intro s3 k h3
  exact hstep i j k s3 h3

/-- The floor substitution gives a value that is not below the floor, when the comparison
accepts whatever the exact `<=` accepts. -/
theorem floorSigma_ge (u : Util α)
    (hle : ∀ a b : α, a ≤ b → u.isLessOrEqual a b u.TOLERABLE_EPSILON = true) (sigma : α) :
    min_sigma ≤ floorSigma u sigma := by
  unfold floorSigma
  split
  · exact le_refl _
  · rename_i hacc
    by_contra hlt
    exact hacc (hle sigma min_sigma (le_of_lt (not_le.mp hlt)))

end MaterialInvariants

/-! ## Claims on the resolved material arrays -/

section MaterialClaims
variable {α : Type} [LinearOrderedField α]

/-- C14: after `allocateArray` and `caculateMaterialComponent` every entry of the six
conductivity arrays, written from a cell or left at its default, is at least the floor
`epsilon / 1000`, which is positive, whatever conductivities the objects have; and for a fresh
grid space and a non-empty object list the two methods return. -/
theorem C14_conductivities_not_below_floor (u : Util α)
    (hle : ∀ a b : α, a ≤ b → u.isLessOrEqual a b u.TOLERABLE_EPSILON = true)
    (s : Simulation α) :
    (0 : α) < min_sigma ∧
    (∀ s', caculateMaterialComponent u (allocateArray u (gridSimualtionSpace s))
        = Except.ok s' →
      ∀ i j k, min_sigma ≤ s'._sigma_e_x.data i j k ∧ min_sigma ≤ s'._sigma_e_y.data i j k ∧
        min_sigma ≤ s'._sigma_e_z.data i j k ∧ min_sigma ≤ s'._sigma_m_x.data i j k ∧
        min_sigma ≤ s'._sigma_m_y.data i j k ∧ min_sigma ≤ s'._sigma_m_z.data i j k) ∧
    (s._grid_space = [] → s._objects ≠ [] →
      ∃ s', caculateMaterialComponent u (allocateArray u (gridSimualtionSpace s))
        = Except.ok s') := by
  refine ⟨min_sigma_pos, ?_, ?_⟩
  · refine (caculateMaterialComponent_keeps u
      (fun s1 => ∀ i j k, min_sigma ≤ s1._sigma_e_x.data i j k ∧
        min_sigma ≤ s1._sigma_e_y.data i j k ∧ min_sigma ≤ s1._sigma_e_z.data i j k ∧
        min_sigma ≤ s1._sigma_m_x.data i j k ∧ min_sigma ≤ s1._sigma_m_y.data i j k ∧
        min_sigma ≤ s1._sigma_m_z.data i j k)
      (fun _ => False) ?_ _ ?_).1
    · intro i j k s1 h1
      refine ⟨?_, fun _ _ h => h⟩
      intro s' hs'
      obtain ⟨c, e, _, _, rfl⟩ := materialCell_ok u i j k s1 s' hs'
      intro a b c'
      obtain ⟨g1, g2, g3, g4, g5, g6⟩ := h1 a b c'
      have fe := floorSigma_ge u hle e.getElectromagneticProperties.2.2.1
      have fm := floorSigma_ge u hle e.getElectromagneticProperties.2.2.2
      simp only [writeMaterial, Array3D.set]
      by_cases habc : a = i ∧ b = j ∧ c' = k
      · simp only [if_pos habc]
        exact ⟨fe, fe, fe, fm, fm, fm⟩
      · simp only [if_neg habc]
        exact ⟨g1, g2, g3, g4, g5, g6⟩
    · intro i j k
      exact ⟨le_refl _, le_refl _, le_refl _, le_refl _, le_refl _, le_refl _⟩
  · intro hgrid hne
    obtain ⟨s', hs', _⟩ :=
      caculateMaterialComponent_spec u _ (ready_after_allocate u s hgrid hne)
    exact ⟨s', hs'⟩

/-- C14 at a concrete input: one cell and one object with conductivities -1 and 0. -/
theorem C14_conductivities_not_below_floor_witness :
    ∃ s', caculateMaterialComponent (exampleUtil ℚ (fun x => x))
        (allocateArray (exampleUtil ℚ (fun x => x)) (gridSimualtionSpace
          (exampleSimulation ℚ [everywhere ℚ none (2, 3, -1, 0)] [] 1 1 1))) = Except.ok s' ∧
      (0 : ℚ) < min_sigma ∧
      min_sigma ≤ s'._sigma_e_x.data 0 0 0 ∧ min_sigma ≤ s'._sigma_m_x.data 0 0 0 ∧
      min_sigma ≤ s'._sigma_e_x.data 0 1 1 := by
  have h := C14_conductivities_not_below_floor (exampleUtil ℚ (fun x => x))
    (fun a b hab => by simp [exampleUtil, exactCompare, hab])
    (exampleSimulation ℚ [everywhere ℚ none (2, 3, -1, 0)] [] 1 1 1)
  obtain ⟨s', hs'⟩ := h.2.2 rfl (by simp [exampleSimulation])
  exact ⟨s', hs', h.1, (h.2.1 s' hs' 0 0 0).1, (h.2.1 s' hs' 0 0 0).2.2.2.1,
    (h.2.1 s' hs' 0 1 1).1⟩

/-- C18: for a non-empty object list every cell that `gridSimualtionSpace` leaves has a
material index `m` with `0 <= m < number of objects`, never -1, and `_objects[m]` exists;
`caculateMaterialComponent` then never takes the exit for the index -1, and on a fresh grid
space it returns. -/
theorem C18_material_index_in_range (s : Simulation α) (hne : s._objects ≠ []) :
    (∀ c ∈ (gridSimualtionSpace s)._grid_space,
      0 ≤ c.getMaterialIndex ∧ c.getMaterialIndex < s._objects.length ∧
      c.getMaterialIndex ≠ -1 ∧ ∃ e, objectAt s._objects c.getMaterialIndex = some e) ∧
    (∀ u : Util α, caculateMaterialComponent u (allocateArray u (gridSimualtionSpace s))
      ≠ Except.error InitError.materialIndexUnset) ∧
    (s._grid_space = [] → ∀ u : Util α,
      ∃ s', caculateMaterialComponent u (allocateArray u (gridSimualtionSpace s))
        = Except.ok s') := by
  have hcells : ∀ c ∈ (gridSimualtionSpace s)._grid_space,
      0 ≤ c.getMaterialIndex ∧ c.getMaterialIndex < s._objects.length := by
    intro c hc
    simp only [gridSimualtionSpace, List.mem_map] at hc
    obtain ⟨c0, _, rfl⟩ := hc
    exact setCellMaterial_index_range s._objects c0 hne
  refine ⟨?_, ?_, ?_⟩
  · intro c hc
    obtain ⟨h0, hlt⟩ := hcells c hc
    have hnat : c.getMaterialIndex.toNat < s._objects.length := by omega
    refine ⟨h0, hlt, by omega, s._objects[c.getMaterialIndex.toNat], ?_⟩
    simp only [objectAt, not_lt.mpr h0, if_false]
    exact List.getElem?_eq_getElem (by omega)
  · intro u hbad
    have hkeep := (caculateMaterialComponent_keeps u
      (fun s1 => ∀ c ∈ s1._grid_space, c.getMaterialIndex ≠ -1)
      (fun e => e = InitError.materialIndexUnset) ?_
      (allocateArray u (gridSimualtionSpace s)) ?_).2 _ hbad
    · exact hkeep rfl
    · intro i j k s1 h1
      constructor
      · intro s' hs'
        obtain ⟨_, _, _, _, rfl⟩ := materialCell_ok u i j k s1 s' hs'
        exact h1
      · intro e he hbad'
        rw [hbad'] at he
        obtain ⟨c, hc, hidx⟩ := materialCell_unset u i j k s1 he
        exact h1 c (List.getElem?_mem hc) hidx
    · intro c hc
      have := (hcells c hc).1
      omega
  · intro hgrid u
    obtain ⟨s', hs', _⟩ :=
      caculateMaterialComponent_spec u _ (ready_after_allocate u s hgrid hne)
    exact ⟨s', hs'⟩

/-- C18 at a concrete input: one cell and two objects that contain its center. -/
theorem C18_material_index_in_range_witness :
    (∀ c ∈ (gridSimualtionSpace (exampleSimulation ℚ
        [everywhere ℚ none (1, 1, 0, 0), everywhere ℚ none (2, 2, 0, 0)] [] 1 1 1))._grid_space,
      0 ≤ c.getMaterialIndex ∧ c.getMaterialIndex < (2 : Nat) ∧ c.getMaterialIndex ≠ -1) ∧
    ∃ s', caculateMaterialComponent (exampleUtil ℚ (fun x => x))
        (allocateArray (exampleUtil ℚ (fun x => x)) (gridSimualtionSpace (exampleSimulation ℚ
          [everywhere ℚ none (1, 1, 0, 0), everywhere ℚ none (2, 2, 0, 0)] [] 1 1 1)))
        = Except.ok s' := by
  have h := C18_material_index_in_range (exampleSimulation ℚ
    [everywhere ℚ none (1, 1, 0, 0), everywhere ℚ none (2, 2, 0, 0)] [] 1 1 1)
    (by simp [exampleSimulation])
  refine ⟨?_, h.2.2 rfl _⟩
  intro c hc
  obtain ⟨h0, hlt, hne, _⟩ := h.1 c hc
  exact ⟨h0, hlt, hne⟩

/-- The point at which the cell built for `(i, j, k)` is tested against the objects. -/
theorem builtCell_center (box : Cube α) (dx dy dz : α) (nx ny i j k : Nat)
    (hi : i < nx) (hj : j < ny) :
    (builtCell box dx dy dz nx ny i j k).getCenter =
      ⟨box.getXmin + (i : α) * dx, box.getYmin + (j : α) * dy, box.getZmin + (k : α) * dz⟩ := by
  by_cases h1d : nx = 1 ∧ ny = 1
  · obtain ⟨hx, hy⟩ := h1d
    have hi0 : i = 0 := by omega
    have hj0 : j = 0 := by omega
    subst hx hy hi0 hj0
    simp [builtCell, lineCell, YeeCell.new, YeeCell.getCenter]
  · simp [builtCell, h1d, gridCell, YeeCell.new, YeeCell.getCenter]

/-- C17: for a non-empty object list and a fresh grid space `gridSimualtionSpace`,
`allocateArray` and `caculateMaterialComponent` return; every lookup
`_grid_space[i*ny*nz + j*nz + k]` with `i < nx`, `j < ny`, `k < nz` is in range, and
`eps_x`, `eps_y`, `eps_z` at `(i, j, k)` are the permittivity, `mu_x`, `mu_y`, `mu_z` the
permeability, of the last object of the list that contains the point
`(min_x + i*dx, min_y + j*dy, min_z + k*dz)`, or of object 0 when no object contains it. -/
theorem C17_material_arrays_hold_resolved_object (u : Util α) (s : Simulation α)
    (hgrid : s._grid_space = []) (hne : s._objects ≠ []) :
    ∃ s', caculateMaterialComponent u (allocateArray u (gridSimualtionSpace s))
        = Except.ok s' ∧
      ∀ i j k, i < s._nx → j < s._ny → k < s._nz →
        i * s._ny * s._nz + j * s._nz + k < (gridSimualtionSpace s)._grid_space.length ∧
        (∀ (m : Nat) (e : Object α), s._objects[m]? = some e →
          e.isPointInside ⟨s._simulation_box.getXmin + (i : α) * s._dx,
            s._simulation_box.getYmin + (j : α) * s._dy,
            s._simulation_box.getZmin + (k : α) * s._dz⟩ = true →
          (∀ (m' : Nat) (e' : Object α), m < m' → s._objects[m']? = some e' →
            e'.isPointInside ⟨s._simulation_box.getXmin + (i : α) * s._dx,
              s._simulation_box.getYmin + (j : α) * s._dy,
              s._simulation_box.getZmin + (k : α) * s._dz⟩ = false) →
          s'._eps_x.data i j k = e.getElectromagneticProperties.1 ∧
          s'._eps_y.data i j k = e.getElectromagneticProperties.1 ∧
          s'._eps_z.data i j k = e.getElectromagneticProperties.1 ∧
          s'._mu_x.data i j k = e.getElectromagneticProperties.2.1 ∧
          s'._mu_y.data i j k = e.getElectromagneticProperties.2.1 ∧
          s'._mu_z.data i j k = e.getElectromagneticProperties.2.1) ∧
        ((∀ e ∈ s._objects, e.isPointInside ⟨s._simulation_box.getXmin + (i : α) * s._dx,
            s._simulation_box.getYmin + (j : α) * s._dy,
            s._simulation_box.getZmin + (k : α) * s._dz⟩ = false) →
          ∀ e0, s._objects[0]? = some e0 →
            s'._eps_x.data i j k = e0.getElectromagneticProperties.1 ∧
            s'._eps_y.data i j k = e0.getElectromagneticProperties.1 ∧
            s'._eps_z.data i j k = e0.getElectromagneticProperties.1 ∧
            s'._mu_x.data i j k = e0.getElectromagneticProperties.2.1 ∧
            s'._mu_y.data i j k = e0.getElectromagneticProperties.2.1 ∧
            s'._mu_z.data i j k = e0.getElectromagneticProperties.2.1) := by
  obtain ⟨s', hs', _, hw, _⟩ :=
    caculateMaterialComponent_spec u _ (ready_after_allocate u s hgrid hne)
  refine ⟨s', hs', ?_⟩
  intro i j k hi hj hk
  obtain ⟨hlen, hget⟩ := gridSimualtionSpace_spec s
  have hcellget := hget i j k hi hj hk
  rw [hgrid] at hcellget hlen
  simp only [List.length_nil, Nat.zero_add] at hcellget hlen
  obtain ⟨cell, e', hcell, he', hent⟩ := hw i j k ⟨hi, hj, hk⟩
  have hcell' : (gridSimualtionSpace s)._grid_space[i * s._ny * s._nz + j * s._nz + k]?
      = some cell := hcell
  rw [hcellget] at hcell'
  have hc := Option.some.inj hcell'
  have he'' : objectAt s._objects cell.getMaterialIndex = some e' := he'
  simp only [materialEntries, resolvedEntries, List.cons.injEq, and_true] at hent
  obtain ⟨h1, _, h3, _, h5, h6, _, _, h9, h10, _, _⟩ := hent
  obtain ⟨_, hs, _, _, _, hlast, hnone, _⟩ := foldl_materialStep_spec s._objects
    ((builtCell s._simulation_box s._dx s._dy s._dz s._nx s._ny i j k).setMaterialIndex 0)
  have hcenter : ((builtCell s._simulation_box s._dx s._dy s._dz s._nx s._ny i j
      k).setMaterialIndex 0).getCenter =
      ⟨s._simulation_box.getXmin + (i : α) * s._dx, s._simulation_box.getYmin + (j : α) * s._dy,
        s._simulation_box.getZmin + (k : α) * s._dz⟩ :=
    builtCell_center s._simulation_box s._dx s._dy s._dz s._nx s._ny i j k hi hj
  rw [hcenter] at hlast hnone
  have hidx : cell.getMaterialIndex = (s._objects.foldl materialStep
      ((builtCell s._simulation_box s._dx s._dy s._dz s._nx s._ny i j k).setMaterialIndex 0,
        0)).1._material_index := by
    rw [← hc]
    rfl
  have hobj : ∀ (m : Nat) (e : Object α), s._objects[m]? = some e →
      cell.getMaterialIndex = (m : Int) → e' = e := by
    intro m e hm hcm
    rw [hcm] at he''
    simp only [objectAt, Int.toNat_ofNat] at he''
    rw [if_neg (by omega), hm] at he''
    exact (Option.some.inj he'').symm
  refine ⟨?_, ?_, ?_⟩
  · have := (List.getElem?_eq_some.mp hcellget).1
    exact this
  · intro m e hm hin hlater
    have hee := hobj m e hm (by rw [hidx]; exact hlast m e hm hin hlater)
    subst hee
    exact ⟨h1, h5, h9, h3, h6, h10⟩
  · intro hall e0 he0
    have hee := hobj 0 e0 he0 (by rw [hidx]; exact hnone hall)
    subst hee
    exact ⟨h1, h5, h9, h3, h6, h10⟩

/-- C17 at a concrete input: one cell and two objects that contain its center; the arrays
hold the properties of the second. -/
theorem C17_material_arrays_hold_resolved_object_witness :
    ∃ s', caculateMaterialComponent (exampleUtil ℚ (fun x => x))
        (allocateArray (exampleUtil ℚ (fun x => x)) (gridSimualtionSpace (exampleSimulation ℚ
          [everywhere ℚ none (2, 3, 0, 0), everywhere ℚ none (5, 7, 0, 0)] [] 1 1 1)))
        = Except.ok s' ∧
      s'._eps_x.data 0 0 0 = 5 ∧ s'._eps_y.data 0 0 0 = 5 ∧ s'._eps_z.data 0 0 0 = 5 ∧
      s'._mu_x.data 0 0 0 = 7 ∧ s'._mu_y.data 0 0 0 = 7 ∧ s'._mu_z.data 0 0 0 = 7 := by
  obtain ⟨s', hs', h⟩ := C17_material_arrays_hold_resolved_object (exampleUtil ℚ (fun x => x))
    (exampleSimulation ℚ [everywhere ℚ none (2, 3, 0, 0), everywhere ℚ none (5, 7, 0, 0)] []
      1 1 1) rfl (by simp [exampleSimulation])
  obtain ⟨_, hlast, _⟩ := h 0 0 0 (by decide) (by decide) (by decide)
  refine ⟨s', hs', ?_⟩
  apply hlast 1 (everywhere ℚ none (5, 7, 0, 0)) rfl rfl
  intro m' e' hm' hget
  simp only [exampleSimulation] at hget
  rw [List.getElem?_eq_none (by simp; omega)] at hget
  exact absurd hget (by simp)

end MaterialClaims

/-! ## Claims on the cross-coupling coefficients, the extents and the accessors -/

section CrossClaims
variable {α : Type} [LinearOrderedField α]

/-- C11: at every index each cross-coupling coefficient that `initUpdateCoefficient` computes
is plus or minus `(2*dt/spacing) / (2*m + dt*sigma)` with the material arrays of its own
component: Ex uses `+dy` for Hz and `-dz` for Hy, Ey `+dz` for Hx and `-dx` for Hz, Ez `+dx` for Hy and
`-dy` for Hx, Hx `+dz` for Ey and `-dy` for Ez, Hy `+dx` for Ez and `-dz` for Ex, Hz `+dy` for
Ex and `-dx` for Ey. -/
theorem C11_cross_coupling_coefficients (s : Simulation α) (i j k : Nat) :
    ((initUpdateCoefficient s)._cexhz.data i j k =
        (2 * s._dt / s._dy) / (2 * s._eps_x.data i j k + s._dt * s._sigma_e_x.data i j k) ∧
     (initUpdateCoefficient s)._cexhy.data i j k =
        -(2 * s._dt / s._dz) / (2 * s._eps_x.data i j k + s._dt * s._sigma_e_x.data i j k)) ∧
    ((initUpdateCoefficient s)._ceyhx.data i j k =
        (2 * s._dt / s._dz) / (2 * s._eps_y.data i j k + s._dt * s._sigma_e_y.data i j k) ∧
     (initUpdateCoefficient s)._ceyhz.data i j k =
        -(2 * s._dt / s._dx) / (2 * s._eps_y.data i j k + s._dt * s._sigma_e_y.data i j k)) ∧
    ((initUpdateCoefficient s)._cezhy.data i j k =
        (2 * s._dt / s._dx) / (2 * s._eps_z.data i j k + s._dt * s._sigma_e_z.data i j k) ∧
     (initUpdateCoefficient s)._cezhx.data i j k =
        -(2 * s._dt / s._dy) / (2 * s._eps_z.data i j k + s._dt * s._sigma_e_z.data i j k)) ∧
    ((initUpdateCoefficient s)._chxey.data i j k =
        (2 * s._dt / s._dz) / (2 * s._mu_x.data i j k + s._dt * s._sigma_m_x.data i j k) ∧
     (initUpdateCoefficient s)._chxez.data i j k =
        -(2 * s._dt / s._dy) / (2 * s._mu_x.data i j k + s._dt * s._sigma_m_x.data i j k)) ∧
    ((initUpdateCoefficient s)._chyez.data i j k =
        (2 * s._dt / s._dx) / (2 * s._mu_y.data i j k + s._dt * s._sigma_m_y.data i j k) ∧
     (initUpdateCoefficient s)._chyex.data i j k =
        -(2 * s._dt / s._dz) / (2 * s._mu_y.data i j k + s._dt * s._sigma_m_y.data i j k)) ∧
    ((initUpdateCoefficient s)._chzex.data i j k =
        (2 * s._dt / s._dy) / (2 * s._mu_z.data i j k + s._dt * s._sigma_m_z.data i j k) ∧
     (initUpdateCoefficient s)._chzey.data i j k =
        -(2 * s._dt / s._dx) / (2 * s._mu_z.data i j k + s._dt * s._sigma_m_z.data i j k)) :=
  ⟨⟨rfl, rfl⟩, ⟨rfl, rfl⟩, ⟨rfl, rfl⟩, ⟨rfl, rfl⟩, ⟨rfl, rfl⟩, ⟨rfl, rfl⟩⟩

end CrossClaims

section AccessorClaims

/-- C20: `getEndIndexX` and `getEndIndexZ` return the start plus the extent of their axis, but
`getEndIndexY` returns `start_x + nx`; for the index `(0, 1, 0, 1, 2, 1)` that is 1, not
`start_y + ny = 3`. -/
theorem C20_getEndIndexY_uses_the_x_axis :
    (∀ b : TFSF.TFSFBoundaryIndex,
      TFSF.getEndIndexX b = b.start_x + b.nx ∧ TFSF.getEndIndexZ b = b.start_z + b.nz ∧
      TFSF.getEndIndexY b = b.start_x + b.nx) ∧
    TFSF.getEndIndexY ⟨0, 1, 0, 1, 2, 1⟩ = 1 ∧
    TFSF.getEndIndexY ⟨0, 1, 0, 1, 2, 1⟩ ≠ 1 + 2 :=
  ⟨fun _ => ⟨rfl, rfl, rfl⟩, rfl, by decide⟩

end AccessorClaims

/-! ## Claim on the flattening of the one-dimensional branch -/

section LineFlattening
variable {α : Type} [LinearOrderedField α]

/-- On a fresh grid space with `nx = ny = 1` the cell at sequence position `p` has the grid
indices `(0, 0, p)`, and there are `nz` cells. -/
theorem lineBranch_positions (s : Simulation α) (hx : s._nx = 1) (hy : s._ny = 1)
    (hgrid : s._grid_space = []) :
    (∀ k, k < s._nz → ∃ c, (gridSimualtionSpace s)._grid_space[k]? = some c ∧
      c._x = 0 ∧ c._y = 0 ∧ c._z = k) ∧
    (∀ p c, (gridSimualtionSpace s)._grid_space[p]? = some c →
      p < s._nz ∧ c._x = 0 ∧ c._y = 0 ∧ c._z = p) := by
  obtain ⟨hlen, hget⟩ := gridSimualtionSpace_spec s
  rw [hgrid] at hlen hget
  simp only [List.length_nil, Nat.zero_add, hx, hy, Nat.one_mul] at hlen
  have hcell : ∀ k, k < s._nz → (gridSimualtionSpace s)._grid_space[k]?
      = some (setCellMaterial s._objects (lineCell s._simulation_box.getXmin
          s._simulation_box.getYmin s._simulation_box.getZmin s._dz k)) := by
    intro k hk
    have := hget 0 0 k (by omega) (by omega) hk
    simpa [builtCell, hx, hy] using this
  have hidx : ∀ k, (setCellMaterial s._objects (lineCell s._simulation_box.getXmin
      s._simulation_box.getYmin s._simulation_box.getZmin s._dz k))._x = 0 ∧
      (setCellMaterial s._objects (lineCell s._simulation_box.getXmin
      s._simulation_box.getYmin s._simulation_box.getZmin s._dz k))._y = 0 ∧
      (setCellMaterial s._objects (lineCell s._simulation_box.getXmin
      s._simulation_box.getYmin s._simulation_box.getZmin s._dz k))._z = k := by
    intro k
    obtain ⟨_, h1, h2, h3⟩ := setCellMaterial_frame s._objects (lineCell
      s._simulation_box.getXmin s._simulation_box.getYmin s._simulation_box.getZmin s._dz k)
    rw [h1, h2, h3]
    exact ⟨rfl, rfl, rfl⟩
  constructor
  · intro k hk
    exact ⟨_, hcell k hk, hidx k⟩
  · intro p c hp
    have hplt : p < s._nz := by
      rw [← hlen]
      by_contra hge
      rw [List.getElem?_eq_none (by omega)] at hp
      exact absurd hp (by simp)
    rw [hcell p hplt] at hp
    have hc := Option.some.inj hp
    subst hc
    exact ⟨hplt, hidx p⟩

/-- C16 fails on a line of three cells: no cell `(0, 0, k)` sits at a sequence position other
than `0*ny*nz + 0*nz + k`, the value of the general formula at `i = j = 0`. -/
theorem C16_line_of_three_cells_uses_the_general_position :
    ¬ ∃ k p c, k < 3 ∧
      (gridSimualtionSpace (exampleSimulation ℚ [] [] 1 1 3))._grid_space[p]? = some c ∧
      c._x = 0 ∧ c._y = 0 ∧ c._z = k ∧ p ≠ 0 * 1 * 3 + 0 * 3 + k := by
  rintro ⟨k, p, c, _, hp, _, _, hz, hne⟩
  obtain ⟨_, _, _, hz'⟩ :=
    (lineBranch_positions (exampleSimulation ℚ [] [] 1 1 3) rfl rfl rfl).2 p c hp
  omega

/-- C16 as amended: for `nx = ny = 1` and a fresh grid space the one-dimensional branch stores
the cell `(0, 0, k)`, for every `k < nz`, at the sequence position `k`, and at no other; that
position is the value of `i*ny*nz + j*nz + k` at `i = j = 0`, so the flattening of the branch
is the general one. -/
theorem C16_line_branch_position_is_the_general_formula (s : Simulation α)
    (hx : s._nx = 1) (hy : s._ny = 1) (hgrid : s._grid_space = []) (k : Nat)
    (hk : k < s._nz) :
    (∃ c, (gridSimualtionSpace s)._grid_space[0 * s._ny * s._nz + 0 * s._nz + k]? = some c ∧
      c._x = 0 ∧ c._y = 0 ∧ c._z = k) ∧
    (∀ p c, (gridSimualtionSpace s)._grid_space[p]? = some c →
      c._x = 0 → c._y = 0 → c._z = k → p = 0 * s._ny * s._nz + 0 * s._nz + k) ∧
    0 * s._ny * s._nz + 0 * s._nz + k = k := by
  obtain ⟨h1, h2⟩ := lineBranch_positions s hx hy hgrid
  have hpos : 0 * s._ny * s._nz + 0 * s._nz + k = k := by simp
  refine ⟨?_, ?_, hpos⟩
  · rw [hpos]
    exact h1 k hk
  · intro p c hp _ _ hz
    obtain ⟨_, _, _, hz'⟩ := h2 p c hp
    omega

/-- C16 at a concrete input: a line of three cells and `k = 2`. -/
theorem C16_line_branch_position_is_the_general_formula_witness :
    (∃ c, (gridSimualtionSpace (exampleSimulation ℚ [] [] 1 1 3))._grid_space[
        0 * 1 * 3 + 0 * 3 + 2]? = some c ∧ c._x = 0 ∧ c._y = 0 ∧ c._z = 2) ∧
    (∀ p c, (gridSimualtionSpace (exampleSimulation ℚ [] [] 1 1 3))._grid_space[p]? = some c →
      c._x = 0 → c._y = 0 → c._z = 2 → p = 0 * 1 * 3 + 0 * 3 + 2) ∧
    0 * 1 * 3 + 0 * 3 + 2 = 2 :=
  C16_line_branch_position_is_the_general_formula (exampleSimulation ℚ [] [] 1 1 3)
    rfl rfl rfl 2 (by decide)

end LineFlattening

/-! ## The boundary initialisation -/

section BoundaryInit
variable {α : Type}

/-- One pass of the loop of `initBondaryCondition`: a PML is initialised once, with the
arguments of its face; anything else stops the loop. -/
theorem boundaryInitStep_eq {β : Type} (s : Simulation β) (e : Boundary) :
    boundaryInitStep s e =
      if e.isPML = true then Except.ok { s with _pml := s._pml ++ [pmlArguments s e] }
      else Except.error InitError.notPML := by
  obtain ⟨ori, len, pml⟩ := e
  cases pml <;> cases ori <;> rfl

/-- Recording a call does not change the arguments of later calls. -/
theorem pmlArguments_frame {β : Type} (s : Simulation β) (l : List (PMLInit β)) (e : Boundary) :
    pmlArguments { s with _pml := l } e = pmlArguments s e := by
  obtain ⟨ori, len, pml⟩ := e
  cases ori <;> rfl

/-- A list of PML boundaries is initialised one by one, in order. -/
theorem foldlM_boundaryInitStep_ok {β : Type} (l : List Boundary) (s : Simulation β)
    (h : ∀ e ∈ l, e.isPML = true) :
    l.foldlM boundaryInitStep s =
      Except.ok { s with _pml := s._pml ++ l.map (pmlArguments s) } := by
  induction l generalizing s with
  | nil => simp [List.foldlM_nil, pure, Except.pure]
  | cons e l ih =>
    have he : e.isPML = true := h e (by simp)
    rw [List.foldlM_cons, boundaryInitStep_eq, if_pos he]
    show l.foldlM boundaryInitStep { s with _pml := s._pml ++ [pmlArguments s e] } = _
    rw [ih _ (fun e' he' => h e' (by simp [he']))]
    simp [pmlArguments_frame, List.append_assoc]

/-- A list with a boundary that is not a PML stops the loop with the exception. -/
theorem foldlM_boundaryInitStep_error {β : Type} (l : List Boundary) (s : Simulation β)
    (h : ∃ e ∈ l, e.isPML = false) :
    l.foldlM boundaryInitStep s = Except.error InitError.notPML := by
  induction l generalizing s with
  | nil =>
    obtain ⟨e, he, _⟩ := h
    exact absurd he (by simp)
  | cons e l ih =>
    rw [List.foldlM_cons, boundaryInitStep_eq]
    by_cases he : e.isPML = true
    · rw [if_pos he]
      show l.foldlM boundaryInitStep { s with _pml := s._pml ++ [pmlArguments s e] } = _
      apply ih
      obtain ⟨e', he', hpml⟩ := h
      rcases List.mem_cons.mp he' with rfl | hmem
      · rw [he] at hpml
        exact absurd hpml (by simp)
      · exact ⟨e', hmem, hpml⟩
    · rw [if_neg he]
      rfl

/-- C13: `initBondaryCondition` stops with the exception exactly when some configured boundary
is not a PML; when every boundary is a PML it returns and has initialised each boundary once,
in order, with start index 0 for XN, YN, ZN and `nx`, `ny`, `nz` minus the size of the
boundary for XP, YP, ZP. -/
theorem C13_boundary_initialisation (s : Simulation α) :
    ((∃ err, initBondaryCondition s = Except.error err) ↔
      ∃ e ∈ s._boundaries, e.isPML = false) ∧
    ((∃ e ∈ s._boundaries, e.isPML = false) →
      initBondaryCondition s = Except.error InitError.notPML) ∧
    ((∀ e ∈ s._boundaries, e.isPML = true) →
      ∃ s', initBondaryCondition s = Except.ok s' ∧
        s'._pml.length = s._pml.length + s._boundaries.length ∧
        (∀ k p, k < s._pml.length → s._pml[k]? = some p → s'._pml[k]? = some p) ∧
        ∀ k e, s._boundaries[k]? = some e →
          ∃ p, s'._pml[s._pml.length + k]? = some p ∧
            p.orientation = e.getOrientation ∧
            (e.getOrientation = Orientation.XN ∨ e.getOrientation = Orientation.YN ∨
              e.getOrientation = Orientation.ZN → p.start = 0) ∧
            (e.getOrientation = Orientation.XP → p.start = (s._nx : Int) - (e.getSize : Int)) ∧
            (e.getOrientation = Orientation.YP → p.start = (s._ny : Int) - (e.getSize : Int)) ∧
            (e.getOrientation = Orientation.ZP →
              p.start = (s._nz : Int) - (e.getSize : Int))) := by
  have hok : (∀ e ∈ s._boundaries, e.isPML = true) →
      initBondaryCondition s =
        Except.ok { s with _pml := s._pml ++ s._boundaries.map (pmlArguments s) } :=
    fun h => foldlM_boundaryInitStep_ok s._boundaries s h
  refine ⟨⟨?_, ?_⟩, foldlM_boundaryInitStep_error s._boundaries s, ?_⟩
  · rintro ⟨err, herr⟩
    by_contra hnone
    have hall : ∀ e ∈ s._boundaries, e.isPML = true := by
      intro e he
      by_contra hpml
      exact hnone ⟨e, he, by simpa using hpml⟩
    rw [hok hall] at herr
    exact absurd herr (by simp)
  · intro h
    exact ⟨_, foldlM_boundaryInitStep_error s._boundaries s h⟩
  · intro hall
    refine ⟨_, hok hall, by simp, ?_, ?_⟩
    · intro k p hk hp
      show (s._pml ++ s._boundaries.map (pmlArguments s))[k]? = some p
      rw [List.getElem?_append_left hk]
      exact hp
    · intro k e hke
      refine ⟨pmlArguments s e, ?_, ?_⟩
      · show (s._pml ++ s._boundaries.map (pmlArguments s))[s._pml.length + k]? = _
        rw [List.getElem?_append_right (by omega)]
        simp [List.getElem?_map, hke]
      · obtain ⟨ori, len, pml⟩ := e
        cases ori <;> simp [pmlArguments]

/-- C13 at a concrete input: an XN and an XP boundary of 8 cells, both PML, on 20 cells. -/
theorem C13_boundary_initialisation_witness :
    ∃ s', initBondaryCondition (exampleSimulation ℚ []
        [⟨Orientation.XN, 8, true⟩, ⟨Orientation.XP, 8, true⟩] 20 1 1) = Except.ok s' ∧
      s'._pml.length = 0 + 2 ∧
      ∃ p, s'._pml[0 + 1]? = some p ∧ p.orientation = Orientation.XP ∧
        p.start = (20 : Int) - (8 : Int) := by
  obtain ⟨s', hs', hlen, _, hrec⟩ := (C13_boundary_initialisation (exampleSimulation ℚ []
    [⟨Orientation.XN, 8, true⟩, ⟨Orientation.XP, 8, true⟩] 20 1 1)).2.2 (by
      intro e he
      simp only [exampleSimulation, List.mem_cons, List.mem_singleton, List.not_mem_nil,
        or_false] at he
      rcases he with rfl | rfl <;> rfl)
  obtain ⟨p, hp, hori, _, hxp, _⟩ := hrec 1 ⟨Orientation.XP, 8, true⟩ rfl
  exact ⟨s', hs', hlen, p, hp, hori, hxp rfl⟩

end BoundaryInit

/-! ## The extent of the domain -/

section ExtentProofs

/-- The thickness of a face, one boundary at a time. -/
theorem faceThickness_cons (e : Boundary) (l : List Boundary) (o : Orientation) :
    faceThickness (e :: l) o =
      (if e.getOrientation = o then e.getSize else 0) + faceThickness l o := by
  unfold faceThickness
  by_cases h : e.getOrientation = o
  · simp [List.filter_cons, h]
  · simp [List.filter_cons, h]

/-- A boundary is not thicker than its face. -/
theorem getSize_le_faceThickness (l : List Boundary) (e : Boundary) (he : e ∈ l) :
    e.getSize ≤ faceThickness l e.getOrientation := by
  induction l with
  | nil => exact absurd he (by simp)
  | cons a l ih =>
    rw [faceThickness_cons]
    rcases List.mem_cons.mp he with rfl | hmem
    · simp
    · have := ih hmem
      omega

variable {α : Type} [LinearOrderedField α]

/-- One axis of one pass of the loop over the objects: a box with `a <= b` leaves the running
minimum not above the running maximum, from ordered bounds or from the initial ones, when the
comparisons accept whatever the exact ones accept. -/
theorem boundsAxis_step (u : Util α)
    (hle : ∀ a b : α, a ≤ b → u.isLessOrEqual a b u.TOLERABLE_EPSILON = true)
    (hge : ∀ a b : α, b ≤ a → u.isGreaterOrEqual a b u.TOLERABLE_EPSILON = true)
    (a b mn mx : α) (hab : a ≤ b)
    (h : mn ≤ mx ∨ (mn = numeric_limits_max ∧ mx = numeric_limits_min)) :
    (if u.isLessOrEqual a mn u.TOLERABLE_EPSILON then a else mn) ≤
      (if u.isGreaterOrEqual b mx u.TOLERABLE_EPSILON then b else mx) := by
  have hlim : (numeric_limits_min : α) ≤ numeric_limits_max := by
    unfold numeric_limits_min numeric_limits_max
    norm_num
  by_cases h1 : u.isLessOrEqual a mn u.TOLERABLE_EPSILON = true
  · by_cases h2 : u.isGreaterOrEqual b mx u.TOLERABLE_EPSILON = true
    · rw [if_pos h1, if_pos h2]
      exact hab
    · rw [if_pos h1, if_neg h2]
      have : b < mx := by
        by_contra hcon
        exact h2 (hge b mx (not_lt.mp hcon))
      linarith
  · have ha : mn < a := by
      by_contra hcon
      exact h1 (hle a mn (not_lt.mp hcon))
    by_cases h2 : u.isGreaterOrEqual b mx u.TOLERABLE_EPSILON = true
    · rw [if_neg h1, if_pos h2]
      linarith
    · rw [if_neg h1, if_neg h2]
      have hb : b < mx := by
        by_contra hcon
        exact h2 (hge b mx (not_lt.mp hcon))
      rcases h with h | ⟨hmn, hmx⟩
      · exact h
      · rw [hmn] at ha
        rw [hmx] at hb
        linarith

/-- One pass of the loop over the objects with a box of non-negative size leaves ordered
bounds, from ordered bounds or from the initial ones. -/
theorem boundsStep_ordered (u : Util α)
    (hle : ∀ a b : α, a ≤ b → u.isLessOrEqual a b u.TOLERABLE_EPSILON = true)
    (hge : ∀ a b : α, b ≤ a → u.isGreaterOrEqual a b u.TOLERABLE_EPSILON = true)
    (b : Bounds α) (e : Object α) (box : Cube α) (hbox : e.getWrappedBox = some box)
    (hwf : 0 ≤ box.size.x ∧ 0 ≤ box.size.y ∧ 0 ≤ box.size.z)
    (h : b.Ordered ∨ b = initialBounds) : (boundsStep u b e).Ordered := by
  have hx : b.min_x ≤ b.max_x ∨ (b.min_x = numeric_limits_max ∧ b.max_x = numeric_limits_min) := by
    rcases h with h | h
    · exact Or.inl h.1
    · rw [h]
      exact Or.inr ⟨rfl, rfl⟩
  have hy : b.min_y ≤ b.max_y ∨ (b.min_y = numeric_limits_max ∧ b.max_y = numeric_limits_min) := by
    rcases h with h | h
    · exact Or.inl h.2.1
    · rw [h]
      exact Or.inr ⟨rfl, rfl⟩
  have hz : b.min_z ≤ b.max_z ∨ (b.min_z = numeric_limits_max ∧ b.max_z = numeric_limits_min) := by
    rcases h with h | h
    · exact Or.inl h.2.2
    · rw [h]
      exact Or.inr ⟨rfl, rfl⟩
  simp only [boundsStep, hbox, Bounds.Ordered]
  exact ⟨boundsAxis_step u hle hge _ _ _ _ (by simp [Cube.getXmin, Cube.getXmax, hwf.1]) hx,
    boundsAxis_step u hle hge _ _ _ _ (by simp [Cube.getYmin, Cube.getYmax, hwf.2.1]) hy,
    boundsAxis_step u hle hge _ _ _ _ (by simp [Cube.getZmin, Cube.getZmax, hwf.2.2]) hz⟩

/-- The loop over the objects keeps ordered bounds ordered. -/
theorem foldl_boundsStep_ordered (u : Util α)
    (hle : ∀ a b : α, a ≤ b → u.isLessOrEqual a b u.TOLERABLE_EPSILON = true)
    (hge : ∀ a b : α, b ≤ a → u.isGreaterOrEqual a b u.TOLERABLE_EPSILON = true)
    (l : List (Object α))
    (hwf : ∀ e ∈ l, ∀ box, e.getWrappedBox = some box →
      0 ≤ box.size.x ∧ 0 ≤ box.size.y ∧ 0 ≤ box.size.z)
    (b : Bounds α) (hb : b.Ordered) : (l.foldl (boundsStep u) b).Ordered := by
  induction l generalizing b with
  | nil => exact hb
  | cons e l ih =>
    rw [List.foldl_cons]
    apply ih (fun e' he' => hwf e' (by simp [he']))
    cases hbox : e.getWrappedBox with
    | none =>
      simp only [boundsStep, hbox]
      exact hb
    | some box =>
      exact boundsStep_ordered u hle hge b e box hbox (hwf e (by simp) box hbox) (Or.inl hb)

/-- With at least one box among the objects, all boxes of non-negative size, the bounds found
before snapping are ordered on every axis. -/
theorem objectBounds_ordered (u : Util α)
    (hle : ∀ a b : α, a ≤ b → u.isLessOrEqual a b u.TOLERABLE_EPSILON = true)
    (hge : ∀ a b : α, b ≤ a → u.isGreaterOrEqual a b u.TOLERABLE_EPSILON = true)
    (l : List (Object α))
    (hwf : ∀ e ∈ l, ∀ box, e.getWrappedBox = some box →
      0 ≤ box.size.x ∧ 0 ≤ box.size.y ∧ 0 ≤ box.size.z)
    (hbox : ∃ e ∈ l, ∃ box, e.getWrappedBox = some box) : (objectBounds u l).Ordered := by
  unfold objectBounds
  induction l with
  | nil =>
    obtain ⟨e, he, _⟩ := hbox
    exact absurd he (by simp)
  | cons e l ih =>
    rw [List.foldl_cons]
    cases hb : e.getWrappedBox with
    | none =>
      have hstep : boundsStep u initialBounds e = initialBounds := by
        simp only [boundsStep, hb]
      rw [hstep]
      apply ih (fun e' he' => hwf e' (by simp [he']))
      obtain ⟨e', he', box, hbox'⟩ := hbox
      rcases List.mem_cons.mp he' with rfl | hmem
      · rw [hb] at hbox'
        exact absurd hbox' (by simp)
      · exact ⟨e', hmem, box, hbox'⟩
    | some box =>
      apply foldl_boundsStep_ordered u hle hge l (fun e' he' => hwf e' (by simp [he']))
      exact boundsStep_ordered u hle hge initialBounds e box hb (hwf e (by simp) box hb)
        (Or.inr rfl)

/-- The bounds after the loop over the boundaries: every face has moved outwards by its
thickness times the pitch. -/
theorem foldl_boundaryStep_faces (dx dy dz : α) (l : List Boundary) (b : Bounds α) :
    (l.foldl (boundaryStep dx dy dz) b).min_x
      = b.min_x - dx * (faceThickness l Orientation.XN : α) ∧
    (l.foldl (boundaryStep dx dy dz) b).max_x
      = b.max_x + dx * (faceThickness l Orientation.XP : α) ∧
    (l.foldl (boundaryStep dx dy dz) b).min_y
      = b.min_y - dy * (faceThickness l Orientation.YN : α) ∧
    (l.foldl (boundaryStep dx dy dz) b).max_y
      = b.max_y + dy * (faceThickness l Orientation.YP : α) ∧
    (l.foldl (boundaryStep dx dy dz) b).min_z
      = b.min_z - dz * (faceThickness l Orientation.ZN : α) ∧
    (l.foldl (boundaryStep dx dy dz) b).max_z
      = b.max_z + dz * (faceThickness l Orientation.ZP : α) := by
  induction l generalizing b with
  | nil => simp [faceThickness]
  | cons e l ih =>
    obtain ⟨h1, h2, h3, h4, h5, h6⟩ := ih (boundaryStep dx dy dz b e)
    rw [List.foldl_cons, h1, h2, h3, h4, h5, h6]
    simp only [faceThickness_cons]
    obtain ⟨ori, len, pml⟩ := e
    cases ori
    all_goals simp [boundaryStep]
    all_goals ring

end ExtentProofs

/-! ## Claims on the cell counts and the boundary slabs -/

section CountProofs
variable {α : Type} [LinearOrderedField α] [FloorRing α]

/-- Rounding a number that is not negative gives a count that is not negative. -/
theorem round_nonneg (x : α) (hx : 0 ≤ x) : 0 ≤ round x := by
  unfold round
  rw [if_pos hx]
  apply Int.floor_nonneg.mpr
  linarith

/-- One axis of the domain: from ordered object bounds and a positive pitch the extent after
snapping and boundary expansion is a whole number of cells, the snapped count plus the
thicknesses of the two faces, and the rounding finds that number. -/
theorem axis_extent (mn mx dx : α) (tn tp : Nat) (hord : mn ≤ mx) (hdx : 0 < dx) :
    0 ≤ round ((mx - mn) / dx) ∧
    round (((mn + ((round ((mx - mn) / dx) : Int) : α) * dx + dx * (tp : α))
        - (mn - dx * (tn : α))) / dx)
      = round ((mx - mn) / dx) + (tn : Int) + (tp : Int) := by
  have h0 : 0 ≤ round ((mx - mn) / dx) :=
    round_nonneg _ (div_nonneg (by linarith) (le_of_lt hdx))
  refine ⟨h0, ?_⟩
  have hne : dx ≠ 0 := ne_of_gt hdx
  have hq : ((mn + ((round ((mx - mn) / dx) : Int) : α) * dx + dx * (tp : α))
      - (mn - dx * (tn : α))) / dx
      = ((round ((mx - mn) / dx) + (tn : Int) + (tp : Int) : Int) : α) := by
    field_simp
    ring
  rw [hq, round_intCast]

/-- The counts that `caculateDomainSize` leaves, for configurations with a box of
non-negative size among the objects and positive pitches: each count is the snapped count of
the objects plus the thicknesses of the two faces of its axis, or 1 when that sum is 0. -/
theorem caculateDomainSize_counts (u : Util α)
    (hle : ∀ a b : α, a ≤ b → u.isLessOrEqual a b u.TOLERABLE_EPSILON = true)
    (hge : ∀ a b : α, b ≤ a → u.isGreaterOrEqual a b u.TOLERABLE_EPSILON = true)
    (s : Simulation α)
    (hwf : ∀ e ∈ s._objects, ∀ box, e.getWrappedBox = some box →
      0 ≤ box.size.x ∧ 0 ≤ box.size.y ∧ 0 ≤ box.size.z)
    (hbox : ∃ e ∈ s._objects, ∃ box, e.getWrappedBox = some box)
    (hdx : 0 < s._dx) (hdy : 0 < s._dy) (hdz : 0 < s._dz) :
    ∃ r, caculateDomainSize u s = Except.ok r ∧ r._boundaries = s._boundaries ∧
      (0 ≤ round (r._simulation_box.getSize.x / s._dx) ∧
        r._nx = cellCount u (r._simulation_box.getSize.x) s._dx ∧
        (faceThickness s._boundaries Orientation.XN : Int)
          + (faceThickness s._boundaries Orientation.XP : Int)
          ≤ round (r._simulation_box.getSize.x / s._dx)) ∧
      (0 ≤ round (r._simulation_box.getSize.y / s._dy) ∧
        r._ny = cellCount u (r._simulation_box.getSize.y) s._dy ∧
        (faceThickness s._boundaries Orientation.YN : Int)
          + (faceThickness s._boundaries Orientation.YP : Int)
          ≤ round (r._simulation_box.getSize.y / s._dy)) ∧
      (0 ≤ round (r._simulation_box.getSize.z / s._dz) ∧
        r._nz = cellCount u (r._simulation_box.getSize.z) s._dz ∧
        (faceThickness s._boundaries Orientation.ZN : Int)
          + (faceThickness s._boundaries Orientation.ZP : Int)
          ≤ round (r._simulation_box.getSize.z / s._dz)) := by
  obtain ⟨ox, oy, oz⟩ := objectBounds_ordered u hle hge s._objects hwf hbox
  obtain ⟨f1, f2, f3, f4, f5, f6⟩ := foldl_boundaryStep_faces s._dx s._dy s._dz s._boundaries
    (snapBounds s._dx s._dy s._dz (objectBounds u s._objects))
  have ex := axis_extent _ _ s._dx (faceThickness s._boundaries Orientation.XN)
    (faceThickness s._boundaries Orientation.XP) ox hdx
  have ey := axis_extent _ _ s._dy (faceThickness s._boundaries Orientation.YN)
    (faceThickness s._boundaries Orientation.YP) oy hdy
  have ez := axis_extent _ _ s._dz (faceThickness s._boundaries Orientation.ZN)
    (faceThickness s._boundaries Orientation.ZP) oz hdz
  refine ⟨_, rfl, rfl, ?_, ?_, ?_⟩
  · have hsize : ((domainBounds u s).max_x - (domainBounds u s).min_x) / s._dx =
        ((objectBounds u s._objects).min_x + ((round (((objectBounds u s._objects).max_x
          - (objectBounds u s._objects).min_x) / s._dx) : Int) : α) * s._dx
          + s._dx * (faceThickness s._boundaries Orientation.XP : α)
          - ((objectBounds u s._objects).min_x
            - s._dx * (faceThickness s._boundaries Orientation.XN : α))) / s._dx := by
      unfold domainBounds
      rw [f1, f2]
      simp only [snapBounds]
    show 0 ≤ round (((domainBounds u s).max_x - (domainBounds u s).min_x) / s._dx) ∧ _ ∧
      _ ≤ round (((domainBounds u s).max_x - (domainBounds u s).min_x) / s._dx)
    rw [hsize, ex.2]
    refine ⟨by omega, rfl, by omega⟩
  · have hsize : ((domainBounds u s).max_y - (domainBounds u s).min_y) / s._dy =
        ((objectBounds u s._objects).min_y + ((round (((objectBounds u s._objects).max_y
          - (objectBounds u s._objects).min_y) / s._dy) : Int) : α) * s._dy
          + s._dy * (faceThickness s._boundaries Orientation.YP : α)
          - ((objectBounds u s._objects).min_y
            - s._dy * (faceThickness s._boundaries Orientation.YN : α))) / s._dy := by
      unfold domainBounds
      rw [f3, f4]
      simp only [snapBounds]
    show 0 ≤ round (((domainBounds u s).max_y - (domainBounds u s).min_y) / s._dy) ∧ _ ∧
      _ ≤ round (((domainBounds u s).max_y - (domainBounds u s).min_y) / s._dy)
    rw [hsize, ey.2]
    refine ⟨by omega, rfl, by omega⟩
  · have hsize : ((domainBounds u s).max_z - (domainBounds u s).min_z) / s._dz =
        ((objectBounds u s._objects).min_z + ((round (((objectBounds u s._objects).max_z
          - (objectBounds u s._objects).min_z) / s._dz) : Int) : α) * s._dz
          + s._dz * (faceThickness s._boundaries Orientation.ZP : α)
          - ((objectBounds u s._objects).min_z
            - s._dz * (faceThickness s._boundaries Orientation.ZN : α))) / s._dz := by
      unfold domainBounds
      rw [f5, f6]
      simp only [snapBounds]
    show 0 ≤ round (((domainBounds u s).max_z - (domainBounds u s).min_z) / s._dz) ∧ _ ∧
      _ ≤ round (((domainBounds u s).max_z - (domainBounds u s).min_z) / s._dz)
    rw [hsize, ez.2]
    refine ⟨by omega, rfl, by omega⟩

/-- The clamped count of a rounded extent that is not negative. -/
theorem cellCount_of_nonneg (u : Util α) (extent pitch : α)
    (h : 0 ≤ round (extent / pitch)) :
    1 ≤ cellCount u extent pitch ∧
    (round (extent / pitch) = 0 → cellCount u extent pitch = 1) ∧
    (1 ≤ round (extent / pitch) → (cellCount u extent pitch : Int) = round (extent / pitch)) ∧
    round (extent / pitch) ≤ (cellCount u extent pitch : Int) := by
  have hc : toSpatialIndex u (round (extent / pitch)) = (round (extent / pitch)).toNat := by
    simp only [toSpatialIndex, if_pos h]
  unfold cellCount
  simp only [hc]
  split_ifs with h0
  · refine ⟨le_refl 1, fun _ => rfl, ?_, ?_⟩
    · intro h1
      omega
    · omega
  · refine ⟨by omega, ?_, ?_, ?_⟩
    · intro hz
      rw [hz] at h0
      exact absurd rfl h0
    · intro _
      omega
    · omega

end CountProofs

section CountClaims
variable {α : Type} [LinearOrderedField α] [FloorRing α]

/-- C12: with at least one box among the objects, boxes of non-negative size and positive
pitches, `caculateDomainSize` returns cell counts `nx`, `ny`, `nz` that are all at least 1;
on each axis the rounded extent over pitch is not negative, the count is exactly 1 when it
is 0 and equals it otherwise. -/
theorem C12_cell_counts_at_least_one (u : Util α)
    (hle : ∀ a b : α, a ≤ b → u.isLessOrEqual a b u.TOLERABLE_EPSILON = true)
    (hge : ∀ a b : α, b ≤ a → u.isGreaterOrEqual a b u.TOLERABLE_EPSILON = true)
    (s : Simulation α)
    (hwf : ∀ e ∈ s._objects, ∀ box, e.getWrappedBox = some box →
      0 ≤ box.size.x ∧ 0 ≤ box.size.y ∧ 0 ≤ box.size.z)
    (hbox : ∃ e ∈ s._objects, ∃ box, e.getWrappedBox = some box)
    (hdx : 0 < s._dx) (hdy : 0 < s._dy) (hdz : 0 < s._dz) :
    ∃ r, caculateDomainSize u s = Except.ok r ∧
      (1 ≤ r._nx ∧ 1 ≤ r._ny ∧ 1 ≤ r._nz) ∧
      (0 ≤ round (r._simulation_box.getSize.x / s._dx) ∧
        (round (r._simulation_box.getSize.x / s._dx) = 0 → r._nx = 1) ∧
        (1 ≤ round (r._simulation_box.getSize.x / s._dx) →
          (r._nx : Int) = round (r._simulation_box.getSize.x / s._dx))) ∧
      (0 ≤ round (r._simulation_box.getSize.y / s._dy) ∧
        (round (r._simulation_box.getSize.y / s._dy) = 0 → r._ny = 1) ∧
        (1 ≤ round (r._simulation_box.getSize.y / s._dy) →
          (r._ny : Int) = round (r._simulation_box.getSize.y / s._dy))) ∧
      (0 ≤ round (r._simulation_box.getSize.z / s._dz) ∧
        (round (r._simulation_box.getSize.z / s._dz) = 0 → r._nz = 1) ∧
        (1 ≤ round (r._simulation_box.getSize.z / s._dz) →
          (r._nz : Int) = round (r._simulation_box.getSize.z / s._dz))) := by
  obtain ⟨r, hr, _, ⟨hx0, hnx, _⟩, ⟨hy0, hny, _⟩, ⟨hz0, hnz, _⟩⟩ :=
    caculateDomainSize_counts u hle hge s hwf hbox hdx hdy hdz
  obtain ⟨cx1, cx2, cx3, _⟩ := cellCount_of_nonneg u _ _ hx0
  obtain ⟨cy1, cy2, cy3, _⟩ := cellCount_of_nonneg u _ _ hy0
  obtain ⟨cz1, cz2, cz3, _⟩ := cellCount_of_nonneg u _ _ hz0
  rw [← hnx] at cx1 cx2 cx3
  rw [← hny] at cy1 cy2 cy3
  rw [← hnz] at cz1 cz2 cz3
  exact ⟨r, hr, ⟨cx1, cy1, cz1⟩, ⟨hx0, cx2, cx3⟩, ⟨hy0, cy2, cy3⟩, ⟨hz0, cz2, cz3⟩⟩

/-- C12 at a concrete input: a plate of zero thickness along x and unit pitches. -/
theorem C12_cell_counts_at_least_one_witness :
    ∃ r, caculateDomainSize (exampleUtil ℚ (fun x => x))
        (exampleSimulation ℚ [everywhere ℚ (some ⟨⟨0, 0, 0⟩, ⟨0, 1, 1⟩⟩) (1, 1, 0, 0)] []
          0 0 0) = Except.ok r ∧
      (1 ≤ r._nx ∧ 1 ≤ r._ny ∧ 1 ≤ r._nz) := by
  obtain ⟨r, hr, hcount, _⟩ := C12_cell_counts_at_least_one (exampleUtil ℚ (fun x => x))
    (fun a b hab => by simp [exampleUtil, exactCompare, hab])
    (fun a b hab => by simp [exampleUtil, exactCompare, hab])
    (exampleSimulation ℚ [everywhere ℚ (some ⟨⟨0, 0, 0⟩, ⟨0, 1, 1⟩⟩) (1, 1, 0, 0)] [] 0 0 0)
    (by
      intro e he box hbox
      simp only [exampleSimulation, List.mem_singleton] at he
      subst he
      simp only [everywhere, Option.some.injEq] at hbox
      subst hbox
      norm_num)
    ⟨everywhere ℚ (some ⟨⟨0, 0, 0⟩, ⟨0, 1, 1⟩⟩) (1, 1, 0, 0), by simp [exampleSimulation],
      ⟨⟨0, 0, 0⟩, ⟨0, 1, 1⟩⟩, rfl⟩
    (by norm_num [exampleSimulation]) (by norm_num [exampleSimulation])
    (by norm_num [exampleSimulation])
  exact ⟨r, hr, hcount⟩

/-- C19: with at least one box among the objects, boxes of non-negative size and positive
pitches, the counts that `caculateDomainSize` returns are, on each axis, at least the size of
any negative-face boundary plus the size of any positive-face boundary; hence the start index
`n - size` that `initBondaryCondition` passes for a positive-face PML is not negative and not
below the size of a negative-face boundary of that axis. -/
theorem C19_boundary_slabs_fit (u : Util α)
    (hle : ∀ a b : α, a ≤ b → u.isLessOrEqual a b u.TOLERABLE_EPSILON = true)
    (hge : ∀ a b : α, b ≤ a → u.isGreaterOrEqual a b u.TOLERABLE_EPSILON = true)
    (s : Simulation α)
    (hwf : ∀ e ∈ s._objects, ∀ box, e.getWrappedBox = some box →
      0 ≤ box.size.x ∧ 0 ≤ box.size.y ∧ 0 ≤ box.size.z)
    (hbox : ∃ e ∈ s._objects, ∃ box, e.getWrappedBox = some box)
    (hdx : 0 < s._dx) (hdy : 0 < s._dy) (hdz : 0 < s._dz) :
    ∃ r, caculateDomainSize u s = Except.ok r ∧
      (faceThickness s._boundaries Orientation.XN
          + faceThickness s._boundaries Orientation.XP ≤ r._nx ∧
        faceThickness s._boundaries Orientation.YN
          + faceThickness s._boundaries Orientation.YP ≤ r._ny ∧
        faceThickness s._boundaries Orientation.ZN
          + faceThickness s._boundaries Orientation.ZP ≤ r._nz) ∧
      (∀ eN ∈ s._boundaries, ∀ eP ∈ s._boundaries,
        (eN.getOrientation = Orientation.XN → eP.getOrientation = Orientation.XP →
          eN.getSize + eP.getSize ≤ r._nx) ∧
        (eN.getOrientation = Orientation.YN → eP.getOrientation = Orientation.YP →
          eN.getSize + eP.getSize ≤ r._ny) ∧
        (eN.getOrientation = Orientation.ZN → eP.getOrientation = Orientation.ZP →
          eN.getSize + eP.getSize ≤ r._nz)) ∧
      (∀ s2 : Simulation α, s2._nx = r._nx → s2._ny = r._ny → s2._nz = r._nz →
        s2._boundaries = s._boundaries → (∀ e ∈ s._boundaries, e.isPML = true) →
        ∃ s3, initBondaryCondition s2 = Except.ok s3 ∧
          ∀ k eP, s._boundaries[k]? = some eP →
            ∃ p, s3._pml[s2._pml.length + k]? = some p ∧
              (eP.getOrientation = Orientation.XP →
                p.start = (r._nx : Int) - (eP.getSize : Int) ∧ 0 ≤ p.start ∧
                ∀ eN ∈ s._boundaries, eN.getOrientation = Orientation.XN →
                  (eN.getSize : Int) ≤ p.start) ∧
              (eP.getOrientation = Orientation.YP →
                p.start = (r._ny : Int) - (eP.getSize : Int) ∧ 0 ≤ p.start ∧
                ∀ eN ∈ s._boundaries, eN.getOrientation = Orientation.YN →
                  (eN.getSize : Int) ≤ p.start) ∧
              (eP.getOrientation = Orientation.ZP →
                p.start = (r._nz : Int) - (eP.getSize : Int) ∧ 0 ≤ p.start ∧
                ∀ eN ∈ s._boundaries, eN.getOrientation = Orientation.ZN →
                  (eN.getSize : Int) ≤ p.start)) := by
  obtain ⟨r, hr, _, ⟨hx0, hnx, hxt⟩, ⟨hy0, hny, hyt⟩, ⟨hz0, hnz, hzt⟩⟩ :=
    caculateDomainSize_counts u hle hge s hwf hbox hdx hdy hdz
  obtain ⟨_, _, _, cx⟩ := cellCount_of_nonneg u _ _ hx0
  obtain ⟨_, _, _, cy⟩ := cellCount_of_nonneg u _ _ hy0
  obtain ⟨_, _, _, cz⟩ := cellCount_of_nonneg u _ _ hz0
  rw [← hnx] at cx
  rw [← hny] at cy
  rw [← hnz] at cz
  have tx : faceThickness s._boundaries Orientation.XN
      + faceThickness s._boundaries Orientation.XP ≤ r._nx := by omega
  have ty : faceThickness s._boundaries Orientation.YN
      + faceThickness s._boundaries Orientation.YP ≤ r._ny := by omega
  have tz : faceThickness s._boundaries Orientation.ZN
      + faceThickness s._boundaries Orientation.ZP ≤ r._nz := by omega
  have hpair : ∀ eN ∈ s._boundaries, ∀ eP ∈ s._boundaries,
      (eN.getOrientation = Orientation.XN → eP.getOrientation = Orientation.XP →
        eN.getSize + eP.getSize ≤ r._nx) ∧
      (eN.getOrientation = Orientation.YN → eP.getOrientation = Orientation.YP →
        eN.getSize + eP.getSize ≤ r._ny) ∧
      (eN.getOrientation = Orientation.ZN → eP.getOrientation = Orientation.ZP →
        eN.getSize + eP.getSize ≤ r._nz) := by
    intro eN hN eP hP
    have h1 := getSize_le_faceThickness s._boundaries eN hN
    have h2 := getSize_le_faceThickness s._boundaries eP hP
    refine ⟨?_, ?_, ?_⟩
    · intro oN oP
      rw [oN] at h1
      rw [oP] at h2
      omega
    · intro oN oP
      rw [oN] at h1
      rw [oP] at h2
      omega
    · intro oN oP
      rw [oN] at h1
      rw [oP] at h2
      omega
  refine ⟨r, hr, ⟨tx, ty, tz⟩, hpair, ?_⟩
  intro s2 h2x h2y h2z h2b hpml
  have hok : initBondaryCondition s2 =
      Except.ok { s2 with _pml := s2._pml ++ s2._boundaries.map (pmlArguments s2) } :=
    foldlM_boundaryInitStep_ok s2._boundaries s2 (by rw [h2b]; exact hpml)
  refine ⟨_, hok, ?_⟩
  intro k eP hk
  have hk2 : s2._boundaries[k]? = some eP := by
    rw [h2b]
    exact hk
  have hmem : eP ∈ s._boundaries := List.getElem?_mem hk
  have hP := getSize_le_faceThickness s._boundaries eP hmem
  refine ⟨pmlArguments s2 eP, ?_, ?_, ?_, ?_⟩
  · show (s2._pml ++ s2._boundaries.map (pmlArguments s2))[s2._pml.length + k]? = _
    rw [List.getElem?_append_right (by omega)]
    simp [List.getElem?_map, hk2]
  · intro oP
    rw [oP] at hP
    refine ⟨by simp [pmlArguments, oP, h2x], by simp only [pmlArguments, oP]; omega, ?_⟩
    intro eN hN oN
    have := (hpair eN hN eP hmem).1 oN oP
    simp only [pmlArguments, oP]
    omega
  · intro oP
    rw [oP] at hP
    refine ⟨by simp [pmlArguments, oP, h2y], by simp only [pmlArguments, oP]; omega, ?_⟩
    intro eN hN oN
    have := (hpair eN hN eP hmem).2.1 oN oP
    simp only [pmlArguments, oP]
    omega
  · intro oP
    rw [oP] at hP
    refine ⟨by simp [pmlArguments, oP, h2z], by simp only [pmlArguments, oP]; omega, ?_⟩
    intro eN hN oN
    have := (hpair eN hN eP hmem).2.2 oN oP
    simp only [pmlArguments, oP]
    omega

/-- C19 at a concrete input: a unit cube, unit pitches and one boundary of 8 cells on each of
the faces XN and XP. -/
theorem C19_boundary_slabs_fit_witness :
    ∃ r, caculateDomainSize (exampleUtil ℚ (fun x => x))
        (exampleSimulation ℚ [everywhere ℚ (some ⟨⟨0, 0, 0⟩, ⟨1, 1, 1⟩⟩) (1, 1, 0, 0)]
          [⟨Orientation.XN, 8, true⟩, ⟨Orientation.XP, 8, true⟩] 0 0 0) = Except.ok r ∧
      8 + 8 ≤ r._nx := by
  obtain ⟨r, hr, _, hpair, _⟩ := C19_boundary_slabs_fit (exampleUtil ℚ (fun x => x))
    (fun a b hab => by simp [exampleUtil, exactCompare, hab])
    (fun a b hab => by simp [exampleUtil, exactCompare, hab])
    (exampleSimulation ℚ [everywhere ℚ (some ⟨⟨0, 0, 0⟩, ⟨1, 1, 1⟩⟩) (1, 1, 0, 0)]
      [⟨Orientation.XN, 8, true⟩, ⟨Orientation.XP, 8, true⟩] 0 0 0)
    (by
      intro e he box hbox
      simp only [exampleSimulation, List.mem_singleton] at he
      subst he
      simp only [everywhere, Option.some.injEq] at hbox
      subst hbox
      norm_num)
    ⟨everywhere ℚ (some ⟨⟨0, 0, 0⟩, ⟨1, 1, 1⟩⟩) (1, 1, 0, 0), by simp [exampleSimulation],
      ⟨⟨0, 0, 0⟩, ⟨1, 1, 1⟩⟩, rfl⟩
    (by norm_num [exampleSimulation]) (by norm_num [exampleSimulation])
    (by norm_num [exampleSimulation])
  exact ⟨r, hr, (hpair ⟨Orientation.XN, 8, true⟩ (by simp [exampleSimulation])
    ⟨Orientation.XP, 8, true⟩ (by simp [exampleSimulation])).1 rfl rfl⟩

end CountClaims

/-! ## The coefficient arrays at the exit of `initUpdateCoefficient` -/

section ExitProofs
variable {α : Type} [LinearOrderedField α]

/-- A run of `caculateMaterialComponent` that returns has kept the frame: the counts, the
pitches, the time step, the grid space, the objects and the extents of the material arrays. -/
theorem caculateMaterialComponent_frame (u : Util α) (s0 s1 : Simulation α)
    (h : caculateMaterialComponent u s0 = Except.ok s1) : SameFrame s0 s1 := by
  refine (caculateMaterialComponent_keeps u (fun s => SameFrame s0 s) (fun _ => False) ?_ s0
    ⟨rfl, rfl, rfl, rfl, rfl, rfl, rfl, rfl, rfl, rfl⟩).1 s1 h
  intro i j k s hJ
  constructor
  · intro s' hs'
    obtain ⟨c, e, _, _, hw⟩ := materialCell_ok u i j k s s' hs'
    rw [hw]
    exact SameFrame.trans hJ (writeMaterial_frame _ _ _ _ _ _ _ _)
  · intro e _ hbad
    exact hbad

/-- What the chain returns is `initUpdateCoefficient` of what `caculateMaterialComponent`
returns. -/
theorem materialAndCoefficients_ok (u : Util α) (s s' : Simulation α)
    (h : materialAndCoefficients u s = Except.ok s') :
    ∃ s1, caculateMaterialComponent u (allocateArray u (gridSimualtionSpace s))
        = Except.ok s1 ∧ s' = initUpdateCoefficient s1 := by
  unfold materialAndCoefficients at h
  cases hc : caculateMaterialComponent u (allocateArray u (gridSimualtionSpace s)) with
  | error e =>
    rw [hc] at h
    exact absurd h (by simp [Except.map])
  | ok s1 =>
    rw [hc] at h
    have h' : Except.ok (initUpdateCoefficient s1) = Except.ok s' := h
    exact ⟨s1, rfl, (Except.ok.inj h').symm⟩

/-- An object that `objectAt` finds is a member of the object list. -/
theorem objectAt_mem {β : Type} (objects : List (Object β)) (idx : Int) (e : Object β)
    (h : objectAt objects idx = some e) : e ∈ objects := by
  unfold objectAt at h
  split at h
  · exact absurd h (by simp)
  · exact List.getElem?_mem h

/-- Where the twelve material entries at an index are positive and the time step is positive,
the six denominators that `initUpdateCoefficient` divides by are non-zero at that index and
the six self-coefficients are below 1 there. -/
theorem coefficients_of_positive_entries (s1 : Simulation α) (a b c : Nat)
    (hdt : 0 < s1._dt) (hpos : ∀ x ∈ materialEntries s1 a b c, 0 < x) :
    ((denominator s1._dt s1._eps_x s1._sigma_e_x).data a b c ≠ 0 ∧
     (initUpdateCoefficient s1)._cexe.data a b c < 1) ∧
    ((denominator s1._dt s1._eps_y s1._sigma_e_y).data a b c ≠ 0 ∧
     (initUpdateCoefficient s1)._ceye.data a b c < 1) ∧
    ((denominator s1._dt s1._eps_z s1._sigma_e_z).data a b c ≠ 0 ∧
     (initUpdateCoefficient s1)._ceze.data a b c < 1) ∧
    ((denominator s1._dt s1._mu_x s1._sigma_m_x).data a b c ≠ 0 ∧
     (initUpdateCoefficient s1)._chxh.data a b c < 1) ∧
    ((denominator s1._dt s1._mu_y s1._sigma_m_y).data a b c ≠ 0 ∧
     (initUpdateCoefficient s1)._chyh.data a b c < 1) ∧
    ((denominator s1._dt s1._mu_z s1._sigma_m_z).data a b c ≠ 0 ∧
     (initUpdateCoefficient s1)._chzh.data a b c < 1) := by
  simp only [materialEntries, List.forall_mem_cons, List.not_mem_nil, false_implies,
    implies_true, and_true] at hpos
  obtain ⟨p1, p2, p3, p4, p5, p6, p7, p8, p9, p10, p11, p12⟩ := hpos
  exact ⟨self_coefficient_lt_one _ _ _ hdt p1 p2, self_coefficient_lt_one _ _ _ hdt p5 p7,
    self_coefficient_lt_one _ _ _ hdt p9 p11, self_coefficient_lt_one _ _ _ hdt p3 p4,
    self_coefficient_lt_one _ _ _ hdt p6 p8, self_coefficient_lt_one _ _ _ hdt p10 p12⟩

end ExitProofs

/-! ## Claims on the coefficient arrays at the exit of `initUpdateCoefficient` -/

section ExitClaims
variable {α : Type} [LinearOrderedField α]

/-- C3: at the exit of `initUpdateCoefficient` every self- and cross-coupling coefficient
array has the staggered extents of its field component, the same for the three arrays of a
family: the Ex family `nx x (ny+1) x (nz+1)`, the Ey family `(nx+1) x ny x (nz+1)`, the Ez
family `(nx+1) x (ny+1) x nz`, the Hx family `(nx+1) x ny x nz`, the Hy family
`nx x (ny+1) x nz` and the Hz family `nx x ny x (nz+1)`. This holds when the method runs right
after `allocateArray`, and for every state that the chain `gridSimualtionSpace`,
`allocateArray`, `caculateMaterialComponent`, `initUpdateCoefficient` returns. The `resize`
calls of lines 61-78 are overwritten by the assignments of lines 81-113, which give each array
the extents of its right-hand side. -/
theorem C3_coefficient_arrays_have_staggered_extents (u : Util α) (s : Simulation α) :
   (
    ((initUpdateCoefficient (allocateArray u s))._cexe.extents = (s._nx, s._ny + 1, s._nz + 1) ∧
     (initUpdateCoefficient (allocateArray u s))._cexhy.extents = (s._nx, s._ny + 1, s._nz + 1) ∧
     (initUpdateCoefficient (allocateArray u s))._cexhz.extents = (s._nx, s._ny + 1, s._nz + 1)) ∧
    ((initUpdateCoefficient (allocateArray u s))._ceye.extents = (s._nx + 1, s._ny, s._nz + 1) ∧
     (initUpdateCoefficient (allocateArray u s))._ceyhx.extents = (s._nx + 1, s._ny, s._nz + 1) ∧
     (initUpdateCoefficient (allocateArray u s))._ceyhz.extents = (s._nx + 1, s._ny, s._nz + 1)) ∧
    ((initUpdateCoefficient (allocateArray u s))._ceze.extents = (s._nx + 1, s._ny + 1, s._nz) ∧
     (initUpdateCoefficient (allocateArray u s))._cezhx.extents = (s._nx + 1, s._ny + 1, s._nz) ∧
     (initUpdateCoefficient (allocateArray u s))._cezhy.extents = (s._nx + 1, s._ny + 1, s._nz)) ∧
    ((initUpdateCoefficient (allocateArray u s))._chxh.extents = (s._nx + 1, s._ny, s._nz) ∧
     (initUpdateCoefficient (allocateArray u s))._chxey.extents = (s._nx + 1, s._ny, s._nz) ∧
     (initUpdateCoefficient (allocateArray u s))._chxez.extents = (s._nx + 1, s._ny, s._nz)) ∧
    ((initUpdateCoefficient (allocateArray u s))._chyh.extents = (s._nx, s._ny + 1, s._nz) ∧
     (initUpdateCoefficient (allocateArray u s))._chyez.extents = (s._nx, s._ny + 1, s._nz) ∧
     (initUpdateCoefficient (allocateArray u s))._chyex.extents = (s._nx, s._ny + 1, s._nz)) ∧
    ((initUpdateCoefficient (allocateArray u s))._chzh.extents = (s._nx, s._ny, s._nz + 1) ∧
     (initUpdateCoefficient (allocateArray u s))._chzex.extents = (s._nx, s._ny, s._nz + 1) ∧
     (initUpdateCoefficient (allocateArray u s))._chzey.extents = (s._nx, s._ny, s._nz + 1))) ∧
    (∀ s', materialAndCoefficients u s = Except.ok s' →
      (s'._cexe.extents = (s._nx, s._ny + 1, s._nz + 1) ∧
       s'._cexhy.extents = (s._nx, s._ny + 1, s._nz + 1) ∧
       s'._cexhz.extents = (s._nx, s._ny + 1, s._nz + 1)) ∧
      (s'._ceye.extents = (s._nx + 1, s._ny, s._nz + 1) ∧
       s'._ceyhx.extents = (s._nx + 1, s._ny, s._nz + 1) ∧
       s'._ceyhz.extents = (s._nx + 1, s._ny, s._nz + 1)) ∧
      (s'._ceze.extents = (s._nx + 1, s._ny + 1, s._nz) ∧
       s'._cezhx.extents = (s._nx + 1, s._ny + 1, s._nz) ∧
       s'._cezhy.extents = (s._nx + 1, s._ny + 1, s._nz)) ∧
      (s'._chxh.extents = (s._nx + 1, s._ny, s._nz) ∧
       s'._chxey.extents = (s._nx + 1, s._ny, s._nz) ∧
       s'._chxez.extents = (s._nx + 1, s._ny, s._nz)) ∧
      (s'._chyh.extents = (s._nx, s._ny + 1, s._nz) ∧
       s'._chyez.extents = (s._nx, s._ny + 1, s._nz) ∧
       s'._chyex.extents = (s._nx, s._ny + 1, s._nz)) ∧
      (s'._chzh.extents = (s._nx, s._ny, s._nz + 1) ∧
       s'._chzex.extents = (s._nx, s._ny, s._nz + 1) ∧
       s'._chzey.extents = (s._nx, s._ny, s._nz + 1))) := by
  constructor
  · exact ⟨⟨rfl, rfl, rfl⟩, ⟨rfl, rfl, rfl⟩, ⟨rfl, rfl, rfl⟩, ⟨rfl, rfl, rfl⟩,
      ⟨rfl, rfl, rfl⟩, ⟨rfl, rfl, rfl⟩⟩
  · intro s' h
    obtain ⟨s1, h1, hs'⟩ := materialAndCoefficients_ok u s s' h
    subst hs'
    obtain ⟨_, _, _, _, _, _, _, _, _, hext⟩ := caculateMaterialComponent_frame u _ s1 h1
    simp only [materialExtents, List.cons.injEq, and_true] at hext
    obtain ⟨e1, _, e3, _, e5, e6, _, _, e9, e10, _, _⟩ := hext
    exact ⟨⟨e1, e1, e1⟩, ⟨e5, e5, e5⟩, ⟨e9, e9, e9⟩, ⟨e3, e3, e3⟩,
      ⟨e6, e6, e6⟩, ⟨e10, e10, e10⟩⟩

/-- C15: for each of the six field components the extents that `allocateArray` gives the
material arrays of the component (permittivity and electric conductivity for Ex, Ey, Ez,
permeability and magnetic conductivity for Hx, Hy, Hz) are the extents that the coefficient
arrays of the component have at the exit of `initUpdateCoefficient`; so `_chxh` has the
extents of `_mu_x` and `_chyh` those of `_mu_y`. This holds when the method runs right after
`allocateArray`, and for every state that the chain `gridSimualtionSpace`, `allocateArray`,
`caculateMaterialComponent`, `initUpdateCoefficient` returns, in which the material arrays
still have the extents of their allocation. -/
theorem C15_coefficient_extents_equal_material_extents (u : Util α) (s : Simulation α) :
   (
    ((initUpdateCoefficient (allocateArray u s))._cexe.extents =
       (allocateArray u s)._eps_x.extents ∧
     (initUpdateCoefficient (allocateArray u s))._cexhy.extents =
       (allocateArray u s)._eps_x.extents ∧
     (initUpdateCoefficient (allocateArray u s))._cexhz.extents =
       (allocateArray u s)._eps_x.extents ∧
     (allocateArray u s)._sigma_e_x.extents =
       (allocateArray u s)._eps_x.extents) ∧
    ((initUpdateCoefficient (allocateArray u s))._ceye.extents =
       (allocateArray u s)._eps_y.extents ∧
     (initUpdateCoefficient (allocateArray u s))._ceyhx.extents =
       (allocateArray u s)._eps_y.extents ∧
     (initUpdateCoefficient (allocateArray u s))._ceyhz.extents =
       (allocateArray u s)._eps_y.extents ∧
     (allocateArray u s)._sigma_e_y.extents =
       (allocateArray u s)._eps_y.extents) ∧
    ((initUpdateCoefficient (allocateArray u s))._ceze.extents =
       (allocateArray u s)._eps_z.extents ∧
     (initUpdateCoefficient (allocateArray u s))._cezhx.extents =
       (allocateArray u s)._eps_z.extents ∧
     (initUpdateCoefficient (allocateArray u s))._cezhy.extents =
       (allocateArray u s)._eps_z.extents ∧
     (allocateArray u s)._sigma_e_z.extents =
       (allocateArray u s)._eps_z.extents) ∧
    ((initUpdateCoefficient (allocateArray u s))._chxh.extents =
       (allocateArray u s)._mu_x.extents ∧
     (initUpdateCoefficient (allocateArray u s))._chxey.extents =
       (allocateArray u s)._mu_x.extents ∧
     (initUpdateCoefficient (allocateArray u s))._chxez.extents =
       (allocateArray u s)._mu_x.extents ∧
     (allocateArray u s)._sigma_m_x.extents =
       (allocateArray u s)._mu_x.extents) ∧
    ((initUpdateCoefficient (allocateArray u s))._chyh.extents =
       (allocateArray u s)._mu_y.extents ∧
     (initUpdateCoefficient (allocateArray u s))._chyez.extents =
       (allocateArray u s)._mu_y.extents ∧
     (initUpdateCoefficient (allocateArray u s))._chyex.extents =
       (allocateArray u s)._mu_y.extents ∧
     (allocateArray u s)._sigma_m_y.extents =
       (allocateArray u s)._mu_y.extents) ∧
    ((initUpdateCoefficient (allocateArray u s))._chzh.extents =
       (allocateArray u s)._mu_z.extents ∧
     (initUpdateCoefficient (allocateArray u s))._chzex.extents =
       (allocateArray u s)._mu_z.extents ∧
     (initUpdateCoefficient (allocateArray u s))._chzey.extents =
       (allocateArray u s)._mu_z.extents ∧
     (allocateArray u s)._sigma_m_z.extents =
       (allocateArray u s)._mu_z.extents)) ∧
    (∀ s', materialAndCoefficients u s = Except.ok s' →
      (s'._cexe.extents =
         (allocateArray u (gridSimualtionSpace s))._eps_x.extents ∧
       s'._cexhy.extents =
         (allocateArray u (gridSimualtionSpace s))._eps_x.extents ∧
       s'._cexhz.extents =
         (allocateArray u (gridSimualtionSpace s))._eps_x.extents ∧
       s'._eps_x.extents =
         (allocateArray u (gridSimualtionSpace s))._eps_x.extents ∧
       s'._sigma_e_x.extents =
         (allocateArray u (gridSimualtionSpace s))._sigma_e_x.extents) ∧
      (s'._ceye.extents =
         (allocateArray u (gridSimualtionSpace s))._eps_y.extents ∧
       s'._ceyhx.extents =
         (allocateArray u (gridSimualtionSpace s))._eps_y.extents ∧
       s'._ceyhz.extents =
         (allocateArray u (gridSimualtionSpace s))._eps_y.extents ∧
       s'._eps_y.extents =
         (allocateArray u (gridSimualtionSpace s))._eps_y.extents ∧
       s'._sigma_e_y.extents =
         (allocateArray u (gridSimualtionSpace s))._sigma_e_y.extents) ∧
      (s'._ceze.extents =
         (allocateArray u (gridSimualtionSpace s))._eps_z.extents ∧
       s'._cezhx.extents =
         (allocateArray u (gridSimualtionSpace s))._eps_z.extents ∧
       s'._cezhy.extents =
         (allocateArray u (gridSimualtionSpace s))._eps_z.extents ∧
       s'._eps_z.extents =
         (allocateArray u (gridSimualtionSpace s))._eps_z.extents ∧
       s'._sigma_e_z.extents =
         (allocateArray u (gridSimualtionSpace s))._sigma_e_z.extents) ∧
      (s'._chxh.extents =
         (allocateArray u (gridSimualtionSpace s))._mu_x.extents ∧
       s'._chxey.extents =
         (allocateArray u (gridSimualtionSpace s))._mu_x.extents ∧
       s'._chxez.extents =
         (allocateArray u (gridSimualtionSpace s))._mu_x.extents ∧
       s'._mu_x.extents =
         (allocateArray u (gridSimualtionSpace s))._mu_x.extents ∧
       s'._sigma_m_x.extents =
         (allocateArray u (gridSimualtionSpace s))._sigma_m_x.extents) ∧
      (s'._chyh.extents =
         (allocateArray u (gridSimualtionSpace s))._mu_y.extents ∧
       s'._chyez.extents =
         (allocateArray u (gridSimualtionSpace s))._mu_y.extents ∧
       s'._chyex.extents =
         (allocateArray u (gridSimualtionSpace s))._mu_y.extents ∧
       s'._mu_y.extents =
         (allocateArray u (gridSimualtionSpace s))._mu_y.extents ∧
       s'._sigma_m_y.extents =
         (allocateArray u (gridSimualtionSpace s))._sigma_m_y.extents) ∧
      (s'._chzh.extents =
         (allocateArray u (gridSimualtionSpace s))._mu_z.extents ∧
       s'._chzex.extents =
         (allocateArray u (gridSimualtionSpace s))._mu_z.extents ∧
       s'._chzey.extents =
         (allocateArray u (gridSimualtionSpace s))._mu_z.extents ∧
       s'._mu_z.extents =
         (allocateArray u (gridSimualtionSpace s))._mu_z.extents ∧
       s'._sigma_m_z.extents =
         (allocateArray u (gridSimualtionSpace s))._sigma_m_z.extents)) := by
  constructor
  · exact ⟨⟨rfl, rfl, rfl, rfl⟩, ⟨rfl, rfl, rfl, rfl⟩, ⟨rfl, rfl, rfl, rfl⟩,
      ⟨rfl, rfl, rfl, rfl⟩, ⟨rfl, rfl, rfl, rfl⟩, ⟨rfl, rfl, rfl, rfl⟩⟩
  · intro s' h
    obtain ⟨s1, h1, hs'⟩ := materialAndCoefficients_ok u s s' h
    subst hs'
    obtain ⟨_, _, _, _, _, _, _, _, _, hext⟩ := caculateMaterialComponent_frame u _ s1 h1
    simp only [materialExtents, List.cons.injEq, and_true] at hext
    obtain ⟨e1, e2, e3, e4, e5, e6, e7, e8, e9, e10, e11, e12⟩ := hext
    exact ⟨⟨e1, e1, e1, e1, e2⟩, ⟨e5, e5, e5, e5, e7⟩, ⟨e9, e9, e9, e9, e11⟩,
      ⟨e3, e3, e3, e3, e4⟩, ⟨e6, e6, e6, e6, e8⟩, ⟨e10, e10, e10, e10, e12⟩⟩

/-- C10: for a cell whose resolved object has `sigma_e = sigma_m = 0` and positive
permittivity and permeability, and for `dt > 0`, the chain returns; the six conductivities
written for the cell are the positive floor; each of the six denominators that
`initUpdateCoefficient` divides by is `2*eps + dt*floor` or `2*mu + dt*floor` at the cell and
is non-zero; each of the six self-coefficients is the quotient
`(2*m - dt*floor) / (2*m + dt*floor)` and is strictly below 1. If moreover `EPSILON_0` and
`MU_0` are positive and every object has positive permittivity and permeability, then at
every index, the border entries with the allocation defaults included, the six denominators
are non-zero and the six self-coefficients are strictly below 1. -/
theorem C10_zero_conductivity_self_coefficients (u : Util α) (s : Simulation α)
    (hgrid : s._grid_space = [])
    (hle : ∀ a b : α, a ≤ b → u.isLessOrEqual a b u.TOLERABLE_EPSILON = true)
    (hdt : 0 < s._dt) (i j k : Nat) (hi : i < s._nx) (hj : j < s._ny) (hk : k < s._nz)
    (cell : YeeCell α) (e : Object α)
    (hcell : (gridSimualtionSpace s)._grid_space[i * s._ny * s._nz + j * s._nz + k]?
      = some cell)
    (he : objectAt s._objects cell.getMaterialIndex = some e)
    (eps mu : α) (hprops : e.getElectromagneticProperties = (eps, mu, 0, 0))
    (heps : 0 < eps) (hmu : 0 < mu) :
    ∃ s', materialAndCoefficients u s = Except.ok s' ∧
      s'._dt = s._dt ∧ (0 : α) < min_sigma ∧
      (s'._eps_x.data i j k = eps ∧ s'._eps_y.data i j k = eps ∧
       s'._eps_z.data i j k = eps ∧ s'._mu_x.data i j k = mu ∧
       s'._mu_y.data i j k = mu ∧ s'._mu_z.data i j k = mu) ∧
      (s'._sigma_e_x.data i j k = min_sigma ∧ s'._sigma_e_y.data i j k = min_sigma ∧
       s'._sigma_e_z.data i j k = min_sigma ∧ s'._sigma_m_x.data i j k = min_sigma ∧
       s'._sigma_m_y.data i j k = min_sigma ∧ s'._sigma_m_z.data i j k = min_sigma) ∧
     (
      ((denominator s'._dt s'._eps_x s'._sigma_e_x).data i j k = 2 * eps + s._dt * min_sigma ∧
       (denominator s'._dt s'._eps_x s'._sigma_e_x).data i j k ≠ 0 ∧
       s'._cexe.data i j k =
         (2 * eps - s._dt * min_sigma) / (2 * eps + s._dt * min_sigma) ∧
       s'._cexe.data i j k < 1) ∧
      ((denominator s'._dt s'._eps_y s'._sigma_e_y).data i j k = 2 * eps + s._dt * min_sigma ∧
       (denominator s'._dt s'._eps_y s'._sigma_e_y).data i j k ≠ 0 ∧
       s'._ceye.data i j k =
         (2 * eps - s._dt * min_sigma) / (2 * eps + s._dt * min_sigma) ∧
       s'._ceye.data i j k < 1) ∧
      ((denominator s'._dt s'._eps_z s'._sigma_e_z).data i j k = 2 * eps + s._dt * min_sigma ∧
       (denominator s'._dt s'._eps_z s'._sigma_e_z).data i j k ≠ 0 ∧
       s'._ceze.data i j k =
         (2 * eps - s._dt * min_sigma) / (2 * eps + s._dt * min_sigma) ∧
       s'._ceze.data i j k < 1) ∧
      ((denominator s'._dt s'._mu_x s'._sigma_m_x).data i j k = 2 * mu + s._dt * min_sigma ∧
       (denominator s'._dt s'._mu_x s'._sigma_m_x).data i j k ≠ 0 ∧
       s'._chxh.data i j k =
         (2 * mu - s._dt * min_sigma) / (2 * mu + s._dt * min_sigma) ∧
       s'._chxh.data i j k < 1) ∧
      ((denominator s'._dt s'._mu_y s'._sigma_m_y).data i j k = 2 * mu + s._dt * min_sigma ∧
       (denominator s'._dt s'._mu_y s'._sigma_m_y).data i j k ≠ 0 ∧
       s'._chyh.data i j k =
         (2 * mu - s._dt * min_sigma) / (2 * mu + s._dt * min_sigma) ∧
       s'._chyh.data i j k < 1) ∧
      ((denominator s'._dt s'._mu_z s'._sigma_m_z).data i j k = 2 * mu + s._dt * min_sigma ∧
       (denominator s'._dt s'._mu_z s'._sigma_m_z).data i j k ≠ 0 ∧
       s'._chzh.data i j k =
         (2 * mu - s._dt * min_sigma) / (2 * mu + s._dt * min_sigma) ∧
       s'._chzh.data i j k < 1)) ∧
      (0 < u.EPSILON_0 → 0 < u.MU_0 →
        (∀ o ∈ s._objects, 0 < o.getElectromagneticProperties.1 ∧
          0 < o.getElectromagneticProperties.2.1) →
        ∀ a b c : Nat,
          ((denominator s'._dt s'._eps_x s'._sigma_e_x).data a b c ≠ 0 ∧
           s'._cexe.data a b c < 1) ∧
          ((denominator s'._dt s'._eps_y s'._sigma_e_y).data a b c ≠ 0 ∧
           s'._ceye.data a b c < 1) ∧
          ((denominator s'._dt s'._eps_z s'._sigma_e_z).data a b c ≠ 0 ∧
           s'._ceze.data a b c < 1) ∧
          ((denominator s'._dt s'._mu_x s'._sigma_m_x).data a b c ≠ 0 ∧
           s'._chxh.data a b c < 1) ∧
          ((denominator s'._dt s'._mu_y s'._sigma_m_y).data a b c ≠ 0 ∧
           s'._chyh.data a b c < 1) ∧
          ((denominator s'._dt s'._mu_z s'._sigma_m_z).data a b c ≠ 0 ∧
           s'._chzh.data a b c < 1)) := by
  have hne : s._objects ≠ [] := by
    intro hnil
    rw [hnil] at he
    unfold objectAt at he
    split at he
    · exact absurd he (by simp)
    · simp at he
  obtain ⟨s1, hok, hf, hw, hn⟩ := materialAndCoefficients_spec u s hgrid hne
  obtain ⟨_, _, _, _, _, hdt1, _, _, _, _⟩ := hf
  have hdt' : s1._dt = s._dt := hdt1
  have hdtpos : 0 < s1._dt := by
    rw [hdt']
    exact hdt
  obtain ⟨cell', e', hcell', he', hent⟩ := hw i j k ⟨hi, hj, hk⟩
  have hcc : cell' = cell := by
    have h1 : (gridSimualtionSpace s)._grid_space[i * s._ny * s._nz + j * s._nz + k]?
        = some cell' := hcell'
    rw [hcell] at h1
    exact (Option.some.inj h1).symm
  subst hcc
  have hee : e' = e := by
    have h1 : objectAt s._objects cell'.getMaterialIndex = some e' := he'
    rw [he] at h1
    exact (Option.some.inj h1).symm
  subst hee
  have hfloor : floorSigma u (0 : α) = min_sigma := by
    simp only [floorSigma, hle 0 min_sigma (le_of_lt min_sigma_pos), if_true]
  simp only [materialEntries, resolvedEntries, hprops, hfloor, List.cons.injEq,
    and_true] at hent
  obtain ⟨h1, h2, h3, h4, h5, h6, h7, h8, h9, h10, h11, h12⟩ := hent
  have hE := self_coefficient_lt_one s._dt eps min_sigma hdt heps min_sigma_pos
  have hM := self_coefficient_lt_one s._dt mu min_sigma hdt hmu min_sigma_pos
  refine ⟨_, hok, hdt', min_sigma_pos, ⟨h1, h5, h9, h3, h6, h10⟩,
    ⟨h2, h7, h11, h4, h8, h12⟩, ⟨?_, ?_, ?_, ?_, ?_, ?_⟩, ?_⟩
  · have hd : (denominator s1._dt s1._eps_x s1._sigma_e_x).data i j k
        = 2 * eps + s._dt * min_sigma := by
      show 2 * s1._eps_x.data i j k + s1._dt * s1._sigma_e_x.data i j k = _
      rw [h1, h2, hdt']
    have hc : (initUpdateCoefficient s1)._cexe.data i j k
        = (2 * eps - s._dt * min_sigma) / (2 * eps + s._dt * min_sigma) := by
      show (2 * s1._eps_x.data i j k - s1._dt * s1._sigma_e_x.data i j k) /
        (2 * s1._eps_x.data i j k + s1._dt * s1._sigma_e_x.data i j k) = _
      rw [h1, h2, hdt']
    refine ⟨hd, ?_, hc, ?_⟩
    · show (denominator s1._dt s1._eps_x s1._sigma_e_x).data i j k ≠ 0
      rw [hd]
      exact hE.1
    · rw [hc]
      exact hE.2
  · have hd : (denominator s1._dt s1._eps_y s1._sigma_e_y).data i j k
        = 2 * eps + s._dt * min_sigma := by
      show 2 * s1._eps_y.data i j k + s1._dt * s1._sigma_e_y.data i j k = _
      rw [h5, h7, hdt']
    have hc : (initUpdateCoefficient s1)._ceye.data i j k
        = (2 * eps - s._dt * min_sigma) / (2 * eps + s._dt * min_sigma) := by
      show (2 * s1._eps_y.data i j k - s1._dt * s1._sigma_e_y.data i j k) /
        (2 * s1._eps_y.data i j k + s1._dt * s1._sigma_e_y.data i j k) = _
      rw [h5, h7, hdt']
    refine ⟨hd, ?_, hc, ?_⟩
    · show (denominator s1._dt s1._eps_y s1._sigma_e_y).data i j k ≠ 0
      rw [hd]
      exact hE.1
    · rw [hc]
      exact hE.2
  · have hd : (denominator s1._dt s1._eps_z s1._sigma_e_z).data i j k
        = 2 * eps + s._dt * min_sigma := by
      show 2 * s1._eps_z.data i j k + s1._dt * s1._sigma_e_z.data i j k = _
      rw [h9, h11, hdt']
    have hc : (initUpdateCoefficient s1)._ceze.data i j k
        = (2 * eps - s._dt * min_sigma) / (2 * eps + s._dt * min_sigma) := by
      show (2 * s1._eps_z.data i j k - s1._dt * s1._sigma_e_z.data i j k) /
        (2 * s1._eps_z.data i j k + s1._dt * s1._sigma_e_z.data i j k) = _
      rw [h9, h11, hdt']
    refine ⟨hd, ?_, hc, ?_⟩
    · show (denominator s1._dt s1._eps_z s1._sigma_e_z).data i j k ≠ 0
      rw [hd]
      exact hE.1
    · rw [hc]
      exact hE.2
  · have hd : (denominator s1._dt s1._mu_x s1._sigma_m_x).data i j k
        = 2 * mu + s._dt * min_sigma := by
      show 2 * s1._mu_x.data i j k + s1._dt * s1._sigma_m_x.data i j k = _
      rw [h3, h4, hdt']
    have hc : (initUpdateCoefficient s1)._chxh.data i j k
        = (2 * mu - s._dt * min_sigma) / (2 * mu + s._dt * min_sigma) := by
      show (2 * s1._mu_x.data i j k - s1._dt * s1._sigma_m_x.data i j k) /
        (2 * s1._mu_x.data i j k + s1._dt * s1._sigma_m_x.data i j k) = _
      rw [h3, h4, hdt']
    refine ⟨hd, ?_, hc, ?_⟩
    · show (denominator s1._dt s1._mu_x s1._sigma_m_x).data i j k ≠ 0
      rw [hd]
      exact hM.1
    · rw [hc]
      exact hM.2
  · have hd : (denominator s1._dt s1._mu_y s1._sigma_m_y).data i j k
        = 2 * mu + s._dt * min_sigma := by
      show 2 * s1._mu_y.data i j k + s1._dt * s1._sigma_m_y.data i j k = _
      rw [h6, h8, hdt']
    have hc : (initUpdateCoefficient s1)._chyh.data i j k
        = (2 * mu - s._dt * min_sigma) / (2 * mu + s._dt * min_sigma) := by
      show (2 * s1._mu_y.data i j k - s1._dt * s1._sigma_m_y.data i j k) /
        (2 * s1._mu_y.data i j k + s1._dt * s1._sigma_m_y.data i j k) = _
      rw [h6, h8, hdt']
    refine ⟨hd, ?_, hc, ?_⟩
    · show (denominator s1._dt s1._mu_y s1._sigma_m_y).data i j k ≠ 0
      rw [hd]
      exact hM.1
    · rw [hc]
      exact hM.2
  · have hd : (denominator s1._dt s1._mu_z s1._sigma_m_z).data i j k
        = 2 * mu + s._dt * min_sigma := by
      show 2 * s1._mu_z.data i j k + s1._dt * s1._sigma_m_z.data i j k = _
      rw [h10, h12, hdt']
    have hc : (initUpdateCoefficient s1)._chzh.data i j k
        = (2 * mu - s._dt * min_sigma) / (2 * mu + s._dt * min_sigma) := by
      show (2 * s1._mu_z.data i j k - s1._dt * s1._sigma_m_z.data i j k) /
        (2 * s1._mu_z.data i j k + s1._dt * s1._sigma_m_z.data i j k) = _
      rw [h10, h12, hdt']
    refine ⟨hd, ?_, hc, ?_⟩
    · show (denominator s1._dt s1._mu_z s1._sigma_m_z).data i j k ≠ 0
      rw [hd]
      exact hM.1
    · rw [hc]
      exact hM.2
  · intro hE0 hM0 hall a b c
    apply coefficients_of_positive_entries s1 a b c hdtpos
    by_cases hin : a < s._nx ∧ b < s._ny ∧ c < s._nz
    · obtain ⟨_, o, _, ho, hento⟩ := hw a b c hin
      obtain ⟨po1, po2⟩ := hall o (objectAt_mem _ _ _ ho)
      have pe := lt_of_lt_of_le min_sigma_pos
        (floorSigma_ge u hle o.getElectromagneticProperties.2.2.1)
      have pm := lt_of_lt_of_le min_sigma_pos
        (floorSigma_ge u hle o.getElectromagneticProperties.2.2.2)
      rw [hento]
      simp only [resolvedEntries, List.forall_mem_cons, List.not_mem_nil, false_implies,
        implies_true, and_true]
      exact ⟨po1, pe, po2, pm, po1, po2, pe, pm, po1, po2, pe, pm⟩
    · rw [hn a b c hin, allocateArray_entries]
      simp only [List.forall_mem_cons, List.not_mem_nil, false_implies, implies_true,
        and_true]
      exact ⟨hE0, min_sigma_pos, hM0, min_sigma_pos, hE0, hM0, min_sigma_pos, min_sigma_pos,
        hE0, hM0, min_sigma_pos, min_sigma_pos⟩

/-- C10 at a concrete input: one cell and one lossless object with permittivity 2 and
permeability 3, with `dt = 1` and `EPSILON_0 = MU_0 = 1`; the statement on every index is
given with its premises discharged. -/
theorem C10_zero_conductivity_self_coefficients_witness :
    ∃ s', materialAndCoefficients (exampleUtil ℚ (fun x => x))
        (exampleSimulation ℚ [everywhere ℚ none (2, 3, 0, 0)] [] 1 1 1) = Except.ok s' ∧
      s'._dt = 1 ∧ (0 : ℚ) < min_sigma ∧
      (s'._eps_x.data 0 0 0 = 2 ∧ s'._eps_y.data 0 0 0 = 2 ∧
       s'._eps_z.data 0 0 0 = 2 ∧ s'._mu_x.data 0 0 0 = 3 ∧
       s'._mu_y.data 0 0 0 = 3 ∧ s'._mu_z.data 0 0 0 = 3) ∧
      (s'._sigma_e_x.data 0 0 0 = min_sigma ∧ s'._sigma_e_y.data 0 0 0 = min_sigma ∧
       s'._sigma_e_z.data 0 0 0 = min_sigma ∧ s'._sigma_m_x.data 0 0 0 = min_sigma ∧
       s'._sigma_m_y.data 0 0 0 = min_sigma ∧ s'._sigma_m_z.data 0 0 0 = min_sigma) ∧
     (
      ((denominator s'._dt s'._eps_x s'._sigma_e_x).data 0 0 0 = 2 * 2 + 1 * min_sigma ∧
       (denominator s'._dt s'._eps_x s'._sigma_e_x).data 0 0 0 ≠ 0 ∧
       s'._cexe.data 0 0 0 =
         (2 * 2 - 1 * min_sigma) / (2 * 2 + 1 * min_sigma) ∧
       s'._cexe.data 0 0 0 < 1) ∧
      ((denominator s'._dt s'._eps_y s'._sigma_e_y).data 0 0 0 = 2 * 2 + 1 * min_sigma ∧
       (denominator s'._dt s'._eps_y s'._sigma_e_y).data 0 0 0 ≠ 0 ∧
       s'._ceye.data 0 0 0 =
         (2 * 2 - 1 * min_sigma) / (2 * 2 + 1 * min_sigma) ∧
       s'._ceye.data 0 0 0 < 1) ∧
      ((denominator s'._dt s'._eps_z s'._sigma_e_z).data 0 0 0 = 2 * 2 + 1 * min_sigma ∧
       (denominator s'._dt s'._eps_z s'._sigma_e_z).data 0 0 0 ≠ 0 ∧
       s'._ceze.data 0 0 0 =
         (2 * 2 - 1 * min_sigma) / (2 * 2 + 1 * min_sigma) ∧
       s'._ceze.data 0 0 0 < 1) ∧
      ((denominator s'._dt s'._mu_x s'._sigma_m_x).data 0 0 0 = 2 * 3 + 1 * min_sigma ∧
       (denominator s'._dt s'._mu_x s'._sigma_m_x).data 0 0 0 ≠ 0 ∧
       s'._chxh.data 0 0 0 =
         (2 * 3 - 1 * min_sigma) / (2 * 3 + 1 * min_sigma) ∧
       s'._chxh.data 0 0 0 < 1) ∧
      ((denominator s'._dt s'._mu_y s'._sigma_m_y).data 0 0 0 = 2 * 3 + 1 * min_sigma ∧
       (denominator s'._dt s'._mu_y s'._sigma_m_y).data 0 0 0 ≠ 0 ∧
       s'._chyh.data 0 0 0 =
         (2 * 3 - 1 * min_sigma) / (2 * 3 + 1 * min_sigma) ∧
       s'._chyh.data 0 0 0 < 1) ∧
      ((denominator s'._dt s'._mu_z s'._sigma_m_z).data 0 0 0 = 2 * 3 + 1 * min_sigma ∧
       (denominator s'._dt s'._mu_z s'._sigma_m_z).data 0 0 0 ≠ 0 ∧
       s'._chzh.data 0 0 0 =
         (2 * 3 - 1 * min_sigma) / (2 * 3 + 1 * min_sigma) ∧
       s'._chzh.data 0 0 0 < 1)) ∧
      (∀ a b c : Nat,
        ((denominator s'._dt s'._eps_x s'._sigma_e_x).data a b c ≠ 0 ∧
         s'._cexe.data a b c < 1) ∧
        ((denominator s'._dt s'._eps_y s'._sigma_e_y).data a b c ≠ 0 ∧
         s'._ceye.data a b c < 1) ∧
        ((denominator s'._dt s'._eps_z s'._sigma_e_z).data a b c ≠ 0 ∧
         s'._ceze.data a b c < 1) ∧
        ((denominator s'._dt s'._mu_x s'._sigma_m_x).data a b c ≠ 0 ∧
         s'._chxh.data a b c < 1) ∧
        ((denominator s'._dt s'._mu_y s'._sigma_m_y).data a b c ≠ 0 ∧
         s'._chyh.data a b c < 1) ∧
        ((denominator s'._dt s'._mu_z s'._sigma_m_z).data a b c ≠ 0 ∧
         s'._chzh.data a b c < 1)) := by
  obtain ⟨s', h1, h2, h3, h4, h5, h6, h7⟩ :=
    C10_zero_conductivity_self_coefficients (exampleUtil ℚ (fun x => x))
      (exampleSimulation ℚ [everywhere ℚ none (2, 3, 0, 0)] [] 1 1 1) rfl
      (fun a b hab => by simp [exampleUtil, exactCompare, hab])
      (by norm_num [exampleSimulation]) 0 0 0 (by decide) (by decide) (by decide)
      (setCellMaterial [everywhere ℚ none (2, 3, 0, 0)]
        (builtCell (⟨⟨0, 0, 0⟩, ⟨1, 1, 1⟩⟩ : Cube ℚ) 1 1 1 1 1 0 0 0))
      (everywhere ℚ none (2, 3, 0, 0))
      ((gridSimualtionSpace_spec
        (exampleSimulation ℚ [everywhere ℚ none (2, 3, 0, 0)] [] 1 1 1)).2
        0 0 0 (by decide) (by decide) (by decide))
      rfl 2 3 rfl (by norm_num) (by norm_num)
  refine ⟨s', h1, h2, h3, h4, h5, h6, h7 ?_ ?_ ?_⟩
  · norm_num [exampleUtil, exactCompare]
  · norm_num [exampleUtil, exactCompare]
  · intro o ho
    simp only [exampleSimulation, List.mem_singleton] at ho
    subst ho
    simp only [everywhere]
    norm_num

end ExitClaims

end xfdtd
